import Mathlib

/-!
# RainMaker irrigation controller: schedule math, schedule store, execution engine

A shallow embedding of `backend/src/days_utils.c`, `sprinkler_repository.c`,
`sprinkler_storage.c` and `sprinkler_controller.c`.

Conventions of the embedding:
* `uint8_t` / `uint16_t` values are `Nat`; every assignment that can leave the
  range is reduced explicitly (`% 256`, `% 65536`).
* `time_t` is `Int` (seconds since the epoch, 64 bit on the target, never reduced).
* fixed-size C arrays are lists read with `getD _ default` (a zeroed record) and
  written with `List.set`; where the C code indexes a slot table with an id it was
  handed (`zones[zone_id - 1]`, `programs[program_id - 1]`) and the id is outside
  the table, the `fault` flag of the world is raised (the C behaviour is undefined
  from there on; the model drops the write and reads a zeroed record).
* `zone_count <= MAX_ZONES_PER_PROGRAM` is assumed of every stored program.
* the notification broadcasts (`broadcast_zone_update`, `broadcast_program_update`,
  transport layer) and the log output have no effect on the modelled state and
  are left out.
* every function that reads the clock takes the current time from the world
  (`World.now`) or as its first argument `now`.
-/

namespace RainMaker

/-! ## Constants (`sprinkler_storage.h`, `sprinkler_controller.c`) -/

def MAX_ZONES : Nat := 8
def MAX_PROGRAMS : Nat := 4
def MAX_ZONE_NAME_LEN : Nat := 32
def MAX_PROGRAM_NAME_LEN : Nat := 32
def MAX_ZONES_PER_PROGRAM : Nat := 8
def EXECUTION_QUEUE_SIZE : Nat := 10

/-- Error codes of `esp_err_t` that the sources return. -/
inductive esp_err_t where
  | ESP_OK
  | ESP_FAIL
  | ESP_ERR_NO_MEM
  | ESP_ERR_INVALID_ARG
  | ESP_ERR_INVALID_STATE
  | ESP_ERR_NOT_FOUND
  | ESP_ERR_TIMEOUT
  | ESP_ERR_NVS_NOT_FOUND
  deriving DecidableEq, Repr, Inhabited

open esp_err_t

/-! ## Data model (`sprinkler_storage.h`) -/

/-- Record `zone_t`; a zeroed record (`id = 0`) is an unused slot. -/
structure zone_t where
  id : Nat := 0
  name : List Nat := []
  output : Nat := 0
  enabled : Bool := false
  last_run : Int := 0
  deriving DecidableEq, Repr, Inhabited

/-- Record `program_zone_t`: one zone reference of a program, duration in minutes. -/
structure program_zone_t where
  zone_id : Nat := 0
  duration : Nat := 0
  order : Nat := 0
  deriving DecidableEq, Repr, Inhabited

/-- Record `schedule_t`: day bit field (bit 0 = Sunday) and start time. -/
structure schedule_t where
  days : Nat := 0
  start_hour : Nat := 0
  start_minute : Nat := 0
  deriving DecidableEq, Repr, Inhabited

/-- Record `program_t`; `zones` is the array `zones[MAX_ZONES_PER_PROGRAM]`, of which
the first `zone_count` entries are the references of the program. -/
structure program_t where
  id : Nat := 0
  name : List Nat := []
  enabled : Bool := false
  schedule : schedule_t := {}
  zones : List program_zone_t := List.replicate 8 {}
  zone_count : Nat := 0
  last_run : Int := 0
  next_run : Int := 0
  deriving DecidableEq, Repr

instance : Inhabited program_t := ⟨{}⟩

/-- Record `sprinkler_data_t`: the in-memory store, `zones[MAX_ZONES]` and
`programs[MAX_PROGRAMS]` with their counters. -/
structure sprinkler_data_t where
  zones : List zone_t := List.replicate 8 {}
  zone_count : Nat := 0
  programs : List program_t := List.replicate 4 {}
  program_count : Nat := 0
  deriving DecidableEq, Repr

instance : Inhabited sprinkler_data_t := ⟨{}⟩

/-! ## Calendar (`localtime` / `mktime` of the C library)

The calendar is the proleptic one with 24-hour days and no daylight-saving shift.
A broken-down time keeps the civil date as the number of the day since the epoch
(`tm_day` stands for `tm_year`/`tm_mon`/`tm_mday`); 1970-01-01 was a Thursday. -/

/-- Broken-down time `struct tm`. -/
structure tm where
  tm_sec : Int
  tm_min : Int
  tm_hour : Int
  tm_day : Int
  tm_wday : Nat
  deriving DecidableEq, Repr

/-- Conversion `localtime`: break a timestamp into day, weekday and time of day. -/
def localtime (t : Int) : tm :=
  { tm_sec := t % 60
    tm_min := (t % 3600) / 60
    tm_hour := (t % 86400) / 3600
    tm_day := t / 86400
    tm_wday := ((t / 86400 + 4) % 7).toNat }

/-- Conversion `mktime`: the timestamp of a broken-down time; fields out of their
usual range are carried over, `tm_wday` is ignored. -/
def mktime (b : tm) : Int :=
  b.tm_day * 86400 + b.tm_hour * 3600 + b.tm_min * 60 + b.tm_sec

/-! ## Day mask operations (`days_utils.c`) -/

/-- Function `set_day_mask`: `*days = mask`. -/
def set_day_mask (_days : Nat) (mask : Nat) : Nat := mask % 256

/-- Function `add_day`: `*days |= (1 << day)`, stored in a `uint8_t`. -/
def add_day (days : Nat) (day : Nat) : Nat := (days ||| (1 <<< day)) % 256

/-- Function `remove_day`: `*days &= ~(1 << day)`, stored in a `uint8_t`. -/
def remove_day (days : Nat) (day : Nat) : Nat :=
  (days &&& ((2 ^ 32 - 1) ^^^ ((1 <<< day) % 2 ^ 32))) % 256

/-- Function `has_day`: `(days & (1 << day)) != 0`. -/
def has_day (days : Nat) (day : Nat) : Bool := (days &&& (1 <<< day)) != 0

/-- Loop `for (days_ahead = 1; days_ahead <= 7; days_ahead++)` of `calculate_next_run`,
with `n` iterations left; falls through to `return 0`. -/
def next_run_scan (now : Int) (days start_hour start_minute : Nat) : Nat → Nat → Int
  | 0, _ => 0
  | n + 1, days_ahead =>
    let future_time := now + (days_ahead : Int) * 24 * 60 * 60
    let tm_future := localtime future_time
    let future_day_bit := 1 <<< tm_future.tm_wday
    if days &&& future_day_bit ≠ 0 then
      mktime { tm_future with tm_hour := start_hour, tm_min := start_minute, tm_sec := 0 }
    else
      next_run_scan now days start_hour start_minute n (days_ahead + 1)

/-- Function `calculate_next_run`, with `now = time(NULL)`. -/
def calculate_next_run (now : Int) (days start_hour start_minute : Nat) : Int :=
  let tm_now := localtime now
  let target_today :=
    mktime { tm_now with tm_hour := start_hour, tm_min := start_minute, tm_sec := 0 }
  let today_bit := 1 <<< tm_now.tm_wday
  if days &&& today_bit ≠ 0 ∧ target_today > now then
    target_today
  else
    next_run_scan now days start_hour start_minute 7 1

/-- A timestamp is a scheduled occurrence of `(days, hour, minute)` when its weekday
is in the mask and its time of day is `hour:minute:00`. -/
def is_scheduled (days hour minute : Nat) (t : Int) : Prop :=
  has_day days (localtime t).tm_wday = true ∧
    (localtime t).tm_hour = hour ∧ (localtime t).tm_min = minute ∧ (localtime t).tm_sec = 0

/-- Weekday of the day `k` days after `now`, as the scan of `calculate_next_run` sees it. -/
def wday_ahead (now : Int) (k : Nat) : Nat := (localtime (now + (k : Int) * 24 * 60 * 60)).tm_wday

/-- Target time `hour:minute:00` on the day `k` days after `now`. -/
def target_ahead (now : Int) (hour minute k : Nat) : Int :=
  mktime { localtime (now + (k : Int) * 24 * 60 * 60) with
    tm_hour := hour, tm_min := minute, tm_sec := 0 }

/-! ## Recovery check (`sprinkler_controller.c`, `check_program_recovery_operation`) -/

/-- Record `program_recovery_t`. -/
structure program_recovery_t where
  should_resume : Bool := false
  program_id : Nat := 0
  zone_index : Nat := 0
  remaining_minutes : Nat := 0
  deriving DecidableEq, Repr, Inhabited

/-- The test `pz->zone_id > 0 && pz->zone_id <= MAX_ZONES` followed by `zone->enabled`
for `zone = &data->zones[pz->zone_id - 1]`, as used by the recovery check and by
`executor_get_program_zone_operation`. -/
def zone_ref_enabled (data : sprinkler_data_t) (pz : program_zone_t) : Bool :=
  decide (pz.zone_id > 0) && decide (pz.zone_id ≤ MAX_ZONES) &&
    (data.zones.getD (pz.zone_id - 1) default).enabled

/-- First inner loop of the recovery check: `total_duration_minutes` (a `uint16_t`)
after `n` more iterations starting at index `j`. -/
def recovery_total_duration (data : sprinkler_data_t) (program : program_t) :
    Nat → Nat → Nat → Nat
  | 0, _, total_duration_minutes => total_duration_minutes
  | n + 1, j, total_duration_minutes =>
    let pz := program.zones.getD j default
    if zone_ref_enabled data pz then
      recovery_total_duration data program n (j + 1)
        ((total_duration_minutes + pz.duration) % 65536)
    else
      recovery_total_duration data program n (j + 1) total_duration_minutes

/-- Second inner loop of the recovery check: walk the references from index `j` with the
`uint16_t` accumulator `cumulative_minutes`; `some` is the early `return ESP_OK` with the
recovery record filled in, `none` is the loop running to its end. -/
def recovery_find_zone (data : sprinkler_data_t) (program : program_t) (elapsed_minutes : Nat) :
    Nat → Nat → Nat → Option program_recovery_t
  | 0, _, _ => none
  | n + 1, j, cumulative_minutes =>
    let pz := program.zones.getD j default
    if zone_ref_enabled data pz then
      if elapsed_minutes < cumulative_minutes + pz.duration then
        some { should_resume := true
               program_id := program.id
               zone_index := j % 256
               remaining_minutes := (cumulative_minutes + pz.duration - elapsed_minutes) % 65536 }
      else
        recovery_find_zone data program elapsed_minutes n (j + 1)
          ((cumulative_minutes + pz.duration) % 65536)
    else
      recovery_find_zone data program elapsed_minutes n (j + 1) cumulative_minutes

/-- Body of the loop over the program slots in `check_program_recovery_operation`, for
one program: `some r` when the body fills the recovery record and returns, `none` when
it reaches a `continue` or the end of the body. -/
def check_program_recovery_program (data : sprinkler_data_t) (now : Int) (program : program_t) :
    Option program_recovery_t :=
  let tm_now := localtime now
  if program.id = 0 ∨ program.enabled = false then none
  else
    let today_bit := 1 <<< tm_now.tm_wday
    if program.schedule.days &&& today_bit = 0 then none
    else
      let program_start := mktime { tm_now with
        tm_hour := program.schedule.start_hour
        tm_min := program.schedule.start_minute
        tm_sec := 0 }
      let total_duration_minutes := recovery_total_duration data program program.zone_count 0 0
      let program_end := program_start + ((total_duration_minutes * 60 : Nat) : Int)
      if now ≥ program_start ∧ now < program_end then
        let elapsed_minutes := (((now - program_start) / 60) % 65536).toNat
        recovery_find_zone data program elapsed_minutes program.zone_count 0 0
      else none

/-- Loop `for (int i = 0; i < MAX_PROGRAMS; i++)` of the recovery check with `n`
iterations left, starting at slot `i`. -/
def check_program_recovery_loop (data : sprinkler_data_t) (now : Int) :
    Nat → Nat → program_recovery_t → program_recovery_t
  | 0, _, recovery => recovery
  | n + 1, i, recovery =>
    match check_program_recovery_program data now (data.programs.getD i default) with
    | some found => found
    | none => check_program_recovery_loop data now n (i + 1) recovery

/-- Function `check_program_recovery_operation`, with `now = time(NULL)`; the result is
the record behind `user_data` (the function always returns `ESP_OK`). -/
def check_program_recovery_operation (data : sprinkler_data_t) (now : Int)
    (recovery : program_recovery_t) : program_recovery_t :=
  check_program_recovery_loop data now MAX_PROGRAMS 0 { recovery with should_resume := false }

/-- Minutes that reference `j` of a program occupies on the recovery timeline: its
duration when it points to an enabled zone, zero otherwise. -/
def enabled_minutes (data : sprinkler_data_t) (program : program_t) (j : Nat) : Nat :=
  if zone_ref_enabled data (program.zones.getD j default) then
    (program.zones.getD j default).duration
  else 0

/-- Sum of the enabled durations of the references before index `j`; the cumulative
end minute of reference `j` is `enabled_minutes_before data program (j + 1)`. -/
def enabled_minutes_before (data : sprinkler_data_t) (program : program_t) : Nat → Nat
  | 0 => 0
  | j + 1 => enabled_minutes_before data program j + enabled_minutes data program j

/-- Today's scheduled start of a program: `mktime` of today's date at its start time. -/
def program_start_today (now : Int) (program : program_t) : Int :=
  mktime { localtime now with
    tm_hour := program.schedule.start_hour
    tm_min := program.schedule.start_minute
    tm_sec := 0 }

/-- Store of the recovery scenario: zones 1 and 2 enabled, zone 3 disabled. -/
def scenario_zones : List zone_t :=
  [ { id := 1, name := [65], output := 4, enabled := true },
    { id := 2, name := [66], output := 5, enabled := true },
    { id := 3, name := [67], output := 18, enabled := false },
    {}, {}, {}, {}, {} ]

/-- Program of the recovery scenario: every day at 08:00, zone 1 for 30 minutes (minutes
0-30) then zone 2 for 40 minutes (minutes 30-70). -/
def recovery_scenario_program : program_t :=
  { id := 1, name := [80], enabled := true
    schedule := { days := 127, start_hour := 8, start_minute := 0 }
    zones := [ { zone_id := 1, duration := 30, order := 0 },
               { zone_id := 2, duration := 40, order := 1 }, {}, {}, {}, {}, {}, {} ]
    zone_count := 2 }

/-- Store of the recovery scenario. -/
def recovery_scenario_data : sprinkler_data_t :=
  { zones := scenario_zones, zone_count := 3
    programs := [recovery_scenario_program, {}, {}, {}], program_count := 1 }

/-- Program whose only references point to the disabled zone 3 and to no zone at all. -/
def disabled_only_program : program_t :=
  { id := 1, name := [80], enabled := true
    schedule := { days := 127, start_hour := 8, start_minute := 0 }
    zones := [ { zone_id := 3, duration := 30, order := 0 },
               { zone_id := 0, duration := 40, order := 1 }, {}, {}, {}, {}, {}, {} ]
    zone_count := 2 }

/-- Store holding `disabled_only_program` in slot 0. -/
def disabled_only_data : sprinkler_data_t :=
  { zones := scenario_zones, zone_count := 3
    programs := [disabled_only_program, {}, {}, {}], program_count := 1 }

/-- Program whose enabled references total 65537 minutes: zone 1 for 65535 minutes and
zone 1 again for 2 minutes, every day at 00:00. -/
def long_program : program_t :=
  { id := 1, name := [80], enabled := true
    schedule := { days := 127, start_hour := 0, start_minute := 0 }
    zones := [ { zone_id := 1, duration := 65535, order := 0 },
               { zone_id := 1, duration := 2, order := 1 }, {}, {}, {}, {}, {}, {} ]
    zone_count := 2 }

/-- Store holding `long_program` in slot 0. -/
def long_program_data : sprinkler_data_t :=
  { zones := scenario_zones, zone_count := 3
    programs := [long_program, {}, {}, {}], program_count := 1 }

/-- The recovery condition as the specification words it: the program is occupied and
enabled, today's bit is set in its day mask, and `now` lies in
`[program_start, program_start + 60 * sum of enabled-reference minutes)`. -/
def in_recovery_window (data : sprinkler_data_t) (now : Int) (program : program_t) : Prop :=
  program.id ≠ 0 ∧ program.enabled = true ∧
    has_day program.schedule.days (localtime now).tm_wday = true ∧
    program_start_today now program ≤ now ∧
    now < program_start_today now program
      + 60 * (enabled_minutes_before data program program.zone_count : Int)

/-! ## World: the global variables of the sources and their environment -/

/-- Record `execution_cmd_t`. -/
structure execution_cmd_t where
  program_id : Nat := 0
  zone_index : Nat := 0
  duration_minutes : Nat := 0
  is_program_start : Bool := false
  is_program_end : Bool := false
  deriving DecidableEq, Repr, Inhabited

/-- Record `execution_state_t`; the zeroed record is the state after `memset`. -/
structure execution_state_t where
  is_running : Bool := false
  current_program_id : Nat := 0
  current_zone_id : Nat := 0
  current_zone_index : Nat := 0
  zone_start_time : Int := 0
  zone_duration_seconds : Nat := 0
  deriving DecidableEq, Repr, Inhabited

/-- The one-shot software timer `zone_timer`: its period as handed to `pdMS_TO_TICKS`
(milliseconds) and whether it is armed. -/
structure timer_t where
  period_ms : Nat := 1000
  active : Bool := false
  deriving DecidableEq, Repr, Inhabited

/-- The global state: `sprinkler_data`, `exec_state`, `controller_running`,
`execution_queue`, `zone_timer`, the persisted records (`"zone_<id>"`, `"prog_<id>"`),
the output lines that are high, and the environment: the clock, whether
`sprinkler_data_mutex` can be taken within the timeout and whether the persistence
layer works. -/
structure World where
  now : Int := 0
  mutex_free : Bool := true
  nvs_ok : Bool := true
  sprinkler_data : sprinkler_data_t := {}
  nvs_zones : List (Nat × zone_t) := []
  nvs_programs : List (Nat × program_t) := []
  gpio_high : List Nat := []
  controller_running : Bool := false
  exec_state : execution_state_t := {}
  execution_queue : List execution_cmd_t := []
  zone_timer : timer_t := {}
  fault : Bool := false
  deriving DecidableEq, Repr

/-- Library call `strncpy(dst, src, n)` on a name kept as its bytes before the NUL. -/
def strncpy (src : List Nat) (n : Nat) : List Nat := src.take n

/-- Driver call `gpio_set_level(pin, level)`. -/
def gpio_set_level (w : World) (pin : Nat) (level : Bool) : World :=
  if level then
    { w with gpio_high := if pin ∈ w.gpio_high then w.gpio_high else w.gpio_high ++ [pin] }
  else
    { w with gpio_high := w.gpio_high.filter (fun p => p != pin) }

/-! ## Persistence (`storage.c`, `sprinkler_storage.c`) -/

/-- Write a blob under a key (`write_blob`), replacing an earlier record. -/
def nvs_set {α : Type} (m : List (Nat × α)) (key : Nat) (v : α) : List (Nat × α) :=
  (key, v) :: m.filter (fun e => e.1 != key)

/-- Read the blob under a key (`read_blob`). -/
def nvs_get {α : Type} (m : List (Nat × α)) (key : Nat) : Option α :=
  (m.find? (fun e => e.1 == key)).map (fun e => e.2)

/-- Function `sprinkler_save_zone`: key `"zone_<zone->id>"`. -/
def sprinkler_save_zone (w : World) (zone : zone_t) : World × esp_err_t :=
  if w.nvs_ok then ({ w with nvs_zones := nvs_set w.nvs_zones zone.id zone }, ESP_OK)
  else (w, ESP_FAIL)

/-- Function `sprinkler_load_zone`. -/
def sprinkler_load_zone (w : World) (zone_id : Nat) : Option zone_t × esp_err_t :=
  if w.nvs_ok then
    match nvs_get w.nvs_zones zone_id with
    | some zone => (some zone, ESP_OK)
    | none => (none, ESP_ERR_NVS_NOT_FOUND)
  else (none, ESP_FAIL)

/-- Function `sprinkler_delete_zone`: erasing a key that does not exist is an error
(`nvs_erase_key`). -/
def sprinkler_delete_zone (w : World) (zone_id : Nat) : World × esp_err_t :=
  if w.nvs_ok then
    match nvs_get w.nvs_zones zone_id with
    | some _ => ({ w with nvs_zones := w.nvs_zones.filter (fun e => e.1 != zone_id) }, ESP_OK)
    | none => (w, ESP_ERR_NVS_NOT_FOUND)
  else (w, ESP_FAIL)

/-- Function `sprinkler_save_program`: key `"prog_<program->id>"`. -/
def sprinkler_save_program (w : World) (program : program_t) : World × esp_err_t :=
  if w.nvs_ok then
    ({ w with nvs_programs := nvs_set w.nvs_programs program.id program }, ESP_OK)
  else (w, ESP_FAIL)

/-- Function `sprinkler_load_program`. -/
def sprinkler_load_program (w : World) (program_id : Nat) : Option program_t × esp_err_t :=
  if w.nvs_ok then
    match nvs_get w.nvs_programs program_id with
    | some program => (some program, ESP_OK)
    | none => (none, ESP_ERR_NVS_NOT_FOUND)
  else (none, ESP_FAIL)

/-- Function `sprinkler_delete_program`. -/
def sprinkler_delete_program (w : World) (program_id : Nat) : World × esp_err_t :=
  if w.nvs_ok then
    match nvs_get w.nvs_programs program_id with
    | some _ =>
      ({ w with nvs_programs := w.nvs_programs.filter (fun e => e.1 != program_id) }, ESP_OK)
    | none => (w, ESP_ERR_NVS_NOT_FOUND)
  else (w, ESP_FAIL)

/-! ## Schedule store (`sprinkler_repository.c`) -/

/-- Raise `fault` when `zones[zone_id - 1]` is outside the zone table. The C access
then lands outside the array (for `zones[MAX_ZONES]` on the bytes of `zone_count`, which
follows the table in `sprinkler_data_t`; for id 0 on the bytes before the table); the
model does not represent those bytes: it reads a zeroed record and drops the write for
an id above the table and uses slot 0 for id 0. Once `fault` is raised, only the flag and
the return code describe the program, not the contents of the store. -/
def zone_slot_access (w : World) (zone_id : Nat) : World :=
  { w with fault := w.fault || decide (zone_id = 0) || decide (zone_id > MAX_ZONES) }

/-- Raise `fault` when `programs[program_id - 1]` is outside the program table; as for
`zone_slot_access`, the contents of the store are then not those of the program. -/
def program_slot_access (w : World) (program_id : Nat) : World :=
  { w with fault := w.fault || decide (program_id = 0) || decide (program_id > MAX_PROGRAMS) }

/-- Store `zone` into `sprinkler_data.zones[index]`. -/
def set_zone (w : World) (index : Nat) (zone : zone_t) : World :=
  { w with sprinkler_data := { w.sprinkler_data with zones := w.sprinkler_data.zones.set index zone } }

/-- Store `program` into `sprinkler_data.programs[index]`. -/
def set_program (w : World) (index : Nat) (program : program_t) : World :=
  { w with sprinkler_data :=
      { w.sprinkler_data with programs := w.sprinkler_data.programs.set index program } }

/-- Function `init_zone_gpio` (`sprinkler_controller.c`): configure the line as an
output and drive it low. -/
def init_zone_gpio (w : World) (zone : zone_t) : World × esp_err_t :=
  (gpio_set_level w zone.output false, ESP_OK)

/-- Search `for (int i = 0; i < MAX; i++) if (slot[i].id == 0) { available_slot = i; break; }`
over the ids of a slot table, from index `i`. -/
def find_available_slot : List Nat → Nat → Option Nat
  | [], _ => none
  | id :: rest, i => if id = 0 then some i else find_available_slot rest (i + 1)

/-- Function `sprinkler_create_or_update_zone`. -/
def sprinkler_create_or_update_zone (w : World) (zone_id : Nat) (name : List Nat) (output : Nat) :
    World × esp_err_t :=
  if zone_id ≠ 0 then
    if w.mutex_free = false then (w, ESP_ERR_TIMEOUT)
    else
      let w := zone_slot_access w zone_id
      let zone := w.sprinkler_data.zones.getD (zone_id - 1) default
      if zone.id = 0 then (w, ESP_ERR_INVALID_STATE)
      else
        let zone := { zone with name := strncpy name (MAX_ZONE_NAME_LEN - 1), output := output }
        let w := set_zone w (zone_id - 1) zone
        let saved := sprinkler_save_zone w zone
        ((init_zone_gpio saved.1 zone).1, saved.2)
  else if w.sprinkler_data.zone_count ≥ MAX_ZONES then (w, ESP_ERR_NO_MEM)
  else
    match find_available_slot ((w.sprinkler_data.zones.take MAX_ZONES).map (fun z => z.id)) 0 with
    | none => (w, ESP_ERR_NO_MEM)
    | some available_slot =>
      let zone : zone_t :=
        { w.sprinkler_data.zones.getD available_slot default with
          id := available_slot + 1
          name := strncpy name (MAX_ZONE_NAME_LEN - 1)
          output := output
          enabled := true
          last_run := 0 }
      let w := set_zone w available_slot zone
      let saved := sprinkler_save_zone w zone
      if saved.2 = ESP_OK then
        let w := (init_zone_gpio saved.1 zone).1
        ({ w with sprinkler_data :=
            { w.sprinkler_data with zone_count := (w.sprinkler_data.zone_count + 1) % 256 } },
          saved.2)
      else saved

/-- Inner loop of `sprinkler_remove_zone_from_program`:
`for (k = j; k < zone_count - 1; k++) { zones[k] = zones[k + 1]; zones[k].order -= 1; }`
with `n` iterations left. -/
def shift_zones_left : Nat → Nat → List program_zone_t → List program_zone_t
  | 0, _, zones => zones
  | n + 1, k, zones =>
    let next := zones.getD (k + 1) default
    shift_zones_left n (k + 1) (zones.set k { next with order := (next.order + 255) % 256 })

/-- State of the outer loop of `sprinkler_remove_zone_from_program`. -/
structure remove_loop_t where
  zones : List program_zone_t
  zone_count : Nat
  j : Nat
  program_modified : Bool
  deriving DecidableEq, Repr

/-- Outer loop `for (int j = 0; j < program->zone_count; j++)` of
`sprinkler_remove_zone_from_program`, run for at most `fuel` iterations; a removal
decrements `zone_count` and leaves `j` in place (`j--` followed by the loop's `j++`).
The loop has ended when the result has `j >= zone_count`. -/
def remove_zone_loop (zone_id : Nat) : Nat → remove_loop_t → remove_loop_t
  | 0, s => s
  | fuel + 1, s =>
    if s.j < s.zone_count then
      if (s.zones.getD s.j default).zone_id = zone_id then
        remove_zone_loop zone_id fuel
          { zones := shift_zones_left (s.zone_count - 1 - s.j) s.j s.zones
            zone_count := s.zone_count - 1
            j := s.j
            program_modified := true }
      else
        remove_zone_loop zone_id fuel { s with j := s.j + 1 }
    else s

/-- Function `sprinkler_remove_zone_from_program` (called with the mutex held). The
outer loop is given `zone_count` iterations, which is the number it makes. -/
def sprinkler_remove_zone_from_program (w : World) (program_id zone_id : Nat) :
    World × esp_err_t :=
  if program_id > w.sprinkler_data.program_count ∨ program_id = 0 then (w, ESP_ERR_INVALID_ARG)
  else
    let w := program_slot_access w program_id
    let program := w.sprinkler_data.programs.getD (program_id - 1) default
    let s := remove_zone_loop zone_id program.zone_count
      { zones := program.zones, zone_count := program.zone_count, j := 0,
        program_modified := false }
    let program := { program with zones := s.zones, zone_count := s.zone_count }
    let w := set_program w (program_id - 1) program
    if s.program_modified then sprinkler_save_program w program
    else (w, ESP_OK)

/-- Loop `for (int i = 1; i <= MAX_PROGRAMS; i++) sprinkler_remove_zone_from_program(i, zone_id)`
of `sprinkler_remove_zone`, with `n` iterations left. -/
def remove_zone_from_programs (zone_id : Nat) : Nat → Nat → World → World
  | 0, _, w => w
  | n + 1, i, w =>
    remove_zone_from_programs zone_id n (i + 1) (sprinkler_remove_zone_from_program w i zone_id).1

/-- Function `sprinkler_remove_zone`. -/
def sprinkler_remove_zone (w : World) (zone_id : Nat) : World × esp_err_t :=
  if w.mutex_free = false then (w, ESP_ERR_TIMEOUT)
  else
    let w := zone_slot_access w zone_id
    let w := set_zone w (zone_id - 1) default
    let w := { w with sprinkler_data :=
      { w.sprinkler_data with zone_count := (w.sprinkler_data.zone_count + 255) % 256 } }
    let deleted := sprinkler_delete_zone w zone_id
    if deleted.2 ≠ ESP_OK then deleted
    else (remove_zone_from_programs zone_id MAX_PROGRAMS 1 deleted.1, deleted.2)

/-- Function `sprinkler_enable_zone`. -/
def sprinkler_enable_zone (w : World) (zone_id : Nat) (is_enabled : Bool) : World × esp_err_t :=
  if w.mutex_free = false then (w, ESP_ERR_TIMEOUT)
  else
    let w := zone_slot_access w zone_id
    let zone := { w.sprinkler_data.zones.getD (zone_id - 1) default with enabled := is_enabled }
    let w := set_zone w (zone_id - 1) zone
    sprinkler_save_zone w zone

/-- Loop `for (int i = 0; i < zone_count; i++)` copying `zone_id`, `order` and `duration`
of the given references into `program->zones`, with `n` iterations left. -/
def copy_program_zones (src : List program_zone_t) :
    Nat → Nat → List program_zone_t → List program_zone_t
  | 0, _, dst => dst
  | n + 1, i, dst =>
    copy_program_zones src n (i + 1)
      (dst.set i { zone_id := (src.getD i default).zone_id
                   order := (src.getD i default).order
                   duration := (src.getD i default).duration })

/-- Function `sprinkler_create_or_update_program`; `zones` and `zone_count` are the
array and the count handed in by the caller. -/
def sprinkler_create_or_update_program (w : World) (program_id : Nat) (name : List Nat)
    (days start_hour start_minute : Nat) (zones : List program_zone_t) (zone_count : Nat) :
    World × esp_err_t :=
  if w.mutex_free = false then (w, ESP_ERR_TIMEOUT)
  else if program_id ≠ 0 then
    let w := program_slot_access w program_id
    let program := w.sprinkler_data.programs.getD (program_id - 1) default
    if program.id = 0 then (w, ESP_ERR_INVALID_STATE)
    else
      let w := { w with fault := w.fault || decide (zone_count > MAX_ZONES_PER_PROGRAM) }
      let program :=
        { program with
          name := strncpy name (MAX_ZONE_NAME_LEN - 1)
          schedule := { days := days, start_hour := start_hour, start_minute := start_minute }
          zone_count := zone_count
          zones := copy_program_zones zones zone_count 0 program.zones
          next_run := calculate_next_run w.now days start_hour start_minute }
      let w := set_program w (program_id - 1) program
      sprinkler_save_program w program
  else if w.sprinkler_data.program_count ≥ MAX_PROGRAMS then (w, ESP_ERR_NO_MEM)
  else
    match find_available_slot
        ((w.sprinkler_data.programs.take MAX_PROGRAMS).map (fun p => p.id)) 0 with
    | none => (w, ESP_ERR_NO_MEM)
    | some available_slot =>
      let w := { w with fault := w.fault || decide (zone_count > MAX_ZONES_PER_PROGRAM) }
      let old := w.sprinkler_data.programs.getD available_slot default
      let program : program_t :=
        { old with
          id := available_slot + 1
          name := strncpy name (MAX_PROGRAM_NAME_LEN - 1)
          enabled := true
          schedule := { days := days, start_hour := start_hour, start_minute := start_minute }
          zone_count := zone_count
          zones := copy_program_zones zones zone_count 0 old.zones
          last_run := 0
          next_run := calculate_next_run w.now days start_hour start_minute }
      let w := set_program w available_slot program
      let saved := sprinkler_save_program w program
      if saved.2 = ESP_OK then
        ({ saved.1 with sprinkler_data :=
            { saved.1.sprinkler_data with
              program_count := (saved.1.sprinkler_data.program_count + 1) % 256 } }, saved.2)
      else saved

/-- Function `sprinkler_remove_program`. -/
def sprinkler_remove_program (w : World) (program_id : Nat) : World × esp_err_t :=
  if w.mutex_free = false then (w, ESP_ERR_TIMEOUT)
  else
    let w := program_slot_access w program_id
    let w := set_program w (program_id - 1) default
    let w := { w with sprinkler_data :=
      { w.sprinkler_data with program_count := (w.sprinkler_data.program_count + 255) % 256 } }
    sprinkler_delete_program w program_id

/-- Function `sprinkler_enable_program`. -/
def sprinkler_enable_program (w : World) (program_id : Nat) (is_enabled : Bool) :
    World × esp_err_t :=
  if w.mutex_free = false then (w, ESP_ERR_TIMEOUT)
  else
    let w := program_slot_access w program_id
    let program :=
      { w.sprinkler_data.programs.getD (program_id - 1) default with enabled := is_enabled }
    let w := set_program w (program_id - 1) program
    sprinkler_save_program w program

/-- Function `sprinkler_add_zone_to_program`. -/
def sprinkler_add_zone_to_program (w : World) (program_id zone_id duration order : Nat) :
    World × esp_err_t :=
  if w.mutex_free = false then (w, ESP_ERR_TIMEOUT)
  else if program_id > w.sprinkler_data.program_count ∨ program_id = 0 then
    (w, ESP_ERR_INVALID_ARG)
  else
    let w := program_slot_access w program_id
    let program := w.sprinkler_data.programs.getD (program_id - 1) default
    if program.zone_count ≥ MAX_ZONES_PER_PROGRAM then (w, ESP_ERR_NO_MEM)
    else
      let program :=
        { program with
          zones := program.zones.set program.zone_count
            { zone_id := zone_id, duration := duration, order := order }
          zone_count := (program.zone_count + 1) % 256 }
      let w := set_program w (program_id - 1) program
      sprinkler_save_program w program

/-- Function `sprinkler_update_zone_status`. -/
def sprinkler_update_zone_status (w : World) (zone_id : Nat) (turn_on : Bool) :
    World × esp_err_t :=
  if w.mutex_free = false then (w, ESP_ERR_TIMEOUT)
  else
    let w := zone_slot_access w zone_id
    let zone := w.sprinkler_data.zones.getD (zone_id - 1) default
    let zone := if turn_on then { zone with last_run := w.now } else zone
    let w := set_zone w (zone_id - 1) zone
    sprinkler_save_zone w zone

/-- Function `sprinkler_update_program_next_run`. -/
def sprinkler_update_program_next_run (w : World) (program_id : Nat) : World × esp_err_t :=
  if w.mutex_free = false then (w, ESP_ERR_TIMEOUT)
  else
    let w := program_slot_access w program_id
    let program := w.sprinkler_data.programs.getD (program_id - 1) default
    let program :=
      { program with
        next_run := calculate_next_run w.now program.schedule.days
          program.schedule.start_hour program.schedule.start_minute }
    let w := set_program w (program_id - 1) program
    sprinkler_save_program w program

/-- Function `sprinkler_update_program_last_run`. -/
def sprinkler_update_program_last_run (w : World) (program_id : Nat) : World × esp_err_t :=
  if w.mutex_free = false then (w, ESP_ERR_TIMEOUT)
  else
    let w := program_slot_access w program_id
    let program :=
      { w.sprinkler_data.programs.getD (program_id - 1) default with last_run := w.now }
    let w := set_program w (program_id - 1) program
    sprinkler_save_program w program

/-- Function `safe_sprinklerdata_operation`: run `operation` with the mutex held, or
return `ESP_FAIL` when the mutex cannot be taken. -/
def safe_sprinklerdata_operation (operation : World → World × esp_err_t) (w : World) :
    World × esp_err_t :=
  if w.mutex_free then operation w else (w, ESP_FAIL)

/-! ## Execution engine (`sprinkler_controller.c`) -/

/-- Record `executor_operation_data_t`. -/
structure executor_operation_data_t where
  program_id : Nat := 0
  zone_index : Nat := 0
  program_found : Bool := false
  program_name : List Nat := []
  zone_count : Nat := 0
  zone_id : Nat := 0
  zone_duration_minutes : Nat := 0
  zone_enabled : Bool := false
  deriving DecidableEq, Repr, Inhabited

/-- Record `sprinkler_controller_status_t`. -/
structure sprinkler_controller_status_t where
  is_running : Bool := false
  current_program_id : Nat := 0
  current_zone_id : Nat := 0
  zone_start_time : Int := 0
  zone_duration_seconds : Nat := 0
  zone_remaining_seconds : Nat := 0
  deriving DecidableEq, Repr, Inhabited

/-- Timer calls `xTimerChangePeriod(zone_timer, pdMS_TO_TICKS(ms), 0)` followed by
`xTimerStart(zone_timer, 0)`: the timer is armed with the new period. -/
def timer_change_period_and_start (w : World) (ms : Nat) : World :=
  { w with zone_timer := { period_ms := ms, active := true } }

/-- Timer call `xTimerStop(zone_timer, 0)`. -/
def timer_stop (w : World) : World :=
  { w with zone_timer := { w.zone_timer with active := false } }

/-- Queue call `xQueueSend(execution_queue, &cmd, ...)` on the queue of depth
`EXECUTION_QUEUE_SIZE`: `true` is `pdTRUE`, a full queue refuses the command. -/
def queue_send (w : World) (cmd : execution_cmd_t) : World × Bool :=
  if w.execution_queue.length < EXECUTION_QUEUE_SIZE then
    ({ w with execution_queue := w.execution_queue ++ [cmd] }, true)
  else (w, false)

/-- Loop of `init_all_zones_gpio`: `for (i = 0; i < zone_count; i++) init_zone_gpio(&zones[i])`
with `n` iterations left. -/
def init_zones_gpio_loop : Nat → Nat → World → World
  | 0, _, w => w
  | n + 1, i, w =>
    init_zones_gpio_loop n (i + 1) (init_zone_gpio w (w.sprinkler_data.zones.getD i default)).1

/-- Function `init_all_zones_gpio`. -/
def init_all_zones_gpio (w : World) : World × esp_err_t :=
  (init_zones_gpio_loop w.sprinkler_data.zone_count 0 w, ESP_OK)

/-- Function `update_gpio_state`. -/
def update_gpio_state (zone_id : Nat) (turn_on : Bool) (w : World) : World × esp_err_t :=
  let zone := w.sprinkler_data.zones.getD (zone_id - 1) default
  if zone.id = 0 then (w, ESP_ERR_NOT_FOUND)
  else
    let w := { w with exec_state :=
      { w.exec_state with
        is_running := turn_on
        current_zone_id := if turn_on then zone_id else 0
        zone_start_time := w.now } }
    (gpio_set_level w zone.output turn_on, ESP_OK)

/-- Function `control_zone`. -/
def control_zone (w : World) (zone_id : Nat) (turn_on : Bool) : World × esp_err_t :=
  if zone_id > MAX_ZONES ∨ zone_id = 0 then (w, ESP_ERR_INVALID_STATE)
  else
    let ret := safe_sprinklerdata_operation (update_gpio_state zone_id turn_on) w
    if ret.2 = ESP_OK then sprinkler_update_zone_status ret.1 zone_id turn_on
    else ret

/-- Function `zone_timer_callback`. -/
def zone_timer_callback (w : World) : World :=
  if w.exec_state.current_program_id = 255 then
    let w :=
      if w.exec_state.current_zone_id ≠ 0 then
        (control_zone w w.exec_state.current_zone_id false).1
      else w
    { w with exec_state := {} }
  else
    let cmd : execution_cmd_t :=
      { program_id := w.exec_state.current_program_id
        zone_index := (w.exec_state.current_zone_index + 1) % 256
        is_program_end := false }
    (queue_send w cmd).1

/-- Loop `for (int i = op_data->zone_index; i < program->zone_count; i++)` of
`executor_get_program_zone_operation`, with `n` iterations left. -/
def executor_find_zone (data : sprinkler_data_t) (program : program_t) :
    Nat → Nat → executor_operation_data_t → executor_operation_data_t
  | 0, _, op_data => op_data
  | n + 1, i, op_data =>
    let pz := program.zones.getD i default
    if zone_ref_enabled data pz then
      { op_data with
        zone_index := i
        zone_id := pz.zone_id
        zone_duration_minutes := pz.duration
        zone_enabled := true }
    else executor_find_zone data program n (i + 1) op_data

/-- Function `executor_get_program_zone_operation`; it always returns `ESP_OK`, the
result is the record behind `user_data`. -/
def executor_get_program_zone_operation (data : sprinkler_data_t)
    (op_data : executor_operation_data_t) : executor_operation_data_t :=
  let op_data := { op_data with program_found := false, zone_enabled := false }
  if op_data.program_id = 0 ∨ op_data.program_id > MAX_PROGRAMS then op_data
  else
    let program := data.programs.getD (op_data.program_id - 1) default
    if program.id = 0 then op_data
    else
      let op_data :=
        { op_data with
          program_found := true
          program_name := strncpy program.name (MAX_PROGRAM_NAME_LEN - 1)
          zone_count := program.zone_count }
      executor_find_zone data program (program.zone_count - op_data.zone_index)
        op_data.zone_index op_data

/-- Activation of the zone found by the lookup, shared by the program-start and the
continuation branch of `executor_task`: set the duration and the zone id, switch the
zone on, arm the timer. -/
def executor_activate (w : World) (op_data : executor_operation_data_t) : World :=
  let w := { w with exec_state :=
    { w.exec_state with
      zone_duration_seconds := (op_data.zone_duration_minutes * 60) % 65536
      current_zone_id := op_data.zone_id } }
  let w := (control_zone w op_data.zone_id true).1
  timer_change_period_and_start w (w.exec_state.zone_duration_seconds * 1000)

/-- One iteration of the loop of `executor_task`: receive a command (or time out on an
empty queue) and handle it. -/
def executor_task_step (w : World) : World :=
  if w.controller_running = false then w
  else
    match w.execution_queue with
    | [] => w
    | cmd :: rest =>
      let w := { w with execution_queue := rest }
      let op_data : executor_operation_data_t :=
        { program_id := cmd.program_id
          zone_index := if cmd.is_program_start then 0 else cmd.zone_index + 1 }
      if w.mutex_free = false then w
      else
        let op_data := executor_get_program_zone_operation w.sprinkler_data op_data
        if op_data.program_found = false then w
        else if cmd.is_program_start then
          let w := { w with exec_state :=
            { w.exec_state with
              current_program_id := op_data.program_id
              current_zone_index := op_data.zone_index % 256 } }
          if op_data.zone_enabled then executor_activate w op_data
          else
            { w with exec_state :=
              { w.exec_state with current_program_id := 0, current_zone_index := 0 } }
        else
          let w := (control_zone w w.exec_state.current_zone_id false).1
          if op_data.zone_enabled then
            let w := { w with exec_state :=
              { w.exec_state with current_zone_index := op_data.zone_index % 256 } }
            executor_activate w op_data
          else
            let w := (sprinkler_update_program_next_run w op_data.program_id).1
            { w with exec_state :=
              { w.exec_state with current_program_id := 0, current_zone_index := 0 } }

/-- Function `sprinkler_controller_init`: the queue and the timer are created empty and
dormant (their allocation is assumed to succeed). -/
def sprinkler_controller_init (w : World) : World × esp_err_t :=
  let ret := safe_sprinklerdata_operation init_all_zones_gpio w
  if ret.2 ≠ ESP_OK then ret
  else ({ ret.1 with execution_queue := [], zone_timer := { period_ms := 1000, active := false } },
    ESP_OK)

/-- Loop of `update_all_programs_next_run_operation` over the program slots, with `n`
iterations left. -/
def update_all_programs_next_run_loop : Nat → Nat → World → World
  | 0, _, w => w
  | n + 1, i, w =>
    let program := w.sprinkler_data.programs.getD i default
    if program.id = 0 ∨ program.enabled = false then
      update_all_programs_next_run_loop n (i + 1) w
    else
      let new_next_run := calculate_next_run w.now program.schedule.days
        program.schedule.start_hour program.schedule.start_minute
      if program.next_run ≠ new_next_run then
        let program := { program with next_run := new_next_run }
        let w := set_program w i program
        update_all_programs_next_run_loop n (i + 1) (sprinkler_save_program w program).1
      else update_all_programs_next_run_loop n (i + 1) w

/-- Function `sprinkler_controller_update_all_next_runs`. -/
def sprinkler_controller_update_all_next_runs (w : World) : World × esp_err_t :=
  safe_sprinklerdata_operation
    (fun w => (update_all_programs_next_run_loop MAX_PROGRAMS 0 w, ESP_OK)) w

/-- Function `sprinkler_controller_start` (the creation of the worker task is assumed to
succeed; the worker then runs `executor_task_step` while `controller_running`). -/
def sprinkler_controller_start (w : World) : World × esp_err_t :=
  if w.controller_running then (w, ESP_ERR_INVALID_STATE)
  else
    let w := { w with controller_running := true }
    let w := (sprinkler_controller_update_all_next_runs w).1
    if w.mutex_free = false then (w, ESP_OK)
    else
      let recovery := check_program_recovery_operation w.sprinkler_data w.now {}
      if recovery.should_resume then
        let w := { w with exec_state :=
          { w.exec_state with
            current_program_id := recovery.program_id
            current_zone_index := recovery.zone_index } }
        let op_data := executor_get_program_zone_operation w.sprinkler_data
          { program_id := recovery.program_id, zone_index := recovery.zone_index }
        if op_data.program_found ∧ op_data.zone_enabled then
          let w := { w with exec_state :=
            { w.exec_state with
              zone_duration_seconds := (recovery.remaining_minutes * 60) % 65536
              current_zone_id := op_data.zone_id } }
          let w := (control_zone w op_data.zone_id true).1
          let w := timer_change_period_and_start w (w.exec_state.zone_duration_seconds * 1000)
          let w := (sprinkler_update_program_last_run w recovery.program_id).1
          (w, ESP_OK)
        else (w, ESP_OK)
      else (w, ESP_OK)

/-- Function `sprinkler_controller_stop`. -/
def sprinkler_controller_stop (w : World) : World × esp_err_t :=
  if w.controller_running = false then (w, ESP_ERR_INVALID_STATE)
  else
    let w := { w with controller_running := false }
    let w :=
      if w.exec_state.is_running ∧ w.exec_state.current_zone_id ≠ 0 then
        timer_stop (control_zone w w.exec_state.current_zone_id false).1
      else w
    ({ w with exec_state := {} }, ESP_OK)

/-- Function `sprinkler_controller_stop_pending`. -/
def sprinkler_controller_stop_pending (w : World) : World × esp_err_t :=
  if w.controller_running = false then (w, ESP_ERR_INVALID_STATE)
  else
    let zone_id := w.exec_state.current_zone_id
    let program_id := w.exec_state.current_program_id
    let w := { w with exec_state := {} }
    let w := if zone_id ≠ 0 then timer_stop (control_zone w zone_id false).1 else w
    let w := if program_id ≠ 0 then (sprinkler_update_program_next_run w program_id).1 else w
    (w, ESP_OK)

/-- Function `sprinkler_controller_manual_zone`. -/
def sprinkler_controller_manual_zone (w : World) (zone_id duration_seconds : Nat) :
    World × esp_err_t :=
  if w.controller_running = false then (w, ESP_ERR_INVALID_STATE)
  else
    let w := (sprinkler_controller_stop_pending w).1
    let w := { w with exec_state :=
      { w.exec_state with zone_duration_seconds := duration_seconds, current_program_id := 255 } }
    let ret := control_zone w zone_id true
    if ret.2 ≠ ESP_OK then ret
    else (timer_change_period_and_start ret.1 (duration_seconds * 1000), ESP_OK)

/-- Function `sprinkler_controller_manual_program`. -/
def sprinkler_controller_manual_program (w : World) (program_id : Nat) : World × esp_err_t :=
  if w.controller_running = false then (w, ESP_ERR_INVALID_STATE)
  else
    let w := (sprinkler_controller_stop_pending w).1
    let cmd : execution_cmd_t :=
      { program_id := program_id, zone_index := 0, is_program_start := true,
        is_program_end := false }
    let sent := queue_send w cmd
    if sent.2 then ((sprinkler_update_program_last_run sent.1 program_id).1, ESP_OK)
    else (sent.1, ESP_OK)

/-- Function `sprinkler_controller_get_status` for a non-null `status`. -/
def sprinkler_controller_get_status (w : World) : sprinkler_controller_status_t × esp_err_t :=
  let elapsed := ((w.now - w.exec_state.zone_start_time) % 65536).toNat
  ({ is_running := w.exec_state.is_running
     current_program_id := w.exec_state.current_program_id
     current_zone_id := w.exec_state.current_zone_id
     zone_start_time := w.exec_state.zone_start_time
     zone_duration_seconds := w.exec_state.zone_duration_seconds
     zone_remaining_seconds :=
       if w.exec_state.is_running ∧ w.exec_state.zone_start_time > 0 then
         if elapsed < w.exec_state.zone_duration_seconds then
           w.exec_state.zone_duration_seconds - elapsed
         else 0
       else 0 }, ESP_OK)

/-- Expiry of the one-shot `zone_timer`: the timer becomes dormant and its callback
runs; nothing happens while the timer is not armed. -/
def timer_expiry (w : World) : World :=
  if w.zone_timer.active then
    zone_timer_callback { w with zone_timer := { w.zone_timer with active := false } }
  else w

/-- The steps of the engine: the public operations called from a command handler, the
expiry of the zone timer, one iteration of the worker, and the passing of time. -/
inductive engine_event where
  | start
  | stop
  | manual_zone (zone_id duration_seconds : Nat)
  | manual_program (program_id : Nat)
  | stop_pending
  | timer_expiry
  | worker
  | tick (seconds : Nat)
  deriving DecidableEq, Repr

/-- Effect of one step on the world. -/
def engine_step (w : World) : engine_event → World
  | .start => (sprinkler_controller_start w).1
  | .stop => (sprinkler_controller_stop w).1
  | .manual_zone zone_id duration_seconds =>
    (sprinkler_controller_manual_zone w zone_id duration_seconds).1
  | .manual_program program_id => (sprinkler_controller_manual_program w program_id).1
  | .stop_pending => (sprinkler_controller_stop_pending w).1
  | .timer_expiry => timer_expiry w
  | .worker => executor_task_step w
  | .tick seconds => { w with now := w.now + seconds }

/-- Effect of a sequence of steps. -/
def engine_run (w : World) (events : List engine_event) : World :=
  events.foldl engine_step w

/-- The zones of a store whose output line is high. -/
def active_zones (w : World) : List zone_t :=
  w.sprinkler_data.zones.filter (fun z => decide (z.id ≠ 0) && decide (z.output ∈ w.gpio_high))

/-! ## Status strings (`sprinkler_serialization.c`) -/

/-- Function `zone_status_to_string`. -/
def zone_status_to_string (zone : zone_t) (sprinkler_status : sprinkler_controller_status_t) :
    String :=
  if zone.enabled = false then "disabled"
  else if sprinkler_status.is_running ∧ zone.id = sprinkler_status.current_zone_id then
    if sprinkler_status.current_program_id = 255 then "testing" else "running"
  else "idle"

/-- Loop `for (int zone_id = 1; zone_id <= MAX_ZONES; zone_id++)` of
`sprinkler_zones_to_json`, with `n` iterations left: the zones that get an entry, each
with the status string printed for it (empty slots are skipped). -/
def zone_list_entries (data : sprinkler_data_t) (sprinkler_status : sprinkler_controller_status_t) :
    Nat → Nat → List (zone_t × String)
  | 0, _ => []
  | n + 1, zone_id =>
    if (data.zones.getD (zone_id - 1) default).id = 0 then
      zone_list_entries data sprinkler_status n (zone_id + 1)
    else
      (data.zones.getD (zone_id - 1) default,
        zone_status_to_string (data.zones.getD (zone_id - 1) default) sprinkler_status)
        :: zone_list_entries data sprinkler_status n (zone_id + 1)

/-- Function `sprinkler_zones_to_json` as far as the status of each zone goes: the
snapshot is taken with `sprinkler_controller_get_status`, then every occupied slot is
listed with its status string (the JSON text and the buffer bound are left out). -/
def sprinkler_zones_to_json (w : World) : List (zone_t × String) :=
  zone_list_entries w.sprinkler_data (sprinkler_controller_get_status w).1 MAX_ZONES 1


/-! ## Loading the store (`sprinkler_storage.c`, `sprinkler_load_all_data`) -/

/-- Loop `for (uint8_t i = 1; i <= MAX_ZONES; i++)` of `sprinkler_load_all_data`, with `n`
iterations left: a record found under key `i` (`sprinkler_load_zone` returns `ESP_OK`
exactly when it yields a record) is copied to `data->zones[zone.id - 1]` and counted. -/
def load_zones_loop : Nat → Nat → World → World
  | 0, _, w => w
  | n + 1, i, w =>
    match (sprinkler_load_zone w i).1 with
    | some zone =>
      load_zones_loop n (i + 1)
        { zone_slot_access w zone.id with
          sprinkler_data :=
            { w.sprinkler_data with
              zones := w.sprinkler_data.zones.set (zone.id - 1) zone
              zone_count := (w.sprinkler_data.zone_count + 1) % 256 } }
    | none => load_zones_loop n (i + 1) w

/-- Loop `for (uint8_t i = 1; i <= MAX_PROGRAMS; i++)` of `sprinkler_load_all_data`, with
`n` iterations left. -/
def load_programs_loop : Nat → Nat → World → World
  | 0, _, w => w
  | n + 1, i, w =>
    match (sprinkler_load_program w i).1 with
    | some program =>
      load_programs_loop n (i + 1)
        { program_slot_access w program.id with
          sprinkler_data :=
            { w.sprinkler_data with
              programs := w.sprinkler_data.programs.set (program.id - 1) program
              program_count := (w.sprinkler_data.program_count + 1) % 256 } }
    | none => load_programs_loop n (i + 1) w

/-- Function `sprinkler_load_all_data` on the global `sprinkler_data`: the structure is
zeroed, then the zone and the program records are loaded. -/
def sprinkler_load_all_data (w : World) : World × esp_err_t :=
  let w := { w with sprinkler_data := {} }
  let w := load_zones_loop MAX_ZONES 1 w
  let w := load_programs_loop MAX_PROGRAMS 1 w
  (w, ESP_OK)

/-! ## Sequences of store operations -/

/-- The public operations of the schedule store (`sprinkler_repository.h`) with their
arguments. -/
inductive store_op where
  | create_or_update_zone (zone_id : Nat) (name : List Nat) (output : Nat)
  | remove_zone (zone_id : Nat)
  | enable_zone (zone_id : Nat) (is_enabled : Bool)
  | create_or_update_program (program_id : Nat) (name : List Nat)
      (days start_hour start_minute : Nat) (zones : List program_zone_t) (zone_count : Nat)
  | remove_program (program_id : Nat)
  | enable_program (program_id : Nat) (is_enabled : Bool)
  | add_zone_to_program (program_id zone_id duration order : Nat)
  | update_zone_status (zone_id : Nat) (turn_on : Bool)
  | update_program_next_run (program_id : Nat)
  | update_program_last_run (program_id : Nat)
  deriving DecidableEq, Repr

/-- Effect of one store operation and its return code. -/
def store_step (w : World) : store_op → World × esp_err_t
  | .create_or_update_zone zone_id name output =>
    sprinkler_create_or_update_zone w zone_id name output
  | .remove_zone zone_id => sprinkler_remove_zone w zone_id
  | .enable_zone zone_id is_enabled => sprinkler_enable_zone w zone_id is_enabled
  | .create_or_update_program program_id name days start_hour start_minute zones zone_count =>
    sprinkler_create_or_update_program w program_id name days start_hour start_minute
      zones zone_count
  | .remove_program program_id => sprinkler_remove_program w program_id
  | .enable_program program_id is_enabled => sprinkler_enable_program w program_id is_enabled
  | .add_zone_to_program program_id zone_id duration order =>
    sprinkler_add_zone_to_program w program_id zone_id duration order
  | .update_zone_status zone_id turn_on => sprinkler_update_zone_status w zone_id turn_on
  | .update_program_next_run program_id => sprinkler_update_program_next_run w program_id
  | .update_program_last_run program_id => sprinkler_update_program_last_run w program_id

/-- Effect of a sequence of store operations, whatever each of them returns. -/
def store_run (w : World) (ops : List store_op) : World :=
  ops.foldl (fun w op => (store_step w op).1) w

/-- The ids of an operation are in range: a zone id in `1..MAX_ZONES`, a program id in
`1..MAX_PROGRAMS`, or 0 for a creation; at most `MAX_ZONES_PER_PROGRAM` references are
handed to a program creation or update. -/
def store_op.ids_in_range : store_op → Bool
  | .create_or_update_zone zone_id _ _ => decide (zone_id ≤ MAX_ZONES)
  | .remove_zone zone_id => decide (1 ≤ zone_id ∧ zone_id ≤ MAX_ZONES)
  | .enable_zone zone_id _ => decide (1 ≤ zone_id ∧ zone_id ≤ MAX_ZONES)
  | .create_or_update_program program_id _ _ _ _ _ zone_count =>
    decide (program_id ≤ MAX_PROGRAMS ∧ zone_count ≤ MAX_ZONES_PER_PROGRAM)
  | .remove_program program_id => decide (1 ≤ program_id ∧ program_id ≤ MAX_PROGRAMS)
  | .enable_program program_id _ => decide (1 ≤ program_id ∧ program_id ≤ MAX_PROGRAMS)
  | .add_zone_to_program program_id _ _ _ =>
    decide (1 ≤ program_id ∧ program_id ≤ MAX_PROGRAMS)
  | .update_zone_status zone_id _ => decide (1 ≤ zone_id ∧ zone_id ≤ MAX_ZONES)
  | .update_program_next_run program_id =>
    decide (1 ≤ program_id ∧ program_id ≤ MAX_PROGRAMS)
  | .update_program_last_run program_id =>
    decide (1 ≤ program_id ∧ program_id ≤ MAX_PROGRAMS)

/-- Slot/id agreement: zone slot `i` and program slot `i` hold id 0 or `i + 1`. -/
def slots_agree (data : sprinkler_data_t) : Prop :=
  (∀ i, i < MAX_ZONES →
    (data.zones.getD i default).id = 0 ∨ (data.zones.getD i default).id = i + 1) ∧
  (∀ i, i < MAX_PROGRAMS →
    (data.programs.getD i default).id = 0 ∨ (data.programs.getD i default).id = i + 1)

/-- The persisted records are those the store writes: the record under key `k` carries
id `k`. -/
def records_keyed_by_id (w : World) : Prop :=
  (∀ e, e ∈ w.nvs_zones → e.2.id = e.1) ∧ (∀ e, e ∈ w.nvs_programs → e.2.id = e.1)


/-! ## Scenario stores -/

/-- Program 1 of the engine scenarios: Mondays at 06:00, zone 1 (A) for 10 minutes,
zone 3 (B, disabled) for 15 minutes, zone 2 (C) for 5 minutes; `next_run` as stored. -/
def skip_disabled_program (next_run : Int) : program_t :=
  { id := 1, name := [80], enabled := true
    schedule := { days := 2, start_hour := 6, start_minute := 0 }
    zones := [ { zone_id := 1, duration := 10, order := 0 },
               { zone_id := 3, duration := 15, order := 1 },
               { zone_id := 2, duration := 5, order := 2 }, {}, {}, {}, {}, {} ]
    zone_count := 3
    next_run := next_run }

/-- Program 2 of the engine scenarios: Mondays at 07:00, zone 1 for 10 minutes then
zone 2 for 5 minutes, both enabled. -/
def two_zone_program (next_run : Int) : program_t :=
  { id := 2, name := [81], enabled := true
    schedule := { days := 2, start_hour := 7, start_minute := 0 }
    zones := [ { zone_id := 1, duration := 10, order := 0 },
               { zone_id := 2, duration := 5, order := 1 }, {}, {}, {}, {}, {}, {} ]
    zone_count := 2
    next_run := next_run }

/-- Store of the engine scenarios: zones 1 (line 4) and 2 (line 5) enabled, zone 3
(line 18) disabled, programs 1 and 2. -/
def engine_scenario_data (next_run : Int) : sprinkler_data_t :=
  { zones := scenario_zones, zone_count := 3
    programs := [skip_disabled_program next_run, two_zone_program next_run, {}, {}]
    program_count := 2 }

/-- World before `sprinkler_controller_init`, at time `now`, every record persisted. -/
def boot_world (now next_run : Int) : World :=
  { now := now
    sprinkler_data := engine_scenario_data next_run
    nvs_zones := [(1, scenario_zones.getD 0 default), (2, scenario_zones.getD 1 default),
      (3, scenario_zones.getD 2 default)]
    nvs_programs := [(1, skip_disabled_program next_run), (2, two_zone_program next_run)] }

/-- World with the controller started and idle, holding `queue` as pending commands. -/
def started_world (now next_run : Int) (queue : List execution_cmd_t) : World :=
  { boot_world now next_run with controller_running := true, execution_queue := queue }

/-- The program-start command that `sprinkler_controller_manual_program` enqueues. -/
def program_start_cmd (program_id : Nat) : execution_cmd_t :=
  { program_id := program_id, zone_index := 0, is_program_start := true, is_program_end := false }

/-- Next-run of program `program_id` in the store of a world. -/
def next_run_of (w : World) (program_id : Nat) : Int :=
  (w.sprinkler_data.programs.getD (program_id - 1) default).next_run

/-- World of the cascade scenario, built with the store operations from an empty store:
zone 1, program 1 without references, program 2 referencing zone 1, then program 1
removed. -/
def cascade_world : World :=
  let w : World := { now := 463500 }
  let w := (sprinkler_create_or_update_zone w 0 [65] 4).1
  let w := (sprinkler_create_or_update_program w 0 [80] 2 6 0 [] 0).1
  let w := (sprinkler_create_or_update_program w 0 [81] 2 7 0
    [{ zone_id := 1, duration := 10, order := 0 }] 1).1
  (sprinkler_remove_program w 1).1

/-- The zones of the engine scenarios with given `last_run` stamps of zones 1 and 2. -/
def scenario_zones_at (a_last c_last : Int) : List zone_t :=
  [ { id := 1, name := [65], output := 4, enabled := true, last_run := a_last },
    { id := 2, name := [66], output := 5, enabled := true, last_run := c_last },
    { id := 3, name := [67], output := 18, enabled := false },
    {}, {}, {}, {}, {} ]

/-- The worlds met along a run of program 1 in the engine scenario: the clock, the
`last_run` stamps of zones 1 and 2, the `next_run` of program 1 (`p1_next`) and of
program 2, whether zone 2 was the last zone record written, and the engine state. -/
def trace_world (now a_last c_last p1_next p2_next : Int) (c_written_last : Bool)
    (gpio_high : List Nat) (exec_state : execution_state_t)
    (execution_queue : List execution_cmd_t) (zone_timer : timer_t) : World :=
  { now := now
    sprinkler_data :=
      { zones := scenario_zones_at a_last c_last, zone_count := 3
        programs := [skip_disabled_program p1_next, two_zone_program p2_next, {}, {}]
        program_count := 2 }
    nvs_zones :=
      if c_written_last then
        [(2, (scenario_zones_at a_last c_last).getD 1 default),
         (1, (scenario_zones_at a_last c_last).getD 0 default),
         (3, (scenario_zones_at a_last c_last).getD 2 default)]
      else
        [(1, (scenario_zones_at a_last c_last).getD 0 default),
         (2, (scenario_zones_at a_last c_last).getD 1 default),
         (3, (scenario_zones_at a_last c_last).getD 2 default)]
    nvs_programs := [(1, skip_disabled_program p1_next), (2, two_zone_program p2_next)]
    gpio_high := gpio_high
    controller_running := true
    exec_state := exec_state
    execution_queue := execution_queue
    zone_timer := zone_timer }

/-- World with an empty store whose persistence layer refuses every write. -/
def nvs_down_world : World := { now := 463500, nvs_ok := false }

/-- World of the cascade scenario while another task holds the store lock for longer
than the timeout. -/
def locked_world : World := { cascade_world with mutex_free := false }

/-- World reached from the empty store by `sprinkler_remove_program(1)`: the delete of the
missing record fails, `program_count` has wrapped from 0 to 255 and every slot is free. -/
def wrapped_count_world : World := (sprinkler_remove_program { now := 463500 } 1).1

/-- A name of 40 bytes, longer than the 31 bytes a record holds. -/
def long_name : List Nat := List.replicate 40 65

/-- World of the engine scenario on Tuesday 1970-01-06 at 09:00 with program 2 running its
first reference, zone 1 (line 4), for 10 minutes since 08:55. -/
def running_program_world : World :=
  trace_world 464400 464100 0 0 0 false [4]
    { is_running := true, current_program_id := 2, current_zone_id := 1,
      current_zone_index := 0, zone_start_time := 464100, zone_duration_seconds := 600 }
    [] { period_ms := 600000, active := true }

/-- World on Tuesday 09:00 whose program 1 (every day at 08:00) refers only to the
disabled zone 3 and to no zone; its `next_run` still holds today 08:00 and its
program-start command is queued on the started controller. -/
def no_enabled_zone_world : World :=
  { now := 464400
    sprinkler_data :=
      { disabled_only_data with
        programs := [{ disabled_only_program with next_run := 460800 }, {}, {}, {}] }
    nvs_programs := [(1, { disabled_only_program with next_run := 460800 })]
    controller_running := true
    execution_queue := [program_start_cmd 1] }

/-- World in which zone 1 was started for 600 seconds at wall-clock time 1000 and is
still marked running when the clock reads 66636, that is 65636 seconds later. -/
def stale_clock_world : World :=
  { started_world 66636 0 [] with
    gpio_high := [4]
    exec_state := { is_running := true, current_program_id := 255, current_zone_id := 1,
                    zone_start_time := 1000, zone_duration_seconds := 600 }
    zone_timer := { period_ms := 600000, active := true } }

/-- World of the engine scenario in which an advance command has gone stale: program 2 is
started and its first zone (zone 1, 10 minutes) runs out, so the timer callback queues
the advance command of program 2; before the worker takes it,
`sprinkler_controller_manual_zone(2, 60)` starts a manual run of zone 2 (line 5). -/
def stale_advance_world : World :=
  engine_run (started_world 464400 0 [])
    [.manual_program 2, .worker, .timer_expiry, .manual_zone 2 60]

/-- Program 1 with a single reference: zone 1 for 1093 minutes (65580 seconds). -/
def long_zone_program : program_t :=
  { id := 1, name := [80], enabled := true
    schedule := { days := 127, start_hour := 8, start_minute := 0 }
    zones := [ { zone_id := 1, duration := 1093, order := 0 }, {}, {}, {}, {}, {}, {}, {} ]
    zone_count := 1 }

/-- Started controller holding `long_zone_program` with its program-start command
queued. -/
def long_zone_world : World :=
  { now := 464400
    sprinkler_data :=
      { zones := scenario_zones, zone_count := 3
        programs := [long_zone_program, {}, {}, {}], program_count := 1 }
    nvs_programs := [(1, long_zone_program)]
    controller_running := true
    execution_queue := [program_start_cmd 1] }

/-- World before `sprinkler_controller_start` in the recovery scenario: the controller is
stopped at 08:45 (elapsed minute 45 of the 08:00 program of `recovery_scenario_data`). -/
def recovery_boot_world : World :=
  { now := 463500
    sprinkler_data := recovery_scenario_data
    nvs_zones := [(1, scenario_zones.getD 0 default), (2, scenario_zones.getD 1 default),
      (3, scenario_zones.getD 2 default)]
    nvs_programs := [(1, recovery_scenario_program)] }

/-- World before `sprinkler_controller_start` on Tuesday 09:00 with both programs holding
the stale `next_run` 100, while another task holds the store lock for longer than the
timeout; persistence works. -/
def locked_boot_world : World := { boot_world 464400 100 with mutex_free := false }

/-- The references of a program: the first `zone_count` entries of its `zones` array. -/
def program_references (program : program_t) : List program_zone_t :=
  program.zones.take program.zone_count

/-- A reference as the specification describes it: the order is an integer, so that
"decreased by the number of removed references" has a value whatever the numbers are. -/
structure reference_value_t where
  zone_id : Nat
  duration : Nat
  order : Int
  deriving DecidableEq, Repr

/-- The values a stored reference holds. -/
def reference_values (pz : program_zone_t) : reference_value_t :=
  { zone_id := pz.zone_id, duration := pz.duration, order := (pz.order : Int) }

/-- The reference list the specification gives for `sprinkler_remove_zone_from_program`:
the references whose `zone_id` differs from `zone_id`, in their original relative order,
with `zone_id` and `duration` unchanged and `order` decreased by `removed`, the number of
removed references that preceded the reference. -/
def references_without_zone (zone_id : Nat) :
    Nat → List program_zone_t → List reference_value_t
  | _, [] => []
  | removed, r :: rs =>
    if r.zone_id = zone_id then references_without_zone zone_id (removed + 1) rs
    else { zone_id := r.zone_id, duration := r.duration
           order := (r.order : Int) - (removed : Int) }
      :: references_without_zone zone_id removed rs

/-- The orders of the references are the contiguous sequence `base, base + 1, ...`; the
specification requires `contiguous_orders 0` of every program. -/
def contiguous_orders : Nat → List program_zone_t → Bool
  | _, [] => true
  | base, r :: rs => decide (r.order = base) && contiguous_orders (base + 1) rs

/-- Every kept reference carries an `order` that is at least the number of removed
references before it, so decreasing it by that number does not pass below zero. -/
def orders_cover_removals (zone_id : Nat) : Nat → List program_zone_t → Bool
  | _, [] => true
  | removed, r :: rs =>
    if r.zone_id = zone_id then orders_cover_removals zone_id (removed + 1) rs
    else decide (removed ≤ r.order) && orders_cover_removals zone_id removed rs

/-- The statement `zones[k].order -= 1` on a reference (`order` is a `uint8_t`). -/
def decrement_order (pz : program_zone_t) : program_zone_t :=
  { pz with order := (pz.order + 255) % 256 }

/-- The value of a `uint8_t` order after `n` executions of `order -= 1`. -/
def order_decremented : Nat → Nat → Nat
  | 0, order => order
  | n + 1, order => order_decremented n ((order + 255) % 256)

/-- The reference list the loop of `sprinkler_remove_zone_from_program` produces: the
references whose `zone_id` differs from `zone_id`, in their original relative order, each
`order` decremented once per removed predecessor in `uint8_t` arithmetic. -/
def references_after_removal (zone_id : Nat) : Nat → List program_zone_t → List program_zone_t
  | _, [] => []
  | removed, r :: rs =>
    if r.zone_id = zone_id then references_after_removal zone_id (removed + 1) rs
    else { r with order := order_decremented removed r.order }
      :: references_after_removal zone_id removed rs

/-- Store built through the repository interface in which program 1 holds two references
that both carry order 0: zone 1 for 10 minutes and zone 2 for 5 minutes. -/
def equal_orders_world : World :=
  let w : World := { now := 463500 }
  let w := (sprinkler_create_or_update_zone w 0 [65] 4).1
  let w := (sprinkler_create_or_update_zone w 0 [66] 5).1
  let w := (sprinkler_create_or_update_program w 0 [80] 2 6 0 [] 0).1
  let w := (sprinkler_add_zone_to_program w 1 1 10 0).1
  (sprinkler_add_zone_to_program w 1 2 5 0).1

/-- Store built through the repository interface in which program 1 references zones 1,
2, 1, 3 with orders 0, 1, 2, 3. -/
def ordered_refs_world : World :=
  let w : World := { now := 463500 }
  let w := (sprinkler_create_or_update_zone w 0 [65] 4).1
  let w := (sprinkler_create_or_update_zone w 0 [66] 5).1
  let w := (sprinkler_create_or_update_zone w 0 [67] 18).1
  let w := (sprinkler_create_or_update_program w 0 [80] 2 6 0 [] 0).1
  let w := (sprinkler_add_zone_to_program w 1 1 10 0).1
  let w := (sprinkler_add_zone_to_program w 1 2 5 1).1
  let w := (sprinkler_add_zone_to_program w 1 1 7 2).1
  (sprinkler_add_zone_to_program w 1 3 9 3).1

/-! ## Theorems: schedule math -/


theorem mask_has_bit : ∀ m : Nat, m < 128 → (∀ k, k < 7 → m &&& (1 <<< k) = 0) → m = 0 := by
  decide

theorem has_day_iff (days day : Nat) : has_day days day = true ↔ days &&& (1 <<< day) ≠ 0 := by
  simp [has_day]

theorem has_day_false_iff (days day : Nat) :
    has_day days day = false ↔ days &&& (1 <<< day) = 0 := by
  simp [has_day]

theorem target_ahead_eq (now : Int) (hour minute k : Nat) :
    target_ahead now hour minute k
      = (now / 86400 + k) * 86400 + (hour : Int) * 3600 + (minute : Int) * 60 := by
  simp only [target_ahead, mktime, localtime]
  omega

theorem wday_ahead_eq (now : Int) (k : Nat) :
    wday_ahead now k = ((now / 86400 + k + 4) % 7).toNat := by
  simp only [wday_ahead, localtime]
  congr 1
  omega

theorem next_run_scan_miss (now : Int) (days hour minute : Nat) :
    ∀ n da, (∀ k, da ≤ k → k < da + n → has_day days (wday_ahead now k) = false) →
      next_run_scan now days hour minute n da = 0 := by
  intro n
  induction n with
  | zero => intro da _; rfl
  | succ n ih =>
    intro da h
    have h0 := h da (Nat.le_refl _) (by omega)
    rw [has_day_false_iff] at h0
    simp only [next_run_scan]
    rw [if_neg (by simpa [wday_ahead] using h0)]
    exact ih (da + 1) (fun k hk1 hk2 => h k (by omega) (by omega))

theorem next_run_scan_hit (now : Int) (days hour minute : Nat) :
    ∀ n da k, da ≤ k → k < da + n → has_day days (wday_ahead now k) = true →
      (∀ j, da ≤ j → j < k → has_day days (wday_ahead now j) = false) →
      next_run_scan now days hour minute n da = target_ahead now hour minute k := by
  intro n
  induction n with
  | zero => intro da k h1 h2; omega
  | succ n ih =>
    intro da k h1 h2 hk hmin
    simp only [next_run_scan]
    by_cases hda : da = k
    · subst hda
      rw [has_day_iff] at hk
      rw [if_pos (by simpa [wday_ahead] using hk)]
      rfl
    · have h0 := hmin da (Nat.le_refl _) (by omega)
      rw [has_day_false_iff] at h0
      rw [if_neg (by simpa [wday_ahead] using h0)]
      exact ih (da + 1) k (by omega) (by omega) hk (fun j hj1 hj2 => hmin j (by omega) hj2)

theorem exists_day_ahead (now : Int) (days : Nat) (h0 : 0 < days) (h7 : days < 128) :
    ∃ k, 1 ≤ k ∧ k ≤ 7 ∧ has_day days (wday_ahead now k) = true := by
  have hb : ∃ b, b < 7 ∧ days &&& (1 <<< b) ≠ 0 := by
    by_contra hcon
    push_neg at hcon
    have := mask_has_bit days h7 hcon
    omega
  obtain ⟨b, hb7, hbit⟩ := hb
  let r : Int := ((b : Int) - (now / 86400 + 4)) % 7
  have hr0 : 0 ≤ r := Int.emod_nonneg _ (by decide)
  have hr7 : r < 7 := Int.emod_lt_of_pos _ (by decide)
  refine ⟨if r = 0 then 7 else r.toNat, ?_, ?_, ?_⟩
  · split <;> omega
  · split <;> omega
  · rw [has_day_iff, wday_ahead_eq]
    have : ((now / 86400 + ((if r = 0 then 7 else r.toNat : Nat) : Int) + 4) % 7).toNat = b := by
      split <;> omega
    rw [this]
    exact hbit

/-- First day ahead (1..7) whose bit is set in a non-empty 7-bit mask. -/
theorem exists_first_day_ahead (now : Int) (days : Nat) (h0 : 0 < days) (h7 : days < 128) :
    ∃ k, 1 ≤ k ∧ k ≤ 7 ∧ has_day days (wday_ahead now k) = true ∧
      ∀ j, 1 ≤ j → j < k → has_day days (wday_ahead now j) = false := by
  classical
  have hex : ∃ k, 1 ≤ k ∧ has_day days (wday_ahead now k) = true := by
    obtain ⟨k, h1, _, h3⟩ := exists_day_ahead now days h0 h7
    exact ⟨k, h1, h3⟩
  obtain ⟨k7, _, hk7, hk7d⟩ := exists_day_ahead now days h0 h7
  refine ⟨Nat.find hex, (Nat.find_spec hex).1, ?_, (Nat.find_spec hex).2, ?_⟩
  · exact le_trans (Nat.find_min' hex ⟨by assumption, hk7d⟩) hk7
  · intro j hj1 hj2
    have := Nat.find_min hex hj2
    simp only [not_and] at this
    simpa using this hj1

theorem calculate_next_run_today (now : Int) (days hour minute : Nat)
    (hbit : has_day days (wday_ahead now 0) = true)
    (hlt : now < target_ahead now hour minute 0) :
    calculate_next_run now days hour minute = target_ahead now hour minute 0 := by
  rw [has_day_iff] at hbit
  have hbit2 : days &&& (1 <<< (localtime now).tm_wday) ≠ 0 := by
    simpa [wday_ahead] using hbit
  have hlt2 : mktime { localtime now with tm_hour := hour, tm_min := minute, tm_sec := 0 } > now := by
    simpa [target_ahead] using hlt
  simp only [calculate_next_run]
  rw [if_pos ⟨hbit2, hlt2⟩]
  simp [target_ahead]

theorem calculate_next_run_later (now : Int) (days hour minute : Nat)
    (hnot : ¬ (has_day days (wday_ahead now 0) = true ∧ now < target_ahead now hour minute 0)) :
    calculate_next_run now days hour minute = next_run_scan now days hour minute 7 1 := by
  simp only [calculate_next_run]
  rw [if_neg]
  intro hc
  apply hnot
  refine ⟨?_, ?_⟩
  · rw [has_day_iff]
    simpa [wday_ahead] using hc.1
  · simpa [target_ahead] using hc.2

theorem calculate_next_run_gt (now : Int) (days hour minute : Nat)
    (h0 : 0 < days) (h7 : days < 128) (hh : hour < 24) (hm : minute < 60) :
    now < calculate_next_run now days hour minute := by
  by_cases htoday : has_day days (wday_ahead now 0) = true ∧ now < target_ahead now hour minute 0
  · rw [calculate_next_run_today now days hour minute htoday.1 htoday.2]
    exact htoday.2
  · rw [calculate_next_run_later now days hour minute htoday]
    obtain ⟨k, hk1, hk7, hkd, hkmin⟩ := exists_first_day_ahead now days h0 h7
    rw [next_run_scan_hit now days hour minute 7 1 k hk1 (by omega) hkd hkmin, target_ahead_eq]
    omega

theorem calculate_next_run_empty_mask (now : Int) (hour minute : Nat) :
    calculate_next_run now 0 hour minute = 0 := by
  rw [calculate_next_run_later now 0 hour minute (by simp [has_day])]
  exact next_run_scan_miss now 0 hour minute 7 1 (fun k _ _ => by simp [has_day])

/-- C1. For every current time `now`, every start hour 0..23 and minute 0..59: with a
non-empty 7-bit day mask `calculate_next_run` returns a timestamp strictly greater than
`now`, and with the empty mask it returns 0. -/
theorem calculate_next_run_future (now : Int) (days hour minute : Nat)
    (hh : hour < 24) (hm : minute < 60) :
    (0 < days → days < 128 → now < calculate_next_run now days hour minute) ∧
      calculate_next_run now 0 hour minute = 0 :=
  ⟨fun h0 h7 => calculate_next_run_gt now days hour minute h0 h7 hh hm,
    calculate_next_run_empty_mask now hour minute⟩

theorem calculate_next_run_future_witness :
    (8 : Nat) < 24 ∧ (0 : Nat) < 60 ∧
      ((0 < 10 → 10 < 128 → (468000 : Int) < calculate_next_run 468000 10 8 0) ∧
        calculate_next_run 468000 0 8 0 = 0) :=
  ⟨by decide, by decide, calculate_next_run_future 468000 10 8 0 (by decide) (by decide)⟩

theorem is_scheduled_target_ahead (now : Int) (days hour minute k : Nat)
    (hh : hour < 24) (hm : minute < 60) (hk : has_day days (wday_ahead now k) = true) :
    is_scheduled days hour minute (target_ahead now hour minute k) := by
  have hw : (localtime (target_ahead now hour minute k)).tm_wday = wday_ahead now k := by
    rw [wday_ahead_eq, target_ahead_eq]
    simp only [localtime]
    congr 1
    omega
  refine ⟨by rw [hw]; exact hk, ?_, ?_, ?_⟩
  · rw [target_ahead_eq]; simp only [localtime]; omega
  · rw [target_ahead_eq]; simp only [localtime]; omega
  · rw [target_ahead_eq]; simp only [localtime]; omega

theorem is_scheduled_form (days hour minute : Nat) (t : Int)
    (h : is_scheduled days hour minute t) :
    t = (t / 86400) * 86400 + (hour : Int) * 3600 + (minute : Int) * 60 := by
  obtain ⟨_, h2, h3, h4⟩ := h
  simp only [localtime] at h2 h3 h4
  omega

/-- C2. For every `now`, hour 0..23, minute 0..59 and non-empty 7-bit mask,
`calculate_next_run` returns the earliest scheduled occurrence after `now`: it is a
scheduled instant after `now`, no scheduled instant lies strictly between `now` and it,
it is today's `hour:minute` when today's bit is set and that instant is still ahead, and
otherwise `hour:minute` on the first of the next 1..7 days whose bit is set. -/
theorem calculate_next_run_earliest (now : Int) (days hour minute : Nat)
    (h0 : 0 < days) (h7 : days < 128) (hh : hour < 24) (hm : minute < 60) :
    now < calculate_next_run now days hour minute ∧
    is_scheduled days hour minute (calculate_next_run now days hour minute) ∧
    (∀ t, now < t → t < calculate_next_run now days hour minute →
      ¬ is_scheduled days hour minute t) ∧
    (has_day days (localtime now).tm_wday = true →
      now < mktime { localtime now with tm_hour := hour, tm_min := minute, tm_sec := 0 } →
      calculate_next_run now days hour minute
        = mktime { localtime now with tm_hour := hour, tm_min := minute, tm_sec := 0 }) ∧
    (¬ (has_day days (localtime now).tm_wday = true ∧
        now < mktime { localtime now with tm_hour := hour, tm_min := minute, tm_sec := 0 }) →
      ∃ k : Nat, 1 ≤ k ∧ k ≤ 7 ∧
        has_day days (localtime (now + (k : Int) * 86400)).tm_wday = true ∧
        (∀ j : Nat, 1 ≤ j → j < k →
          has_day days (localtime (now + (j : Int) * 86400)).tm_wday = false) ∧
        calculate_next_run now days hour minute
          = mktime { localtime (now + (k : Int) * 86400) with
              tm_hour := hour, tm_min := minute, tm_sec := 0 }) := by
  have hwd : ∀ k : Nat, (localtime (now + (k : Int) * 86400)).tm_wday = wday_ahead now k := by
    intro k
    have he : now + (k : Int) * 86400 = now + (k : Int) * 24 * 60 * 60 := by omega
    rw [he]
    rfl
  have htg : ∀ k : Nat, mktime { localtime (now + (k : Int) * 86400) with
      tm_hour := hour, tm_min := minute, tm_sec := 0 } = target_ahead now hour minute k := by
    intro k
    have he : now + (k : Int) * 86400 = now + (k : Int) * 24 * 60 * 60 := by omega
    rw [he]
    rfl
  have hwd0 : (localtime now).tm_wday = wday_ahead now 0 := by simp [wday_ahead]
  have htg0 : mktime { localtime now with tm_hour := hour, tm_min := minute, tm_sec := 0 }
      = target_ahead now hour minute 0 := by simp [target_ahead]
  rw [htg0, hwd0]
  simp only [htg]
  simp only [hwd]
  refine ⟨calculate_next_run_gt now days hour minute h0 h7 hh hm, ?_, ?_, ?_, ?_⟩
  · by_cases htoday : has_day days (wday_ahead now 0) = true ∧ now < target_ahead now hour minute 0
    · rw [calculate_next_run_today now days hour minute htoday.1 htoday.2]
      exact is_scheduled_target_ahead now days hour minute 0 hh hm htoday.1
    · rw [calculate_next_run_later now days hour minute htoday]
      obtain ⟨k, hk1, hk7, hkd, hkmin⟩ := exists_first_day_ahead now days h0 h7
      rw [next_run_scan_hit now days hour minute 7 1 k hk1 (by omega) hkd hkmin]
      exact is_scheduled_target_ahead now days hour minute k hh hm hkd
  · intro t ht1 ht2 hs
    have hform := is_scheduled_form days hour minute t hs
    have hday : ∀ j : Nat, t / 86400 = now / 86400 + j →
        has_day days (wday_ahead now j) = true := by
      intro j hj
      have : wday_ahead now j = (localtime t).tm_wday := by
        rw [wday_ahead_eq]
        simp only [localtime]
        rw [hj]
      rw [this]
      exact hs.1
    by_cases htoday : has_day days (wday_ahead now 0) = true ∧ now < target_ahead now hour minute 0
    · rw [calculate_next_run_today now days hour minute htoday.1 htoday.2, target_ahead_eq] at ht2
      omega
    · rw [calculate_next_run_later now days hour minute htoday] at ht2
      obtain ⟨k, hk1, hk7, hkd, hkmin⟩ := exists_first_day_ahead now days h0 h7
      rw [next_run_scan_hit now days hour minute 7 1 k hk1 (by omega) hkd hkmin,
        target_ahead_eq] at ht2
      have hge : now / 86400 ≤ t / 86400 := by omega
      obtain ⟨j, hj⟩ : ∃ j : Nat, t / 86400 = now / 86400 + j :=
        ⟨(t / 86400 - now / 86400).toNat, by omega⟩
      have hjd := hday j hj
      by_cases hj0 : j = 0
      · subst hj0
        apply htoday
        refine ⟨hjd, ?_⟩
        rw [target_ahead_eq]
        omega
      · have hjk : j < k := by omega
        have := hkmin j (by omega) hjk
        rw [this] at hjd
        exact Bool.noConfusion hjd
  · intro hb hl
    exact calculate_next_run_today now days hour minute hb hl
  · intro hnot
    rw [calculate_next_run_later now days hour minute hnot]
    obtain ⟨k, hk1, hk7, hkd, hkmin⟩ := exists_first_day_ahead now days h0 h7
    exact ⟨k, hk1, hk7, hkd, hkmin,
      next_run_scan_hit now days hour minute 7 1 k hk1 (by omega) hkd hkmin⟩

/-- Scheduling scenario of C2: mask = {Monday, Wednesday} (`0x02 | 0x08`), `now` =
Tuesday 1970-01-06 10:00, start time 08:00 gives Wednesday 1970-01-07 08:00. -/
theorem calculate_next_run_earliest_witness :
    (0 < 10 ∧ 10 < 128 ∧ 8 < 24 ∧ 0 < 60) ∧
    (localtime 468000).tm_wday = 2 ∧ (localtime 468000).tm_hour = 10 ∧
    calculate_next_run 468000 10 8 0 = 547200 ∧
    (localtime 547200).tm_wday = 3 ∧ (localtime 547200).tm_hour = 8 ∧
    (localtime 547200).tm_min = 0 ∧
    (468000 < calculate_next_run 468000 10 8 0 ∧
      is_scheduled 10 8 0 (calculate_next_run 468000 10 8 0) ∧
      ∀ t, 468000 < t → t < calculate_next_run 468000 10 8 0 → ¬ is_scheduled 10 8 0 t) :=
  have h := calculate_next_run_earliest 468000 10 8 0 (by decide) (by decide) (by decide)
    (by decide)
  ⟨by decide, by decide, by decide, by decide, by decide, by decide, by decide,
    h.1, h.2.1, h.2.2.1⟩

/-! ## Theorems: recovery check -/

theorem enabled_minutes_before_mono (data : sprinkler_data_t) (program : program_t) :
    ∀ j k, j ≤ k → enabled_minutes_before data program j ≤ enabled_minutes_before data program k := by
  intro j k hjk
  induction k with
  | zero =>
    have : j = 0 := by omega
    subst this
    exact Nat.le_refl _
  | succ k ih =>
    by_cases h : j = k + 1
    · subst h; exact Nat.le_refl _
    · have := ih (by omega)
      simp only [enabled_minutes_before]
      omega

theorem recovery_total_duration_eq (data : sprinkler_data_t) (program : program_t) :
    ∀ n j, recovery_total_duration data program n j (enabled_minutes_before data program j % 65536)
      = enabled_minutes_before data program (j + n) % 65536 := by
  intro n
  induction n with
  | zero => intro j; rfl
  | succ n ih =>
    intro j
    simp only [recovery_total_duration]
    have hstep : enabled_minutes_before data program (j + 1)
        = enabled_minutes_before data program j + enabled_minutes data program j := rfl
    have hidx : j + (n + 1) = j + 1 + n := by omega
    rw [hidx, ← ih (j + 1), hstep]
    by_cases he : zone_ref_enabled data (program.zones.getD j default) = true
    · rw [if_pos he]
      simp only [enabled_minutes, if_pos he]
      congr 1
      omega
    · rw [if_neg he]
      simp only [enabled_minutes, if_neg he, Nat.add_zero]

theorem recovery_total_duration_zero (data : sprinkler_data_t) (program : program_t) :
    recovery_total_duration data program program.zone_count 0 0
      = enabled_minutes_before data program program.zone_count % 65536 := by
  have := recovery_total_duration_eq data program program.zone_count 0
  simpa [enabled_minutes_before] using this

theorem recovery_find_zone_spec (data : sprinkler_data_t) (program : program_t) (elapsed : Nat)
    (htot : enabled_minutes_before data program program.zone_count < 65536)
    (hel : elapsed < enabled_minutes_before data program program.zone_count) :
    ∀ n j, j + n = program.zone_count → enabled_minutes_before data program j ≤ elapsed →
      ∃ i, j ≤ i ∧ i < program.zone_count ∧
        zone_ref_enabled data (program.zones.getD i default) = true ∧
        elapsed < enabled_minutes_before data program (i + 1) ∧
        enabled_minutes_before data program i ≤ elapsed ∧
        recovery_find_zone data program elapsed n j (enabled_minutes_before data program j)
          = some { should_resume := true
                   program_id := program.id
                   zone_index := i % 256
                   remaining_minutes := enabled_minutes_before data program (i + 1) - elapsed } := by
  intro n
  induction n with
  | zero =>
    intro j hj hle
    simp only [Nat.add_zero] at hj
    subst hj
    omega
  | succ n ih =>
    intro j hj hle
    have hstep : enabled_minutes_before data program (j + 1)
        = enabled_minutes_before data program j + enabled_minutes data program j := rfl
    have hmono := enabled_minutes_before_mono data program (j + 1) program.zone_count (by omega)
    simp only [recovery_find_zone]
    by_cases he : zone_ref_enabled data (program.zones.getD j default) = true
    · have hem : enabled_minutes data program j = (program.zones.getD j default).duration := by
        simp only [enabled_minutes, if_pos he]
      rw [if_pos he]
      by_cases hlt : elapsed < enabled_minutes_before data program j
          + (program.zones.getD j default).duration
      · rw [if_pos hlt]
        refine ⟨j, Nat.le_refl _, by omega, he, by omega, hle, ?_⟩
        rw [hstep, hem]
        congr 2
        apply Nat.mod_eq_of_lt
        omega
      · rw [if_neg hlt]
        have hcum : (enabled_minutes_before data program j
            + (program.zones.getD j default).duration) % 65536
            = enabled_minutes_before data program (j + 1) := by
          rw [hstep, hem]
          apply Nat.mod_eq_of_lt
          omega
        rw [hcum]
        obtain ⟨i, h1, h2, h3, h4, h5, h6⟩ := ih (j + 1) (by omega) (by omega)
        exact ⟨i, by omega, h2, h3, h4, h5, h6⟩
    · have hem : enabled_minutes data program j = 0 := by
        simp only [enabled_minutes, if_neg he]
      rw [if_neg he]
      have hcum : enabled_minutes_before data program j
          = enabled_minutes_before data program (j + 1) := by
        rw [hstep, hem]; rfl
      rw [hcum]
      obtain ⟨i, h1, h2, h3, h4, h5, h6⟩ := ih (j + 1) (by omega) (by omega)
      exact ⟨i, by omega, h2, h3, h4, h5, h6⟩

theorem check_program_recovery_loop_first (data : sprinkler_data_t) (now : Int)
    (found : program_recovery_t) (i : Nat)
    (hi : check_program_recovery_program data now (data.programs.getD i default) = some found) :
    ∀ n i0 r, i0 ≤ i → i < i0 + n →
      (∀ k, i0 ≤ k → k < i →
        check_program_recovery_program data now (data.programs.getD k default) = none) →
      check_program_recovery_loop data now n i0 r = found := by
  intro n
  induction n with
  | zero => intro i0 r h1 h2; omega
  | succ n ih =>
    intro i0 r h1 h2 hnone
    simp only [check_program_recovery_loop]
    by_cases h : i0 = i
    · subst h
      rw [hi]
    · rw [hnone i0 (Nat.le_refl _) (by omega)]
      exact ih (i0 + 1) r (by omega) (by omega) (fun k hk1 hk2 => hnone k (by omega) hk2)

theorem check_program_recovery_loop_none (data : sprinkler_data_t) (now : Int) :
    ∀ n i0 r,
      (∀ k, i0 ≤ k → k < i0 + n →
        check_program_recovery_program data now (data.programs.getD k default) = none) →
      check_program_recovery_loop data now n i0 r = r := by
  intro n
  induction n with
  | zero => intro i0 r _; rfl
  | succ n ih =>
    intro i0 r hnone
    simp only [check_program_recovery_loop]
    rw [hnone i0 (Nat.le_refl _) (by omega)]
    exact ih (i0 + 1) r (fun k hk1 hk2 => hnone k (by omega) (by omega))

theorem check_program_recovery_loop_some (data : sprinkler_data_t) (now : Int) :
    ∀ n i0 r, (check_program_recovery_loop data now n i0 r) = r ∨
      ∃ k, i0 ≤ k ∧ k < i0 + n ∧
        check_program_recovery_program data now (data.programs.getD k default)
          = some (check_program_recovery_loop data now n i0 r) ∧
        ∀ k0, i0 ≤ k0 → k0 < k →
          check_program_recovery_program data now (data.programs.getD k0 default) = none := by
  intro n
  induction n with
  | zero => intro i0 r; exact Or.inl rfl
  | succ n ih =>
    intro i0 r
    simp only [check_program_recovery_loop]
    cases hb : check_program_recovery_program data now (data.programs.getD i0 default) with
    | some found =>
      exact Or.inr ⟨i0, Nat.le_refl _, by omega, hb, fun k0 h1 h2 => by omega⟩
    | none =>
      rcases ih (i0 + 1) r with h | ⟨k, h1, h2, h3, h4⟩
      · exact Or.inl h
      · refine Or.inr ⟨k, by omega, by omega, h3, ?_⟩
        intro k0 hk1 hk2
        by_cases hk : k0 = i0
        · subst hk; exact hb
        · exact h4 k0 (by omega) hk2

theorem check_program_recovery_program_match (data : sprinkler_data_t) (now : Int)
    (program : program_t)
    (hid : program.id ≠ 0) (hen : program.enabled = true)
    (hday : has_day program.schedule.days (localtime now).tm_wday = true)
    (htot : enabled_minutes_before data program program.zone_count < 65536)
    (hstart : program_start_today now program ≤ now)
    (hend : now < program_start_today now program
      + 60 * (enabled_minutes_before data program program.zone_count : Int)) :
    check_program_recovery_program data now program
      = recovery_find_zone data program ((now - program_start_today now program) / 60).toNat
          program.zone_count 0 0 := by
  rw [has_day_iff] at hday
  simp only [program_start_today] at hstart hend ⊢
  simp only [check_program_recovery_program]
  rw [if_neg (by simp [hid, hen]), if_neg hday, recovery_total_duration_zero,
    Nat.mod_eq_of_lt htot, if_pos ⟨hstart, by push_cast; omega⟩]
  congr 2
  omega

/-- C8. For an occupied, enabled program scheduled today whose enabled references total
fewer than 65536 minutes and `now` in `[program_start, program_end)`, the recovery check of
that program selects the first reference `j` pointing to an enabled zone whose cumulative
end minute (disabled references contributing zero) exceeds
`elapsed = (now - program_start) / 60`, with `remaining = cumulative end - elapsed`; this
is the result of `check_program_recovery_operation` when no lower slot matches. -/
theorem recovery_selects_zone (data : sprinkler_data_t) (now : Int) (i : Nat)
    (hid : (data.programs.getD i default).id ≠ 0)
    (hen : (data.programs.getD i default).enabled = true)
    (hday : has_day (data.programs.getD i default).schedule.days (localtime now).tm_wday = true)
    (hcnt : (data.programs.getD i default).zone_count ≤ MAX_ZONES_PER_PROGRAM)
    (htot : enabled_minutes_before data (data.programs.getD i default)
      (data.programs.getD i default).zone_count < 65536)
    (hstart : program_start_today now (data.programs.getD i default) ≤ now)
    (hend : now < program_start_today now (data.programs.getD i default)
      + 60 * (enabled_minutes_before data (data.programs.getD i default)
          (data.programs.getD i default).zone_count : Int)) :
    ∃ j, j < (data.programs.getD i default).zone_count ∧
      zone_ref_enabled data ((data.programs.getD i default).zones.getD j default) = true ∧
      ((now - program_start_today now (data.programs.getD i default)) / 60).toNat
        < enabled_minutes_before data (data.programs.getD i default) (j + 1) ∧
      (∀ k, k < j → enabled_minutes_before data (data.programs.getD i default) (k + 1)
        ≤ ((now - program_start_today now (data.programs.getD i default)) / 60).toNat) ∧
      check_program_recovery_program data now (data.programs.getD i default)
        = some { should_resume := true
                 program_id := (data.programs.getD i default).id
                 zone_index := j
                 remaining_minutes :=
                   enabled_minutes_before data (data.programs.getD i default) (j + 1)
                     - ((now - program_start_today now (data.programs.getD i default)) / 60).toNat } ∧
      (i < MAX_PROGRAMS →
        (∀ k, k < i →
          check_program_recovery_program data now (data.programs.getD k default) = none) →
        ∀ r0, check_program_recovery_operation data now r0
          = { should_resume := true
              program_id := (data.programs.getD i default).id
              zone_index := j
              remaining_minutes :=
                enabled_minutes_before data (data.programs.getD i default) (j + 1)
                  - ((now - program_start_today now (data.programs.getD i default)) / 60).toNat }) := by
  have hbody := check_program_recovery_program_match data now _ hid hen hday htot hstart hend
  have hel : ((now - program_start_today now (data.programs.getD i default)) / 60).toNat
      < enabled_minutes_before data (data.programs.getD i default)
          (data.programs.getD i default).zone_count := by
    omega
  obtain ⟨j, _, hj2, hj3, hj4, hj5, hj6⟩ :=
    recovery_find_zone_spec data (data.programs.getD i default) _ htot hel
      (data.programs.getD i default).zone_count 0 (by omega)
      (by simp [enabled_minutes_before])
  have hjmod : j % 256 = j := by
    apply Nat.mod_eq_of_lt
    simp only [MAX_ZONES_PER_PROGRAM] at hcnt
    omega
  rw [hjmod] at hj6
  simp only [enabled_minutes_before] at hj6
  rw [← hbody] at hj6
  refine ⟨j, hj2, hj3, hj4, ?_, hj6, ?_⟩
  · intro k hk
    exact le_trans (enabled_minutes_before_mono data _ (k + 1) j (by omega)) hj5
  · intro hi hlow r0
    exact check_program_recovery_loop_first data now _ i hj6 MAX_PROGRAMS 0 _ (Nat.zero_le _)
      (by omega) (fun k _ hk => hlow k hk)

/-- Recovery scenario of C8: zone A for minutes 0-30 and zone B for minutes 30-70, both
enabled, start 08:00, `now` = 08:45 (elapsed minute 45): the recovery check resumes the
reference at index 1 (zone B) with 25 minutes remaining. -/
theorem recovery_selects_zone_witness :
    ((recovery_scenario_data.programs.getD 0 default).id ≠ 0 ∧
      (recovery_scenario_data.programs.getD 0 default).enabled = true ∧
      has_day (recovery_scenario_data.programs.getD 0 default).schedule.days
        (localtime 463500).tm_wday = true ∧
      (recovery_scenario_data.programs.getD 0 default).zone_count ≤ MAX_ZONES_PER_PROGRAM ∧
      enabled_minutes_before recovery_scenario_data (recovery_scenario_data.programs.getD 0 default)
        (recovery_scenario_data.programs.getD 0 default).zone_count < 65536 ∧
      program_start_today 463500 (recovery_scenario_data.programs.getD 0 default) ≤ 463500 ∧
      463500 < program_start_today 463500 (recovery_scenario_data.programs.getD 0 default)
        + 60 * (enabled_minutes_before recovery_scenario_data
            (recovery_scenario_data.programs.getD 0 default)
            (recovery_scenario_data.programs.getD 0 default).zone_count : Int)) ∧
    ((463500 - program_start_today 463500 recovery_scenario_program) / 60 = 45 ∧
      check_program_recovery_operation recovery_scenario_data 463500 {}
        = { should_resume := true, program_id := 1, zone_index := 1, remaining_minutes := 25 } ∧
      (recovery_scenario_program.zones.getD 1 default).zone_id = 2) ∧
    ∃ j, j < (recovery_scenario_data.programs.getD 0 default).zone_count ∧
      check_program_recovery_program recovery_scenario_data 463500
          (recovery_scenario_data.programs.getD 0 default)
        = some { should_resume := true
                 program_id := (recovery_scenario_data.programs.getD 0 default).id
                 zone_index := j
                 remaining_minutes :=
                   enabled_minutes_before recovery_scenario_data
                       (recovery_scenario_data.programs.getD 0 default) (j + 1)
                     - ((463500 - program_start_today 463500
                          (recovery_scenario_data.programs.getD 0 default)) / 60).toNat } :=
  ⟨⟨by decide, by decide, by decide, by decide, by decide, by decide, by decide⟩,
    ⟨by decide, by decide, by decide⟩,
    (recovery_selects_zone recovery_scenario_data 463500 0 (by decide) (by decide) (by decide)
      (by decide) (by decide) (by decide) (by decide)).elim
      (fun j h => ⟨j, h.1, h.2.2.2.2.1⟩)⟩

theorem recovery_total_duration_none_enabled (data : sprinkler_data_t) (program : program_t)
    (hnone : ∀ j, j < program.zone_count →
      zone_ref_enabled data (program.zones.getD j default) = false) :
    ∀ n j total, j + n ≤ program.zone_count →
      recovery_total_duration data program n j total = total := by
  intro n
  induction n with
  | zero => intro j total _; rfl
  | succ n ih =>
    intro j total hj
    simp only [recovery_total_duration]
    rw [hnone j (by omega)]
    simp only [Bool.false_eq_true, if_false]
    exact ih (j + 1) total (by omega)

/-- C10. For every store, every `now` and every program slot `i`: when none of the
program's zone references points to an enabled zone, the recovery check of that program
never matches, whatever its schedule, and any resume decision of
`check_program_recovery_operation` comes from another slot. -/
theorem recovery_never_selects_program_without_enabled_zone (data : sprinkler_data_t)
    (now : Int) (i : Nat)
    (hnone : ∀ j, j < (data.programs.getD i default).zone_count →
      zone_ref_enabled data ((data.programs.getD i default).zones.getD j default) = false) :
    check_program_recovery_program data now (data.programs.getD i default) = none ∧
    ∀ r0, (check_program_recovery_operation data now r0).should_resume = true →
      ∃ k, k < MAX_PROGRAMS ∧ k ≠ i ∧
        check_program_recovery_program data now (data.programs.getD k default)
          = some (check_program_recovery_operation data now r0) := by
  have hbody : check_program_recovery_program data now (data.programs.getD i default) = none := by
    simp only [check_program_recovery_program]
    rw [recovery_total_duration_none_enabled data _ hnone _ 0 0 (by omega)]
    split
    · rfl
    · split
      · rfl
      · rw [if_neg]
        intro hc
        have := hc.1
        have := hc.2
        simp only [Nat.zero_mul, Nat.cast_zero, add_zero] at *
        omega
  refine ⟨hbody, ?_⟩
  intro r0 hres
  simp only [check_program_recovery_operation] at hres ⊢
  rcases check_program_recovery_loop_some data now MAX_PROGRAMS 0
      { r0 with should_resume := false } with h | ⟨k, _, hk2, hk3, _⟩
  · rw [h] at hres
    exact Bool.noConfusion hres
  · refine ⟨k, by omega, ?_, hk3⟩
    intro hki
    subst hki
    rw [hbody] at hk3
    exact Option.noConfusion hk3

/-- Instance of C10: a program scheduled every day at 08:00 whose references point to a
disabled zone and to no zone is not resumed at 08:45. -/
theorem recovery_never_selects_program_without_enabled_zone_witness :
    (∀ j, j < (disabled_only_data.programs.getD 0 default).zone_count →
      zone_ref_enabled disabled_only_data
        ((disabled_only_data.programs.getD 0 default).zones.getD j default) = false) ∧
    check_program_recovery_program disabled_only_data 463500
      (disabled_only_data.programs.getD 0 default) = none ∧
    (check_program_recovery_operation disabled_only_data 463500 {}).should_resume = false :=
  ⟨by decide,
    (recovery_never_selects_program_without_enabled_zone disabled_only_data 463500 0
      (by decide)).1,
    by decide⟩

/-- C9, evaluation at the failing input. The program in slot 0 is occupied, enabled,
scheduled today at 00:00 and its enabled references total 65535 + 2 = 65537 minutes, so
`now` = 00:02:00 lies in `[program_start, program_start + 60 * 65537)`; the `uint16_t`
accumulator `total_duration_minutes` wraps to 1, the window tested is 60 seconds long and
the recovery check reports `should_resume = false`. -/
theorem recovery_window_wraps_at_65536_minutes :
    ((long_program_data.programs.getD 0 default).id ≠ 0 ∧
      (long_program_data.programs.getD 0 default).enabled = true ∧
      has_day (long_program_data.programs.getD 0 default).schedule.days
        (localtime 432120).tm_wday = true ∧
      enabled_minutes_before long_program_data (long_program_data.programs.getD 0 default)
        (long_program_data.programs.getD 0 default).zone_count = 65537 ∧
      program_start_today 432120 (long_program_data.programs.getD 0 default) ≤ 432120 ∧
      432120 < program_start_today 432120 (long_program_data.programs.getD 0 default)
        + 60 * (65537 : Int)) ∧
    recovery_total_duration long_program_data (long_program_data.programs.getD 0 default)
      (long_program_data.programs.getD 0 default).zone_count 0 0 = 1 ∧
    (check_program_recovery_operation long_program_data 432120 {}).should_resume = false := by
  decide

theorem recovery_find_zone_should_resume (data : sprinkler_data_t) (program : program_t)
    (elapsed : Nat) :
    ∀ n j cum r, recovery_find_zone data program elapsed n j cum = some r →
      r.should_resume = true := by
  intro n
  induction n with
  | zero => intro j cum r h; exact Option.noConfusion h
  | succ n ih =>
    intro j cum r h
    simp only [recovery_find_zone] at h
    split at h
    · split at h
      · cases h; rfl
      · exact ih _ _ _ h
    · exact ih _ _ _ h

theorem check_program_recovery_program_should_resume (data : sprinkler_data_t) (now : Int)
    (program : program_t) (r : program_recovery_t)
    (h : check_program_recovery_program data now program = some r) :
    r.should_resume = true := by
  simp only [check_program_recovery_program] at h
  split at h
  · exact Option.noConfusion h
  · split at h
    · exact Option.noConfusion h
    · split at h
      · exact recovery_find_zone_should_resume data program _ _ _ _ r h
      · exact Option.noConfusion h

theorem check_program_recovery_program_none (data : sprinkler_data_t) (now : Int)
    (program : program_t)
    (htot : enabled_minutes_before data program program.zone_count < 65536)
    (h : ¬ in_recovery_window data now program) :
    check_program_recovery_program data now program = none := by
  simp only [check_program_recovery_program]
  split
  · rfl
  · rename_i h1
    split
    · rfl
    · rename_i h2
      rw [recovery_total_duration_zero, Nat.mod_eq_of_lt htot]
      split
      · rename_i h3
        exfalso
        apply h
        simp only [not_or] at h1
        refine ⟨h1.1, by simpa using h1.2, (has_day_iff _ _).2 h2, h3.1, ?_⟩
        have := h3.2
        simp only [program_start_today]
        push_cast at this
        omega
      · rfl

theorem check_program_recovery_program_some (data : sprinkler_data_t) (now : Int)
    (program : program_t)
    (htot : enabled_minutes_before data program program.zone_count < 65536)
    (h : in_recovery_window data now program) :
    ∃ r, check_program_recovery_program data now program = some r := by
  obtain ⟨hid, hen, hday, hstart, hend⟩ := h
  rw [check_program_recovery_program_match data now program hid hen hday htot hstart hend]
  obtain ⟨i, _, _, _, _, _, h6⟩ :=
    recovery_find_zone_spec data program
      ((now - program_start_today now program) / 60).toNat htot (by omega)
      program.zone_count 0 (by omega) (by simp [enabled_minutes_before])
  simp only [enabled_minutes_before] at h6
  exact ⟨_, h6⟩

/-- Support for C9: when no program's enabled references total 65536 minutes or more, the
recovery check reports `should_resume = true` exactly when some slot holds a program in
its recovery window, and then it reports the match of the lowest such slot. -/
theorem recovery_resume_iff_without_overflow (data : sprinkler_data_t) (now : Int)
    (r0 : program_recovery_t)
    (hno : ∀ i, i < MAX_PROGRAMS →
      enabled_minutes_before data (data.programs.getD i default)
        (data.programs.getD i default).zone_count < 65536) :
    ((check_program_recovery_operation data now r0).should_resume = true ↔
      ∃ i, i < MAX_PROGRAMS ∧ in_recovery_window data now (data.programs.getD i default)) ∧
    (∀ i, i < MAX_PROGRAMS → in_recovery_window data now (data.programs.getD i default) →
      (∀ k, k < i → ¬ in_recovery_window data now (data.programs.getD k default)) →
      check_program_recovery_program data now (data.programs.getD i default)
        = some (check_program_recovery_operation data now r0)) := by
  have hfirst : ∀ i, i < MAX_PROGRAMS →
      in_recovery_window data now (data.programs.getD i default) →
      (∀ k, k < i → ¬ in_recovery_window data now (data.programs.getD k default)) →
      check_program_recovery_program data now (data.programs.getD i default)
        = some (check_program_recovery_operation data now r0) := by
    intro i hi hw hlow
    obtain ⟨r, hr⟩ := check_program_recovery_program_some data now _ (hno i hi) hw
    rw [hr]
    congr 1
    symm
    exact check_program_recovery_loop_first data now r i hr MAX_PROGRAMS 0 _ (Nat.zero_le _)
      (by omega)
      (fun k _ hk => check_program_recovery_program_none data now _ (hno k (by omega)) (hlow k hk))
  refine ⟨⟨?_, ?_⟩, hfirst⟩
  · intro hres
    simp only [check_program_recovery_operation] at hres
    rcases check_program_recovery_loop_some data now MAX_PROGRAMS 0
        { r0 with should_resume := false } with h | ⟨k, _, hk2, hk3, _⟩
    · rw [h] at hres
      exact Bool.noConfusion hres
    · refine ⟨k, by omega, ?_⟩
      by_contra hnw
      rw [check_program_recovery_program_none data now _ (hno k (by omega)) hnw] at hk3
      exact Option.noConfusion hk3
  · intro hex
    classical
    have hex2 : ∃ i, i < MAX_PROGRAMS ∧
        in_recovery_window data now (data.programs.getD i default) := hex
    have hmin := Nat.find_spec hex2
    have hlow : ∀ k, k < Nat.find hex2 →
        ¬ in_recovery_window data now (data.programs.getD k default) := by
      intro k hk hw
      exact Nat.find_min hex2 hk ⟨by omega, hw⟩
    have := hfirst (Nat.find hex2) hmin.1 hmin.2 hlow
    exact check_program_recovery_program_should_resume data now _ _ this

/-! ## Theorems: cascade delete and execution engine -/

/-- C5, evaluation at the failing input. After creating zone 1, program 1 and program 2
(which references zone 1) and removing program 1, `program_count` is 1 while program 2
sits in slot 1; `sprinkler_remove_zone(1)` returns `ESP_OK`, the guard
`program_id > sprinkler_data.program_count` of `sprinkler_remove_zone_from_program`
rejects program 2, and program 2 still holds its reference to zone 1. -/
theorem remove_zone_skips_program_beyond_count :
    cascade_world.sprinkler_data.program_count = 1 ∧
    (cascade_world.sprinkler_data.programs.getD 0 default).id = 0 ∧
    (cascade_world.sprinkler_data.programs.getD 1 default).id = 2 ∧
    cascade_world.fault = false ∧
    (sprinkler_remove_zone_from_program cascade_world 2 1).2 = ESP_ERR_INVALID_ARG ∧
    (sprinkler_remove_zone cascade_world 1).2 = ESP_OK ∧
    ((sprinkler_remove_zone cascade_world 1).1.sprinkler_data.zones.getD 0 default).id = 0 ∧
    ((sprinkler_remove_zone cascade_world 1).1.sprinkler_data.programs.getD 1 default).id = 2 ∧
    ((sprinkler_remove_zone cascade_world 1).1.sprinkler_data.programs.getD 1 default).zone_count
      = 1 ∧
    (((sprinkler_remove_zone cascade_world 1).1.sprinkler_data.programs.getD 1
      default).zones.getD 0 default).zone_id = 1 := by
  decide

/-- C4, evaluation at the failing input. From the initialised controller, the steps
start, manual_program(1), manual_zone(2, 60), worker leave the output lines of zone 2
(line 5) and of zone 1 (line 4) both high: the program-start branch of the worker
switches its zone on without switching the active zone off. -/
theorem two_zones_active_after_queued_program_start :
    (scenario_zones.getD 0 default).output ≠ (scenario_zones.getD 1 default).output ∧
    (engine_run (sprinkler_controller_init (boot_world 463500 0)).1
      [.start, .manual_program 1, .manual_zone 2 60]).gpio_high = [5] ∧
    (engine_run (sprinkler_controller_init (boot_world 463500 0)).1
      [.start, .manual_program 1, .manual_zone 2 60, .worker]).gpio_high = [5, 4] ∧
    ((active_zones (engine_run (sprinkler_controller_init (boot_world 463500 0)).1
      [.start, .manual_program 1, .manual_zone 2 60, .worker])).map (fun z => z.id)) = [1, 2] ∧
    (engine_run (sprinkler_controller_init (boot_world 463500 0)).1
      [.start, .manual_program 1, .manual_zone 2 60, .worker]).fault = false := by
  decide

/-- C6, evaluation at the failing input. Program 2 has the enabled references
[(zone 1, 10 min), (zone 2, 5 min)] and runs zone 1 at index 0. The timer callback
queues `zone_index = 0 + 1`, the worker searches from `cmd.zone_index + 1 = 2`, finds
nothing and finalizes the program, although the reference at index 1 points to an
enabled zone: zone 2 is never activated. -/
theorem advance_skips_next_reference :
    (executor_task_step (started_world 463500 0 [program_start_cmd 2])).exec_state
      = { is_running := true, current_program_id := 2, current_zone_id := 1,
          current_zone_index := 0, zone_start_time := 463500, zone_duration_seconds := 600 } ∧
    zone_ref_enabled (engine_scenario_data 0)
      ((two_zone_program 0).zones.getD 1 default) = true ∧
    (engine_run (started_world 463500 0 [program_start_cmd 2])
      [.worker, .tick 600, .timer_expiry]).execution_queue
      = [{ program_id := 2, zone_index := 1 }] ∧
    (executor_get_program_zone_operation (engine_scenario_data 0)
      { program_id := 2, zone_index := 1 + 1 }).zone_enabled = false ∧
    (executor_get_program_zone_operation (engine_scenario_data 0)
      { program_id := 2, zone_index := 1 }).zone_id = 2 ∧
    (engine_run (started_world 463500 0 [program_start_cmd 2])
      [.worker, .tick 600, .timer_expiry, .worker]).gpio_high = [] ∧
    (engine_run (started_world 463500 0 [program_start_cmd 2])
      [.worker, .tick 600, .timer_expiry, .worker]).exec_state
      = { is_running := false, current_program_id := 0, current_zone_id := 0,
          current_zone_index := 0, zone_start_time := 464100, zone_duration_seconds := 600 } ∧
    (engine_run (started_world 463500 0 [program_start_cmd 2])
      [.worker, .tick 600, .timer_expiry, .worker]).zone_timer.active = false ∧
    next_run_of (engine_run (started_world 463500 0 [program_start_cmd 2])
      [.worker, .tick 600, .timer_expiry, .worker]) 2 = calculate_next_run 464100 2 7 0 ∧
    ((engine_run (started_world 463500 0 [program_start_cmd 2])
      [.worker, .tick 600, .timer_expiry, .worker]).sprinkler_data.zones.getD 1 default).last_run
      = 0 := by
  decide

theorem gpio_set_level_exec_state (w : World) (pin : Nat) (level : Bool) :
    (gpio_set_level w pin level).exec_state = w.exec_state := by
  unfold gpio_set_level; split <;> rfl

theorem sprinkler_save_zone_exec_state (w : World) (zone : zone_t) :
    (sprinkler_save_zone w zone).1.exec_state = w.exec_state := by
  unfold sprinkler_save_zone; split <;> rfl

theorem sprinkler_update_zone_status_exec_state (w : World) (zone_id : Nat) (turn_on : Bool) :
    (sprinkler_update_zone_status w zone_id turn_on).1.exec_state = w.exec_state := by
  unfold sprinkler_update_zone_status
  split
  · rfl
  · simp only [sprinkler_save_zone_exec_state]; rfl

theorem update_gpio_state_duration (w : World) (zone_id : Nat) (turn_on : Bool) :
    (update_gpio_state zone_id turn_on w).1.exec_state.zone_duration_seconds
      = w.exec_state.zone_duration_seconds := by
  unfold update_gpio_state
  simp only
  split
  · rfl
  · simp only [gpio_set_level_exec_state]

theorem control_zone_duration (w : World) (zone_id : Nat) (turn_on : Bool) :
    (control_zone w zone_id turn_on).1.exec_state.zone_duration_seconds
      = w.exec_state.zone_duration_seconds := by
  unfold control_zone
  split
  · rfl
  · simp only
    have h : (safe_sprinklerdata_operation (update_gpio_state zone_id turn_on)
        w).1.exec_state.zone_duration_seconds = w.exec_state.zone_duration_seconds := by
      unfold safe_sprinklerdata_operation
      split
      · exact update_gpio_state_duration w zone_id turn_on
      · rfl
    split
    · rw [sprinkler_update_zone_status_exec_state, h]
    · exact h

theorem executor_activate_eq (w : World) (op_data : executor_operation_data_t) :
    executor_activate w op_data
      = { (control_zone { w with exec_state :=
            { w.exec_state with
              zone_duration_seconds := (op_data.zone_duration_minutes * 60) % 65536
              current_zone_id := op_data.zone_id } } op_data.zone_id true).1 with
          zone_timer :=
            { period_ms := (op_data.zone_duration_minutes * 60) % 65536 * 1000,
              active := true } } := by
  unfold executor_activate timer_change_period_and_start
  simp only [control_zone_duration]

theorem executor_task_step_program_start (w : World) (cmd : execution_cmd_t)
    (rest : List execution_cmd_t) (op_data : executor_operation_data_t)
    (hrun : w.controller_running = true) (hq : w.execution_queue = cmd :: rest)
    (hm : w.mutex_free = true) (hs : cmd.is_program_start = true)
    (hop : executor_get_program_zone_operation w.sprinkler_data
      { program_id := cmd.program_id, zone_index := 0 } = op_data)
    (hf : op_data.program_found = true) (he : op_data.zone_enabled = true) :
    executor_task_step w
      = executor_activate
          { w with
            execution_queue := rest
            exec_state :=
              { w.exec_state with
                current_program_id := op_data.program_id
                current_zone_index := op_data.zone_index % 256 } } op_data := by
  unfold executor_task_step
  simp only [hrun, hq, hm, hs, hop, hf, he, Bool.true_eq_false, if_false, if_true]

theorem executor_task_step_continue (w : World) (cmd : execution_cmd_t)
    (rest : List execution_cmd_t) (op_data : executor_operation_data_t)
    (hrun : w.controller_running = true) (hq : w.execution_queue = cmd :: rest)
    (hm : w.mutex_free = true) (hs : cmd.is_program_start = false)
    (hop : executor_get_program_zone_operation w.sprinkler_data
      { program_id := cmd.program_id, zone_index := cmd.zone_index + 1 } = op_data)
    (hf : op_data.program_found = true) (he : op_data.zone_enabled = true) :
    executor_task_step w
      = executor_activate
          { (control_zone { w with execution_queue := rest }
              w.exec_state.current_zone_id false).1 with
            exec_state :=
              { (control_zone { w with execution_queue := rest }
                  w.exec_state.current_zone_id false).1.exec_state with
                current_zone_index := op_data.zone_index % 256 } } op_data := by
  unfold executor_task_step
  simp only [hrun, hq, hm, hs, hop, hf, he, Bool.true_eq_false, Bool.false_eq_true, if_false,
    if_true]

theorem executor_task_step_complete (w : World) (cmd : execution_cmd_t)
    (rest : List execution_cmd_t) (op_data : executor_operation_data_t)
    (hrun : w.controller_running = true) (hq : w.execution_queue = cmd :: rest)
    (hm : w.mutex_free = true) (hs : cmd.is_program_start = false)
    (hop : executor_get_program_zone_operation w.sprinkler_data
      { program_id := cmd.program_id, zone_index := cmd.zone_index + 1 } = op_data)
    (hf : op_data.program_found = true) (he : op_data.zone_enabled = false) :
    executor_task_step w
      = { (sprinkler_update_program_next_run
            (control_zone { w with execution_queue := rest }
              w.exec_state.current_zone_id false).1 op_data.program_id).1 with
          exec_state :=
            { (sprinkler_update_program_next_run
                (control_zone { w with execution_queue := rest }
                  w.exec_state.current_zone_id false).1 op_data.program_id).1.exec_state with
              current_program_id := 0
              current_zone_index := 0 } } := by
  unfold executor_task_step
  simp only [hrun, hq, hm, hs, hop, hf, he, Bool.true_eq_false, Bool.false_eq_true, if_false,
    if_true]

theorem skip_trace_lookup0 (t0 a c n0 : Int) (b : Bool) (g : List Nat) (e : execution_state_t)
    (q : List execution_cmd_t) (tm : timer_t) :
    executor_get_program_zone_operation (trace_world t0 a c n0 n0 b g e q tm).sprinkler_data
      { program_id := 1, zone_index := 0 }
      = { program_id := 1, zone_index := 0, program_found := true, program_name := [80],
          zone_count := 3, zone_id := 1, zone_duration_minutes := 10, zone_enabled := true } := by
  simp [trace_world, executor_get_program_zone_operation,
    executor_find_zone, zone_ref_enabled, scenario_zones_at, skip_disabled_program,
    MAX_PROGRAMS, MAX_ZONES, MAX_PROGRAM_NAME_LEN, strncpy]

theorem skip_trace_lookup2 (t0 a c n0 : Int) (b : Bool) (g : List Nat) (e : execution_state_t)
    (q : List execution_cmd_t) (tm : timer_t) :
    executor_get_program_zone_operation (trace_world t0 a c n0 n0 b g e q tm).sprinkler_data
      { program_id := 1, zone_index := 2 }
      = { program_id := 1, zone_index := 2, program_found := true, program_name := [80],
          zone_count := 3, zone_id := 2, zone_duration_minutes := 5, zone_enabled := true } := by
  simp [trace_world, executor_get_program_zone_operation,
    executor_find_zone, zone_ref_enabled, scenario_zones_at, skip_disabled_program,
    MAX_PROGRAMS, MAX_ZONES, MAX_PROGRAM_NAME_LEN, strncpy]

theorem skip_trace_lookup4 (t0 a c n0 : Int) (b : Bool) (g : List Nat) (e : execution_state_t)
    (q : List execution_cmd_t) (tm : timer_t) :
    executor_get_program_zone_operation (trace_world t0 a c n0 n0 b g e q tm).sprinkler_data
      { program_id := 1, zone_index := 4 }
      = { program_id := 1, zone_index := 4, program_found := true, program_name := [80],
          zone_count := 3, zone_id := 0, zone_duration_minutes := 0, zone_enabled := false } := by
  simp [trace_world, executor_get_program_zone_operation,
    executor_find_zone, zone_ref_enabled, scenario_zones_at, skip_disabled_program,
    MAX_PROGRAMS, MAX_ZONES, MAX_PROGRAM_NAME_LEN, strncpy]

theorem skip_trace_start (t0 n0 : Int) :
    started_world t0 n0 [program_start_cmd 1]
      = trace_world t0 0 0 n0 n0 false [] {} [program_start_cmd 1] {} := by
  simp [trace_world, started_world, boot_world, engine_scenario_data, scenario_zones,
    scenario_zones_at, program_start_cmd]

theorem skip_trace_step1 (t0 n0 : Int) :
    executor_task_step (trace_world t0 0 0 n0 n0 false [] {} [program_start_cmd 1] {})
      = trace_world t0 t0 0 n0 n0 false [4]
          { is_running := true, current_program_id := 1, current_zone_id := 1,
            current_zone_index := 0, zone_start_time := t0, zone_duration_seconds := 600 }
          [] { period_ms := 600000, active := true } := by
  rw [executor_task_step_program_start _ (program_start_cmd 1) [] _ rfl rfl rfl rfl
    (skip_trace_lookup0 t0 0 0 n0 false [] {} [program_start_cmd 1] {}) rfl rfl,
    executor_activate_eq]
  simp [trace_world, control_zone,
    safe_sprinklerdata_operation, update_gpio_state, gpio_set_level,
    sprinkler_update_zone_status, zone_slot_access, set_zone, sprinkler_save_zone, nvs_set,
    scenario_zones_at, skip_disabled_program, two_zone_program, MAX_ZONES]

theorem skip_trace_step2 (t0 n0 : Int) :
    timer_expiry (engine_step (trace_world t0 t0 0 n0 n0 false [4]
          { is_running := true, current_program_id := 1, current_zone_id := 1,
            current_zone_index := 0, zone_start_time := t0, zone_duration_seconds := 600 }
          [] { period_ms := 600000, active := true }) (.tick 600))
      = trace_world (t0 + 600) t0 0 n0 n0 false [4]
          { is_running := true, current_program_id := 1, current_zone_id := 1,
            current_zone_index := 0, zone_start_time := t0, zone_duration_seconds := 600 }
          [{ program_id := 1, zone_index := 1 }] { period_ms := 600000, active := false } := by
  simp [trace_world, engine_step, timer_expiry, zone_timer_callback, queue_send,
    EXECUTION_QUEUE_SIZE]

theorem skip_trace_step3 (t0 n0 : Int) :
    executor_task_step (trace_world (t0 + 600) t0 0 n0 n0 false [4]
          { is_running := true, current_program_id := 1, current_zone_id := 1,
            current_zone_index := 0, zone_start_time := t0, zone_duration_seconds := 600 }
          [{ program_id := 1, zone_index := 1 }] { period_ms := 600000, active := false })
      = trace_world (t0 + 600) t0 (t0 + 600) n0 n0 true [5]
          { is_running := true, current_program_id := 1, current_zone_id := 2,
            current_zone_index := 2, zone_start_time := t0 + 600, zone_duration_seconds := 300 }
          [] { period_ms := 300000, active := true } := by
  rw [executor_task_step_continue _ { program_id := 1, zone_index := 1 } [] _ rfl rfl rfl rfl
    (skip_trace_lookup2 (t0 + 600) t0 0 n0 false [4] _ _ _) rfl rfl,
    executor_activate_eq]
  simp [trace_world, control_zone,
    safe_sprinklerdata_operation, update_gpio_state, gpio_set_level,
    sprinkler_update_zone_status, zone_slot_access, set_zone, sprinkler_save_zone, nvs_set,
    scenario_zones_at, skip_disabled_program, two_zone_program, MAX_ZONES]

theorem skip_trace_step4 (t0 n0 : Int) :
    timer_expiry (engine_step (trace_world (t0 + 600) t0 (t0 + 600) n0 n0 true [5]
          { is_running := true, current_program_id := 1, current_zone_id := 2,
            current_zone_index := 2, zone_start_time := t0 + 600, zone_duration_seconds := 300 }
          [] { period_ms := 300000, active := true }) (.tick 300))
      = trace_world (t0 + 600 + 300) t0 (t0 + 600) n0 n0 true [5]
          { is_running := true, current_program_id := 1, current_zone_id := 2,
            current_zone_index := 2, zone_start_time := t0 + 600, zone_duration_seconds := 300 }
          [{ program_id := 1, zone_index := 3 }] { period_ms := 300000, active := false } := by
  simp [trace_world, engine_step, timer_expiry, zone_timer_callback, queue_send,
    EXECUTION_QUEUE_SIZE]

theorem skip_trace_step5 (t0 n0 : Int) :
    executor_task_step (trace_world (t0 + 600 + 300) t0 (t0 + 600) n0 n0 true [5]
          { is_running := true, current_program_id := 1, current_zone_id := 2,
            current_zone_index := 2, zone_start_time := t0 + 600, zone_duration_seconds := 300 }
          [{ program_id := 1, zone_index := 3 }] { period_ms := 300000, active := false })
      = trace_world (t0 + 600 + 300) t0 (t0 + 600)
          (calculate_next_run (t0 + 600 + 300) 2 6 0) n0 true []
          { is_running := false, current_program_id := 0, current_zone_id := 0,
            current_zone_index := 0, zone_start_time := t0 + 600 + 300,
            zone_duration_seconds := 300 }
          [] { period_ms := 300000, active := false } := by
  rw [executor_task_step_complete _ { program_id := 1, zone_index := 3 } [] _ rfl rfl rfl rfl
    (skip_trace_lookup4 (t0 + 600 + 300) t0 (t0 + 600) n0 true [5] _ _ _) rfl rfl]
  simp [trace_world, control_zone,
    safe_sprinklerdata_operation, update_gpio_state, gpio_set_level,
    sprinkler_update_zone_status, zone_slot_access, set_zone, sprinkler_save_zone, nvs_set,
    scenario_zones_at, skip_disabled_program, two_zone_program, MAX_ZONES, MAX_PROGRAMS,
    sprinkler_update_program_next_run, program_slot_access, set_program, sprinkler_save_program]

theorem engine_run_snoc (w : World) (es : List engine_event) (e : engine_event) :
    engine_run w (es ++ [e]) = engine_step (engine_run w es) e := by
  simp [engine_run, List.foldl_append]

theorem engine_run_snoc_tick_expiry (w : World) (es : List engine_event) (s : Nat) :
    engine_run w (es ++ [.tick s, .timer_expiry])
      = timer_expiry (engine_step (engine_run w es) (.tick s)) := by
  simp [engine_run, List.foldl_append, engine_step]

/-- C7. Skip-disabled scenario, for every start time `t0` and every stored `next_run`
value `n0`: program 1 has the references [(zone 1 = A, 10 min, enabled),
(zone 3 = B, 15 min, disabled), (zone 2 = C, 5 min, enabled)]. The worker handling the
program-start command activates A (line 4) with duration 600 s and arms the timer with
600 s; on expiry the advance command makes the worker switch A off and activate C
(line 5) with 300 s; on C's expiry the worker switches C off and finalizes the program.
Line 18 of B is never high and B's `last_run` is never stamped, the armed periods total
900 s = 15 min, and `next_run` of program 1 keeps its stored value `n0` until the last
worker step, which sets it to `calculate_next_run` of the schedule at that time. -/
theorem skip_disabled_program_run (t0 n0 : Int) :
    (engine_run (started_world t0 n0 [program_start_cmd 1]) [.worker]
      = trace_world t0 t0 0 n0 n0 false [4]
          { is_running := true, current_program_id := 1, current_zone_id := 1,
            current_zone_index := 0, zone_start_time := t0, zone_duration_seconds := 600 }
          [] { period_ms := 600000, active := true }) ∧
    (engine_run (started_world t0 n0 [program_start_cmd 1]) [.worker, .tick 600, .timer_expiry]
      = trace_world (t0 + 600) t0 0 n0 n0 false [4]
          { is_running := true, current_program_id := 1, current_zone_id := 1,
            current_zone_index := 0, zone_start_time := t0, zone_duration_seconds := 600 }
          [{ program_id := 1, zone_index := 1 }] { period_ms := 600000, active := false }) ∧
    (engine_run (started_world t0 n0 [program_start_cmd 1])
        [.worker, .tick 600, .timer_expiry, .worker]
      = trace_world (t0 + 600) t0 (t0 + 600) n0 n0 true [5]
          { is_running := true, current_program_id := 1, current_zone_id := 2,
            current_zone_index := 2, zone_start_time := t0 + 600, zone_duration_seconds := 300 }
          [] { period_ms := 300000, active := true }) ∧
    (engine_run (started_world t0 n0 [program_start_cmd 1])
        [.worker, .tick 600, .timer_expiry, .worker, .tick 300, .timer_expiry]
      = trace_world (t0 + 600 + 300) t0 (t0 + 600) n0 n0 true [5]
          { is_running := true, current_program_id := 1, current_zone_id := 2,
            current_zone_index := 2, zone_start_time := t0 + 600, zone_duration_seconds := 300 }
          [{ program_id := 1, zone_index := 3 }] { period_ms := 300000, active := false }) ∧
    (engine_run (started_world t0 n0 [program_start_cmd 1])
        [.worker, .tick 600, .timer_expiry, .worker, .tick 300, .timer_expiry, .worker]
      = trace_world (t0 + 600 + 300) t0 (t0 + 600)
          (calculate_next_run (t0 + 600 + 300) 2 6 0) n0 true []
          { is_running := false, current_program_id := 0, current_zone_id := 0,
            current_zone_index := 0, zone_start_time := t0 + 600 + 300,
            zone_duration_seconds := 300 }
          [] { period_ms := 300000, active := false }) ∧
    (next_run_of (engine_run (started_world t0 n0 [program_start_cmd 1]) [.worker]) 1 = n0 ∧
      next_run_of (engine_run (started_world t0 n0 [program_start_cmd 1])
        [.worker, .tick 600, .timer_expiry]) 1 = n0 ∧
      next_run_of (engine_run (started_world t0 n0 [program_start_cmd 1])
        [.worker, .tick 600, .timer_expiry, .worker]) 1 = n0 ∧
      next_run_of (engine_run (started_world t0 n0 [program_start_cmd 1])
        [.worker, .tick 600, .timer_expiry, .worker, .tick 300, .timer_expiry]) 1 = n0 ∧
      next_run_of (engine_run (started_world t0 n0 [program_start_cmd 1])
        [.worker, .tick 600, .timer_expiry, .worker, .tick 300, .timer_expiry, .worker]) 1
        = calculate_next_run (t0 + 600 + 300) 2 6 0) ∧
    ((skip_disabled_program n0).zones.take (skip_disabled_program n0).zone_count
        = [{ zone_id := 1, duration := 10, order := 0 }, { zone_id := 3, duration := 15, order := 1 },
           { zone_id := 2, duration := 5, order := 2 }] ∧
      (scenario_zones.map (fun z => (z.id, z.output, z.enabled))).take 3
        = [(1, 4, true), (2, 5, true), (3, 18, false)] ∧
      (600 + 300 : Nat) = 15 * 60) := by
  have hA : engine_run (started_world t0 n0 [program_start_cmd 1]) [.worker]
      = trace_world t0 t0 0 n0 n0 false [4]
          { is_running := true, current_program_id := 1, current_zone_id := 1,
            current_zone_index := 0, zone_start_time := t0, zone_duration_seconds := 600 }
          [] { period_ms := 600000, active := true } := by
    show executor_task_step (started_world t0 n0 [program_start_cmd 1]) = _
    rw [skip_trace_start, skip_trace_step1]
  have hB : engine_run (started_world t0 n0 [program_start_cmd 1])
      [.worker, .tick 600, .timer_expiry]
      = trace_world (t0 + 600) t0 0 n0 n0 false [4]
          { is_running := true, current_program_id := 1, current_zone_id := 1,
            current_zone_index := 0, zone_start_time := t0, zone_duration_seconds := 600 }
          [{ program_id := 1, zone_index := 1 }] { period_ms := 600000, active := false } := by
    rw [show ([.worker, .tick 600, .timer_expiry] : List engine_event)
      = [.worker] ++ [.tick 600, .timer_expiry] from rfl, engine_run_snoc_tick_expiry, hA,
      skip_trace_step2]
  have hC : engine_run (started_world t0 n0 [program_start_cmd 1])
      [.worker, .tick 600, .timer_expiry, .worker]
      = trace_world (t0 + 600) t0 (t0 + 600) n0 n0 true [5]
          { is_running := true, current_program_id := 1, current_zone_id := 2,
            current_zone_index := 2, zone_start_time := t0 + 600, zone_duration_seconds := 300 }
          [] { period_ms := 300000, active := true } := by
    rw [show ([.worker, .tick 600, .timer_expiry, .worker] : List engine_event)
      = [.worker, .tick 600, .timer_expiry] ++ [.worker] from rfl, engine_run_snoc, hB]
    exact skip_trace_step3 t0 n0
  have hD : engine_run (started_world t0 n0 [program_start_cmd 1])
      [.worker, .tick 600, .timer_expiry, .worker, .tick 300, .timer_expiry]
      = trace_world (t0 + 600 + 300) t0 (t0 + 600) n0 n0 true [5]
          { is_running := true, current_program_id := 1, current_zone_id := 2,
            current_zone_index := 2, zone_start_time := t0 + 600, zone_duration_seconds := 300 }
          [{ program_id := 1, zone_index := 3 }] { period_ms := 300000, active := false } := by
    rw [show ([.worker, .tick 600, .timer_expiry, .worker, .tick 300, .timer_expiry] :
        List engine_event)
      = [.worker, .tick 600, .timer_expiry, .worker] ++ [.tick 300, .timer_expiry] from rfl,
      engine_run_snoc_tick_expiry, hC, skip_trace_step4]
  have hE : engine_run (started_world t0 n0 [program_start_cmd 1])
      [.worker, .tick 600, .timer_expiry, .worker, .tick 300, .timer_expiry, .worker]
      = trace_world (t0 + 600 + 300) t0 (t0 + 600)
          (calculate_next_run (t0 + 600 + 300) 2 6 0) n0 true []
          { is_running := false, current_program_id := 0, current_zone_id := 0,
            current_zone_index := 0, zone_start_time := t0 + 600 + 300,
            zone_duration_seconds := 300 }
          [] { period_ms := 300000, active := false } := by
    rw [show ([.worker, .tick 600, .timer_expiry, .worker, .tick 300, .timer_expiry, .worker] :
        List engine_event)
      = [.worker, .tick 600, .timer_expiry, .worker, .tick 300, .timer_expiry] ++ [.worker]
      from rfl, engine_run_snoc, hD]
    exact skip_trace_step5 t0 n0
  refine ⟨hA, hB, hC, hD, hE, ⟨?_, ?_, ?_, ?_, ?_⟩, ⟨rfl, by decide, by decide⟩⟩
  · rw [hA]; rfl
  · rw [hB]; rfl
  · rw [hC]; rfl
  · rw [hD]; rfl
  · rw [hE]; rfl


/-! ## Theorems: schedule store -/

theorem find_available_slot_none (ids : List Nat) :
    ∀ k, (∀ x ∈ ids, x ≠ 0) → find_available_slot ids k = none := by
  induction ids with
  | nil => intro k _; rfl
  | cons a rest ih =>
    intro k h
    simp only [find_available_slot]
    rw [if_neg (h a (List.mem_cons_self _ _))]
    exact ih (k + 1) (fun x hx => h x (List.mem_cons_of_mem _ hx))

theorem find_available_slot_first (ids : List Nat) :
    ∀ k i, i < ids.length → ids.getD i 1 = 0 → (∀ j, j < i → ids.getD j 1 ≠ 0) →
      find_available_slot ids k = some (k + i) := by
  induction ids with
  | nil => intro k i hi; simp at hi
  | cons a rest ih =>
    intro k i hi h0 hmin
    simp only [find_available_slot]
    cases i with
    | zero =>
      have : a = 0 := by simpa using h0
      rw [if_pos this]
      rfl
    | succ i =>
      have ha : a ≠ 0 := by simpa using hmin 0 (Nat.succ_pos _)
      rw [if_neg ha]
      have := ih (k + 1) i (by simpa using hi) (by simpa using h0)
        (fun j hj => by simpa using hmin (j + 1) (by omega))
      rw [this]
      congr 1
      omega

theorem find_available_slot_spec (ids : List Nat) :
    ∀ k r, find_available_slot ids k = some r →
      ∃ i, r = k + i ∧ i < ids.length ∧ ids.getD i 1 = 0 ∧ ∀ j, j < i → ids.getD j 1 ≠ 0 := by
  induction ids with
  | nil => intro k r h; exact Option.noConfusion h
  | cons a rest ih =>
    intro k r h
    simp only [find_available_slot] at h
    split at h
    · rename_i ha
      cases h
      exact ⟨0, rfl, by simp, by simpa using ha, fun j hj => by omega⟩
    · rename_i ha
      obtain ⟨i, h1, h2, h3, h4⟩ := ih (k + 1) r h
      refine ⟨i + 1, by omega, by simpa using h2, by simpa using h3, ?_⟩
      intro j hj
      cases j with
      | zero => simpa using ha
      | succ j => simpa using h4 j (by omega)

theorem zone_ids_getD (zones : List zone_t) (i : Nat) (hi : i < zones.length) :
    (zones.map (fun z => z.id)).getD i 1 = (zones.getD i default).id := by
  simp [List.getD_eq_getElem?_getD, List.getElem?_map, List.getElem?_eq_getElem hi]

theorem program_ids_getD (programs : List program_t) (i : Nat) (hi : i < programs.length) :
    (programs.map (fun p => p.id)).getD i 1 = (programs.getD i default).id := by
  simp [List.getD_eq_getElem?_getD, List.getElem?_map, List.getElem?_eq_getElem hi]

theorem occupied_lt_of_free_slot (zones : List zone_t) (i : Nat) (hi : i < zones.length)
    (h0 : (zones.getD i default).id = 0) :
    (zones.filter (fun z => decide (z.id ≠ 0))).length < zones.length := by
  apply List.length_filter_lt_length_iff_exists.2
  refine ⟨zones.getD i default, ?_, ?_⟩
  · rw [List.getD_eq_getElem _ _ hi]
    exact List.getElem_mem _
  · show ¬ decide ((zones.getD i default).id ≠ 0) = true
    rw [h0]
    decide

theorem occupied_eq_of_no_free_slot (zones : List zone_t)
    (h : ∀ i, i < zones.length → (zones.getD i default).id ≠ 0) :
    (zones.filter (fun z => decide (z.id ≠ 0))).length = zones.length := by
  have : zones.filter (fun z => decide (z.id ≠ 0)) = zones := by
    apply List.filter_eq_self.2
    intro z hz
    obtain ⟨i, hi, rfl⟩ := List.getElem_of_mem hz
    have := h i hi
    rw [List.getD_eq_getElem _ _ hi] at this
    simpa using this
  rw [this]

/-- C11. For every store whose `zone_count` equals the number of occupied zone slots (and
whose zone table has its `MAX_ZONES` slots), with a succeeding persistence write:
`sprinkler_create_or_update_zone(0, name, output)` returns `ESP_OK` and stores the zone in
the lowest-index free slot `i` with `id = i + 1`, `enabled = true`, `last_run = 0`,
increases `zone_count` by one and leaves every other slot and all programs unchanged;
when no slot is free it returns `ESP_ERR_NO_MEM` and leaves the world unchanged. -/
theorem create_zone_allocates_first_free_slot (w : World) (name : List Nat) (output : Nat)
    (hlen : w.sprinkler_data.zones.length = MAX_ZONES)
    (hcount : w.sprinkler_data.zone_count
      = (w.sprinkler_data.zones.filter (fun z => decide (z.id ≠ 0))).length)
    (hnvs : w.nvs_ok = true) :
    (∀ i, i < MAX_ZONES → (w.sprinkler_data.zones.getD i default).id = 0 →
      (∀ k, k < i → (w.sprinkler_data.zones.getD k default).id ≠ 0) →
      (sprinkler_create_or_update_zone w 0 name output).2 = ESP_OK ∧
      (sprinkler_create_or_update_zone w 0 name output).1.sprinkler_data
        = { w.sprinkler_data with
            zones := w.sprinkler_data.zones.set i
              { id := i + 1, name := strncpy name (MAX_ZONE_NAME_LEN - 1), output := output,
                enabled := true, last_run := 0 }
            zone_count := w.sprinkler_data.zone_count + 1 }) ∧
    ((∀ i, i < MAX_ZONES → (w.sprinkler_data.zones.getD i default).id ≠ 0) →
      sprinkler_create_or_update_zone w 0 name output = (w, ESP_ERR_NO_MEM)) := by
  refine ⟨?_, ?_⟩
  · intro i hi h0 hmin
    have hlt : w.sprinkler_data.zone_count < MAX_ZONES := by
      rw [hcount, ← hlen]
      exact occupied_lt_of_free_slot _ i (by omega) h0
    have hfind : find_available_slot
        ((w.sprinkler_data.zones.take MAX_ZONES).map (fun z => z.id)) 0 = some i := by
      have htake : w.sprinkler_data.zones.take MAX_ZONES = w.sprinkler_data.zones := by
        rw [← hlen]; exact List.take_length _
      rw [htake]
      have := find_available_slot_first (w.sprinkler_data.zones.map (fun z => z.id)) 0 i
        (by simpa using (by omega : i < w.sprinkler_data.zones.length))
        (by rw [zone_ids_getD _ _ (by omega)]; exact h0)
        (fun j hj => by rw [zone_ids_getD _ _ (by omega)]; exact hmin j hj)
      simpa using this
    have hmod : (w.sprinkler_data.zone_count + 1) % 256 = w.sprinkler_data.zone_count + 1 := by
      apply Nat.mod_eq_of_lt
      simp only [MAX_ZONES] at hlt
      omega
    simp only [sprinkler_create_or_update_zone, ne_eq, not_true_eq_false, if_false,
      ge_iff_le, if_neg (Nat.not_le.2 hlt), hfind, sprinkler_save_zone, set_zone, hnvs, if_true,
      init_zone_gpio, gpio_set_level, Bool.false_eq_true, hmod]
    exact ⟨trivial, trivial⟩
  · intro hfull
    have hc : w.sprinkler_data.zone_count = MAX_ZONES := by
      rw [hcount, ← hlen]
      exact occupied_eq_of_no_free_slot _ (fun i hi => hfull i (by omega))
    simp only [sprinkler_create_or_update_zone, ne_eq, not_true_eq_false, if_false, hc,
      ge_iff_le, le_refl, if_true]

/-- Instance of C11: in the store holding only zone 1, creating a zone fills slot 1 with
id 2 and raises `zone_count` from 1 to 2. -/
theorem create_zone_allocates_first_free_slot_witness :
    (cascade_world.sprinkler_data.zones.length = MAX_ZONES ∧
      cascade_world.sprinkler_data.zone_count
        = (cascade_world.sprinkler_data.zones.filter (fun z => decide (z.id ≠ 0))).length ∧
      cascade_world.nvs_ok = true ∧
      (cascade_world.sprinkler_data.zones.getD 1 default).id = 0 ∧
      (∀ k, k < 1 → (cascade_world.sprinkler_data.zones.getD k default).id ≠ 0)) ∧
    ((sprinkler_create_or_update_zone cascade_world 0 [66] 5).2 = ESP_OK ∧
      (sprinkler_create_or_update_zone cascade_world 0 [66] 5).1.sprinkler_data
        = { cascade_world.sprinkler_data with
            zones := cascade_world.sprinkler_data.zones.set 1
              { id := 1 + 1, name := strncpy [66] (MAX_ZONE_NAME_LEN - 1), output := 5,
                enabled := true, last_run := 0 }
            zone_count := cascade_world.sprinkler_data.zone_count + 1 }) ∧
    ((sprinkler_create_or_update_zone cascade_world 0 [66] 5).1.sprinkler_data.zones.getD 1
      default) = { id := 2, name := [66], output := 5, enabled := true, last_run := 0 } ∧
    (sprinkler_create_or_update_zone cascade_world 0 [66] 5).1.sprinkler_data.zone_count = 2 :=
  ⟨⟨by decide, by decide, by decide, by decide, by decide⟩,
    (create_zone_allocates_first_free_slot cascade_world [66] 5 (by decide) (by decide)
      (by decide)).1 1 (by decide) (by decide) (by decide),
    by decide, by decide⟩

theorem zone_slot_access_in_range (w : World) (zone_id : Nat)
    (h1 : 1 ≤ zone_id) (h2 : zone_id ≤ MAX_ZONES) : zone_slot_access w zone_id = w := by
  have ha : decide (zone_id = 0) = false := by simp; omega
  have hb : decide (zone_id > MAX_ZONES) = false := by simp; omega
  simp only [zone_slot_access, ha, hb, Bool.or_false]

theorem program_slot_access_in_range (w : World) (program_id : Nat)
    (h1 : 1 ≤ program_id) (h2 : program_id ≤ MAX_PROGRAMS) :
    program_slot_access w program_id = w := by
  have ha : decide (program_id = 0) = false := by simp; omega
  have hb : decide (program_id > MAX_PROGRAMS) = false := by simp; omega
  simp only [program_slot_access, ha, hb, Bool.or_false]

/-- C12. With the store lock available, for every id in 1..MAX_ZONES whose zone slot is
empty `sprinkler_create_or_update_zone` returns `ESP_ERR_INVALID_STATE`, and for every id
in 1..MAX_PROGRAMS whose program slot is empty `sprinkler_create_or_update_program`
returns `ESP_ERR_INVALID_STATE`; in both cases the world (in-memory store, persisted
records and everything else) is unchanged. -/
theorem update_of_empty_slot_is_invalid_state (w : World) (hm : w.mutex_free = true) :
    (∀ zone_id name output, 1 ≤ zone_id → zone_id ≤ MAX_ZONES →
      (w.sprinkler_data.zones.getD (zone_id - 1) default).id = 0 →
      sprinkler_create_or_update_zone w zone_id name output = (w, ESP_ERR_INVALID_STATE)) ∧
    (∀ program_id name days start_hour start_minute zones zone_count,
      1 ≤ program_id → program_id ≤ MAX_PROGRAMS →
      (w.sprinkler_data.programs.getD (program_id - 1) default).id = 0 →
      sprinkler_create_or_update_program w program_id name days start_hour start_minute
        zones zone_count = (w, ESP_ERR_INVALID_STATE)) := by
  refine ⟨?_, ?_⟩
  · intro zone_id name output h1 h2 h0
    have hne : zone_id ≠ 0 := by omega
    simp only [sprinkler_create_or_update_zone, ne_eq, hne, not_false_eq_true, if_true, hm,
      Bool.true_eq_false, if_false, zone_slot_access_in_range w zone_id h1 h2, h0]
  · intro program_id name days start_hour start_minute zones zone_count h1 h2 h0
    have hne : program_id ≠ 0 := by omega
    simp only [sprinkler_create_or_update_program, ne_eq, hne, not_false_eq_true, if_true, hm,
      Bool.true_eq_false, if_false, program_slot_access_in_range w program_id h1 h2, h0]

/-- Instance of C12 on the store holding zone 1 and program 2 only: updating zone 2 and
updating program 1 are refused. -/
theorem update_of_empty_slot_is_invalid_state_witness :
    (cascade_world.mutex_free = true ∧
      (cascade_world.sprinkler_data.zones.getD (2 - 1) default).id = 0 ∧
      (cascade_world.sprinkler_data.programs.getD (1 - 1) default).id = 0) ∧
    sprinkler_create_or_update_zone cascade_world 2 [66] 5
      = (cascade_world, ESP_ERR_INVALID_STATE) ∧
    sprinkler_create_or_update_program cascade_world 1 [80] 2 6 0 [] 0
      = (cascade_world, ESP_ERR_INVALID_STATE) :=
  ⟨⟨by decide, by decide, by decide⟩,
    (update_of_empty_slot_is_invalid_state cascade_world (by decide)).1 2 [66] 5 (by decide)
      (by decide) (by decide),
    (update_of_empty_slot_is_invalid_state cascade_world (by decide)).2 1 [80] 2 6 0 [] 0
      (by decide) (by decide) (by decide)⟩

/-- C13, evaluation at the failing input. On an empty store whose persistence write
fails, `sprinkler_create_or_update_zone(0, ...)` and
`sprinkler_create_or_update_program(0, ...)` return the error, but slot 0, which was
empty before the call, stays filled in (id 1, enabled) while the count stays 0: the
allocation is not rolled back. -/
theorem create_keeps_slot_after_failed_write :
    (nvs_down_world.sprinkler_data.zones.getD 0 default).id = 0 ∧
    (nvs_down_world.sprinkler_data.programs.getD 0 default).id = 0 ∧
    (sprinkler_create_or_update_zone nvs_down_world 0 [65] 4).2 = ESP_FAIL ∧
    ((sprinkler_create_or_update_zone nvs_down_world 0 [65] 4).1.sprinkler_data.zones.getD 0
      default) = { id := 1, name := [65], output := 4, enabled := true, last_run := 0 } ∧
    (sprinkler_create_or_update_zone nvs_down_world 0 [65] 4).1.sprinkler_data.zone_count = 0 ∧
    (sprinkler_create_or_update_zone nvs_down_world 0 [65] 4).1.sprinkler_data
      ≠ nvs_down_world.sprinkler_data ∧
    (sprinkler_create_or_update_program nvs_down_world 0 [80] 2 6 0 [] 0).2 = ESP_FAIL ∧
    ((sprinkler_create_or_update_program nvs_down_world 0 [80] 2 6 0 []
      0).1.sprinkler_data.programs.getD 0 default).id = 1 ∧
    ((sprinkler_create_or_update_program nvs_down_world 0 [80] 2 6 0 []
      0).1.sprinkler_data.programs.getD 0 default).enabled = true ∧
    (sprinkler_create_or_update_program nvs_down_world 0 [80] 2 6 0 []
      0).1.sprinkler_data.program_count = 0 ∧
    (sprinkler_create_or_update_program nvs_down_world 0 [80] 2 6 0 [] 0).1.sprinkler_data
      ≠ nvs_down_world.sprinkler_data := by
  decide

/-- C14, counterexample. With the store lock unavailable, the guarded read
`safe_sprinklerdata_operation` reports `ESP_FAIL`, not `ESP_ERR_TIMEOUT`, and
`sprinkler_create_or_update_zone(0, ...)`, which never takes the lock, returns `ESP_OK`
and fills slot 1 of the store. -/
theorem lock_timeout_not_always_timeout :
    locked_world.mutex_free = false ∧
    (safe_sprinklerdata_operation init_all_zones_gpio locked_world).2 = ESP_FAIL ∧
    (safe_sprinklerdata_operation init_all_zones_gpio locked_world).2 ≠ ESP_ERR_TIMEOUT ∧
    (sprinkler_create_or_update_zone locked_world 0 [66] 5).2 = ESP_OK ∧
    (locked_world.sprinkler_data.zones.getD 1 default).id = 0 ∧
    ((sprinkler_create_or_update_zone locked_world 0 [66] 5).1.sprinkler_data.zones.getD 1
      default).id = 2 := by
  decide

/-- C14, amended. When the store lock cannot be acquired within the timeout, every store
operation that takes the lock (zone update with a nonzero id, remove and enable of zones
and programs, program create/update, add_zone_to_program, update_zone_status,
update_program_next_run, update_program_last_run) returns `ESP_ERR_TIMEOUT` and leaves
the world, in-memory store and persisted records included, unchanged; the guarded read
`safe_sprinklerdata_operation` does not run its operation, leaves the world unchanged and
returns `ESP_FAIL`. -/
theorem lock_timeout_changes_nothing (w : World) (hm : w.mutex_free = false) :
    (∀ zone_id name output, zone_id ≠ 0 →
      sprinkler_create_or_update_zone w zone_id name output = (w, ESP_ERR_TIMEOUT)) ∧
    (∀ zone_id, sprinkler_remove_zone w zone_id = (w, ESP_ERR_TIMEOUT)) ∧
    (∀ zone_id is_enabled, sprinkler_enable_zone w zone_id is_enabled = (w, ESP_ERR_TIMEOUT)) ∧
    (∀ program_id name days start_hour start_minute zones zone_count,
      sprinkler_create_or_update_program w program_id name days start_hour start_minute
        zones zone_count = (w, ESP_ERR_TIMEOUT)) ∧
    (∀ program_id, sprinkler_remove_program w program_id = (w, ESP_ERR_TIMEOUT)) ∧
    (∀ program_id is_enabled,
      sprinkler_enable_program w program_id is_enabled = (w, ESP_ERR_TIMEOUT)) ∧
    (∀ program_id zone_id duration order,
      sprinkler_add_zone_to_program w program_id zone_id duration order
        = (w, ESP_ERR_TIMEOUT)) ∧
    (∀ zone_id turn_on, sprinkler_update_zone_status w zone_id turn_on = (w, ESP_ERR_TIMEOUT)) ∧
    (∀ program_id, sprinkler_update_program_next_run w program_id = (w, ESP_ERR_TIMEOUT)) ∧
    (∀ program_id, sprinkler_update_program_last_run w program_id = (w, ESP_ERR_TIMEOUT)) ∧
    (∀ operation, safe_sprinklerdata_operation operation w = (w, ESP_FAIL)) := by
  refine ⟨?_, ?_, ?_, ?_, ?_, ?_, ?_, ?_, ?_, ?_, ?_⟩
  · intro zone_id name output hne
    simp only [sprinkler_create_or_update_zone, ne_eq, hne, not_false_eq_true, if_true, hm]
  · intro zone_id
    simp only [sprinkler_remove_zone, hm, if_true]
  · intro zone_id is_enabled
    simp only [sprinkler_enable_zone, hm, if_true]
  · intro program_id name days start_hour start_minute zones zone_count
    simp only [sprinkler_create_or_update_program, hm, if_true]
  · intro program_id
    simp only [sprinkler_remove_program, hm, if_true]
  · intro program_id is_enabled
    simp only [sprinkler_enable_program, hm, if_true]
  · intro program_id zone_id duration order
    simp only [sprinkler_add_zone_to_program, hm, if_true]
  · intro zone_id turn_on
    simp only [sprinkler_update_zone_status, hm, if_true]
  · intro program_id
    simp only [sprinkler_update_program_next_run, hm, if_true]
  · intro program_id
    simp only [sprinkler_update_program_last_run, hm, if_true]
  · intro operation
    simp only [safe_sprinklerdata_operation, hm, Bool.false_eq_true, if_false]

/-- Instance of the amended C14 on the locked cascade world: removing zone 1 times out
and the guarded read fails, both without any change. -/
theorem lock_timeout_changes_nothing_witness :
    locked_world.mutex_free = false ∧
    sprinkler_remove_zone locked_world 1 = (locked_world, ESP_ERR_TIMEOUT) ∧
    sprinkler_create_or_update_zone locked_world 1 [66] 5 = (locked_world, ESP_ERR_TIMEOUT) ∧
    safe_sprinklerdata_operation init_all_zones_gpio locked_world = (locked_world, ESP_FAIL) :=
  ⟨by decide,
    (lock_timeout_changes_nothing locked_world (by decide)).2.1 1,
    (lock_timeout_changes_nothing locked_world (by decide)).1 1 [66] 5 (by decide),
    (lock_timeout_changes_nothing locked_world (by decide)).2.2.2.2.2.2.2.2.2.2
      init_all_zones_gpio⟩

theorem copy_program_zones_length (src : List program_zone_t) :
    ∀ n k dst, (copy_program_zones src n k dst).length = dst.length := by
  intro n
  induction n with
  | zero => intro k dst; rfl
  | succ n ih =>
    intro k dst
    simp only [copy_program_zones]
    rw [ih, List.length_set]

theorem program_zone_eta (s : program_zone_t) :
    ({ zone_id := s.zone_id, order := s.order, duration := s.duration } : program_zone_t) = s := by
  cases s; rfl

theorem copy_program_zones_getD (src : List program_zone_t) :
    ∀ n k dst j, k + n ≤ dst.length →
      (copy_program_zones src n k dst).getD j default
        = if k ≤ j ∧ j < k + n then src.getD j default else dst.getD j default := by
  intro n
  induction n with
  | zero =>
    intro k dst j _
    simp only [copy_program_zones]
    rw [if_neg (by omega)]
  | succ n ih =>
    intro k dst j hlen
    simp only [copy_program_zones]
    rw [ih (k + 1) _ j (by rw [List.length_set]; omega), program_zone_eta]
    by_cases hj : j = k
    · subst hj
      rw [if_neg (by omega), if_pos (by omega)]
      simp [List.getD_eq_getElem?_getD, List.getElem?_set, (by omega : j < dst.length)]
    · by_cases hin : k + 1 ≤ j ∧ j < k + 1 + n
      · rw [if_pos hin, if_pos (by omega)]
      · rw [if_neg hin, if_neg (by omega)]
        simp [List.getD_eq_getElem?_getD, List.getElem?_set, Ne.symm hj]

theorem copy_program_zones_take (src dst : List program_zone_t)
    (hlen : src.length ≤ dst.length) :
    (copy_program_zones src src.length 0 dst).take src.length = src := by
  apply List.ext_getElem
  · rw [List.length_take, copy_program_zones_length]
    omega
  · intro j h1 h2
    have h := copy_program_zones_getD src src.length 0 dst j (by omega)
    rw [if_pos (by omega)] at h
    rw [List.getElem_take]
    have h3 : j < (copy_program_zones src src.length 0 dst).length := by
      rw [copy_program_zones_length]; omega
    rw [List.getD_eq_getElem _ _ h3, List.getD_eq_getElem _ _ h2] at h
    exact h

theorem sprinkler_save_program_data (w : World) (program : program_t) :
    (sprinkler_save_program w program).1.sprinkler_data = w.sprinkler_data := by
  unfold sprinkler_save_program; split <;> rfl

theorem sprinkler_save_program_ok (w : World) (program : program_t) (h : w.nvs_ok = true) :
    (sprinkler_save_program w program).2 = ESP_OK := by
  simp only [sprinkler_save_program, h, if_true]

theorem sprinkler_save_zone_data (w : World) (zone : zone_t) :
    (sprinkler_save_zone w zone).1.sprinkler_data = w.sprinkler_data := by
  unfold sprinkler_save_zone; split <;> rfl

theorem sprinkler_save_zone_ok (w : World) (zone : zone_t) (h : w.nvs_ok = true) :
    (sprinkler_save_zone w zone).2 = ESP_OK := by
  simp only [sprinkler_save_zone, h, if_true]

/-- C15, counterexample. (1) After `sprinkler_remove_program(1)` on the empty store
`program_count` is 255 although every slot is free; `sprinkler_create_or_update_program`
with id 0 then returns `ESP_ERR_NO_MEM` at its guard `program_count >= MAX_PROGRAMS` and
stores nothing. (2) Updating program 2 with a name of 40 bytes stores its first 31 bytes,
not the given name. -/
theorem create_program_refused_by_count_guard :
    wrapped_count_world.sprinkler_data.program_count = 255 ∧
    (∀ i, i < MAX_PROGRAMS → (wrapped_count_world.sprinkler_data.programs.getD i default).id = 0) ∧
    wrapped_count_world.mutex_free = true ∧ wrapped_count_world.nvs_ok = true ∧
    (sprinkler_create_or_update_program wrapped_count_world 0 [80] 2 6 0 [] 0).2
      = ESP_ERR_NO_MEM ∧
    ((sprinkler_create_or_update_program wrapped_count_world 0 [80] 2 6 0 []
      0).1.sprinkler_data.programs.getD 0 default).id = 0 ∧
    (cascade_world.sprinkler_data.programs.getD 1 default).id = 2 ∧
    (sprinkler_create_or_update_program cascade_world 2 long_name 2 7 0 [] 0).2 = ESP_OK ∧
    ((sprinkler_create_or_update_program cascade_world 2 long_name 2 7 0 []
      0).1.sprinkler_data.programs.getD 1 default).name ≠ long_name ∧
    ((sprinkler_create_or_update_program cascade_world 2 long_name 2 7 0 []
      0).1.sprinkler_data.programs.getD 1 default).name = long_name.take 31 := by
  decide

/-- C15, amended. With the store lock available, at most `MAX_ZONES_PER_PROGRAM` given
references and a well-formed program table: `sprinkler_create_or_update_program` with the
id of an existing program replaces its name by the first 31 bytes of the given name (the
given name when it fits), its schedule and its zone references by the given ones in the
given order, sets `next_run` to `calculate_next_run` of the new schedule at the current
time and keeps id, enabled flag and `last_run`; with id 0, `program_count` below
`MAX_PROGRAMS` and a free slot it stores the program the same way in the lowest-index free
slot `i` with `id = i + 1`, `enabled = true`, `last_run = 0` (and, the write succeeding,
returns `ESP_OK` with `program_count` raised by one). No other program slot and no zone
is changed. -/
theorem create_or_update_program_effect (w : World) (name : List Nat)
    (days start_hour start_minute : Nat) (zones : List program_zone_t)
    (hm : w.mutex_free = true)
    (hlen : w.sprinkler_data.programs.length = MAX_PROGRAMS)
    (hz : zones.length ≤ MAX_ZONES_PER_PROGRAM) :
    (∀ program_id, 1 ≤ program_id → program_id ≤ MAX_PROGRAMS →
      (w.sprinkler_data.programs.getD (program_id - 1) default).id ≠ 0 →
      (w.sprinkler_data.programs.getD (program_id - 1) default).zones.length
        = MAX_ZONES_PER_PROGRAM →
      ∃ program,
        (sprinkler_create_or_update_program w program_id name days start_hour start_minute
          zones zones.length).1.sprinkler_data
          = { w.sprinkler_data with
              programs := w.sprinkler_data.programs.set (program_id - 1) program } ∧
        (w.nvs_ok = true →
          (sprinkler_create_or_update_program w program_id name days start_hour start_minute
            zones zones.length).2 = ESP_OK) ∧
        program.id = (w.sprinkler_data.programs.getD (program_id - 1) default).id ∧
        program.enabled = (w.sprinkler_data.programs.getD (program_id - 1) default).enabled ∧
        program.last_run = (w.sprinkler_data.programs.getD (program_id - 1) default).last_run ∧
        program.name = name.take 31 ∧
        (name.length < MAX_PROGRAM_NAME_LEN → program.name = name) ∧
        program.schedule
          = { days := days, start_hour := start_hour, start_minute := start_minute } ∧
        program.zone_count = zones.length ∧
        program.zones.take program.zone_count = zones ∧
        program.next_run = calculate_next_run w.now days start_hour start_minute) ∧
    (∀ i, i < MAX_PROGRAMS → w.sprinkler_data.program_count < MAX_PROGRAMS →
      (w.sprinkler_data.programs.getD i default).id = 0 →
      (∀ k, k < i → (w.sprinkler_data.programs.getD k default).id ≠ 0) →
      (w.sprinkler_data.programs.getD i default).zones.length = MAX_ZONES_PER_PROGRAM →
      ∃ program,
        (sprinkler_create_or_update_program w 0 name days start_hour start_minute
          zones zones.length).1.sprinkler_data.programs
          = w.sprinkler_data.programs.set i program ∧
        (sprinkler_create_or_update_program w 0 name days start_hour start_minute
          zones zones.length).1.sprinkler_data.zones = w.sprinkler_data.zones ∧
        (w.nvs_ok = true →
          (sprinkler_create_or_update_program w 0 name days start_hour start_minute
            zones zones.length).2 = ESP_OK ∧
          (sprinkler_create_or_update_program w 0 name days start_hour start_minute
            zones zones.length).1.sprinkler_data
            = { w.sprinkler_data with
                programs := w.sprinkler_data.programs.set i program
                program_count := w.sprinkler_data.program_count + 1 }) ∧
        program.id = i + 1 ∧ program.enabled = true ∧ program.last_run = 0 ∧
        program.name = name.take 31 ∧
        (name.length < MAX_PROGRAM_NAME_LEN → program.name = name) ∧
        program.schedule
          = { days := days, start_hour := start_hour, start_minute := start_minute } ∧
        program.zone_count = zones.length ∧
        program.zones.take program.zone_count = zones ∧
        program.next_run = calculate_next_run w.now days start_hour start_minute) := by
  refine ⟨?_, ?_⟩
  · intro program_id h1 h2 hid hzl
    have hne : program_id ≠ 0 := by omega
    refine ⟨{ w.sprinkler_data.programs.getD (program_id - 1) default with
        name := strncpy name (MAX_ZONE_NAME_LEN - 1)
        schedule := { days := days, start_hour := start_hour, start_minute := start_minute }
        zone_count := zones.length
        zones := copy_program_zones zones zones.length 0
          (w.sprinkler_data.programs.getD (program_id - 1) default).zones
        next_run := calculate_next_run w.now days start_hour start_minute }, ?_, ?_, rfl, rfl,
      rfl, rfl, ?_, rfl, rfl, ?_, rfl⟩
    · simp only [sprinkler_create_or_update_program, hm, Bool.true_eq_false, if_false, ne_eq,
        hne, not_false_eq_true, if_true, program_slot_access_in_range w program_id h1 h2, hid,
        sprinkler_save_program_data, set_program]
    · intro hnvs
      simp only [sprinkler_create_or_update_program, hm, Bool.true_eq_false, if_false, ne_eq,
        hne, not_false_eq_true, if_true, program_slot_access_in_range w program_id h1 h2, hid]
      rw [sprinkler_save_program_ok]
      simpa [set_program] using hnvs
    · intro hn
      simp only [MAX_PROGRAM_NAME_LEN] at hn
      exact List.take_of_length_le (by simp only [MAX_ZONE_NAME_LEN]; omega)
    · exact copy_program_zones_take zones _ (by rw [hzl]; exact hz)
  · intro i hi hcnt h0 hmin hzl
    have hfind : find_available_slot
        ((w.sprinkler_data.programs.take MAX_PROGRAMS).map (fun p => p.id)) 0 = some i := by
      have htake : w.sprinkler_data.programs.take MAX_PROGRAMS = w.sprinkler_data.programs := by
        rw [← hlen]; exact List.take_length _
      rw [htake]
      have := find_available_slot_first (w.sprinkler_data.programs.map (fun p => p.id)) 0 i
        (by simpa using (by omega : i < w.sprinkler_data.programs.length))
        (by rw [program_ids_getD _ _ (by omega)]; exact h0)
        (fun j hj => by rw [program_ids_getD _ _ (by omega)]; exact hmin j hj)
      simpa using this
    have hmod : (w.sprinkler_data.program_count + 1) % 256
        = w.sprinkler_data.program_count + 1 := by
      apply Nat.mod_eq_of_lt
      simp only [MAX_PROGRAMS] at hcnt
      omega
    refine ⟨{ w.sprinkler_data.programs.getD i default with
        id := i + 1
        name := strncpy name (MAX_PROGRAM_NAME_LEN - 1)
        enabled := true
        schedule := { days := days, start_hour := start_hour, start_minute := start_minute }
        zone_count := zones.length
        zones := copy_program_zones zones zones.length 0
          (w.sprinkler_data.programs.getD i default).zones
        last_run := 0
        next_run := calculate_next_run w.now days start_hour start_minute }, ?_, ?_, ?_, rfl,
      rfl, rfl, rfl, ?_, rfl, rfl, ?_, rfl⟩
    · simp only [sprinkler_create_or_update_program, hm, Bool.true_eq_false, if_false, ne_eq,
        not_true_eq_false, ge_iff_le, if_neg (Nat.not_le.2 hcnt), hfind]
      split <;> simp only [sprinkler_save_program_data, set_program]
    · simp only [sprinkler_create_or_update_program, hm, Bool.true_eq_false, if_false, ne_eq,
        not_true_eq_false, ge_iff_le, if_neg (Nat.not_le.2 hcnt), hfind]
      split <;> simp only [sprinkler_save_program_data, set_program]
    · intro hnvs
      simp only [sprinkler_create_or_update_program, hm, Bool.true_eq_false, if_false, ne_eq,
        not_true_eq_false, ge_iff_le, if_neg (Nat.not_le.2 hcnt), hfind, sprinkler_save_program,
        set_program, hnvs, if_true, hmod]
      exact ⟨trivial, trivial⟩
    · intro hn
      simp only [MAX_PROGRAM_NAME_LEN] at hn
      exact List.take_of_length_le (by simp only [MAX_PROGRAM_NAME_LEN]; omega)
    · exact copy_program_zones_take zones _ (by rw [hzl]; exact hz)

/-- Instance of the amended C15: updating program 2 of the cascade store with a new name,
schedule and one reference. -/
theorem create_or_update_program_effect_witness :
    (cascade_world.mutex_free = true ∧
      cascade_world.sprinkler_data.programs.length = MAX_PROGRAMS ∧
      [({ zone_id := 1, duration := 20, order := 0 } : program_zone_t)].length
        ≤ MAX_ZONES_PER_PROGRAM ∧
      (cascade_world.sprinkler_data.programs.getD (2 - 1) default).id ≠ 0 ∧
      (cascade_world.sprinkler_data.programs.getD (2 - 1) default).zones.length
        = MAX_ZONES_PER_PROGRAM) ∧
    (∃ program,
      (sprinkler_create_or_update_program cascade_world 2 [82] 4 9 30
        [{ zone_id := 1, duration := 20, order := 0 }] 1).1.sprinkler_data
        = { cascade_world.sprinkler_data with
            programs := cascade_world.sprinkler_data.programs.set (2 - 1) program } ∧
      program.id = 2 ∧ program.name = [82] ∧
      program.zones.take program.zone_count = [{ zone_id := 1, duration := 20, order := 0 }] ∧
      program.next_run = calculate_next_run cascade_world.now 4 9 30) :=
  ⟨⟨by decide, by decide, by decide, by decide, by decide⟩,
    ((create_or_update_program_effect cascade_world [82] 4 9 30
      [{ zone_id := 1, duration := 20, order := 0 }] (by decide) (by decide) (by decide)).1 2
      (by decide) (by decide) (by decide) (by decide)).elim
      (fun program h => ⟨program, h.1, h.2.2.1.trans (by decide),
        h.2.2.2.2.2.2.1 (by decide), h.2.2.2.2.2.2.2.2.2.1, h.2.2.2.2.2.2.2.2.2.2⟩)⟩

/-- C16, evaluation at the failing input. Program 2 exists in slot 1 and holds one
reference, while `program_count` is 1 after program 1 was removed;
`sprinkler_add_zone_to_program(2, ...)` with the lock and persistence available is
rejected by the guard `program_id > sprinkler_data.program_count` with
`ESP_ERR_INVALID_ARG` and appends nothing. -/
theorem add_zone_rejects_program_beyond_count :
    cascade_world.mutex_free = true ∧ cascade_world.nvs_ok = true ∧
    (cascade_world.sprinkler_data.programs.getD 1 default).id = 2 ∧
    (cascade_world.sprinkler_data.programs.getD 1 default).zone_count = 1 ∧
    cascade_world.sprinkler_data.program_count = 1 ∧
    (sprinkler_add_zone_to_program cascade_world 2 1 5 1).2 = ESP_ERR_INVALID_ARG ∧
    ((sprinkler_add_zone_to_program cascade_world 2 1 5 1).1.sprinkler_data.programs.getD 1
      default).zone_count = 1 ∧
    (sprinkler_add_zone_to_program cascade_world 2 1 5 1).1.sprinkler_data
      = cascade_world.sprinkler_data := by
  decide

theorem nvs_get_set {α : Type} (m : List (Nat × α)) (key : Nat) (v : α) :
    nvs_get (nvs_set m key v) key = some v := by
  simp [nvs_get, nvs_set]

theorem nvs_get_erase {α : Type} (m : List (Nat × α)) (key : Nat) :
    nvs_get (m.filter (fun e => e.1 != key)) key = none := by
  simp only [nvs_get, Option.map_eq_none']
  apply List.find?_eq_none.2
  intro x hx
  have := (List.mem_filter.1 hx).2
  simpa using this

theorem sprinkler_remove_zone_from_program_nvs_zones (w : World) (program_id zone_id : Nat) :
    (sprinkler_remove_zone_from_program w program_id zone_id).1.nvs_zones = w.nvs_zones ∧
    (sprinkler_remove_zone_from_program w program_id zone_id).1.nvs_ok = w.nvs_ok := by
  unfold sprinkler_remove_zone_from_program
  split
  · exact ⟨rfl, rfl⟩
  · simp only
    split
    · unfold sprinkler_save_program
      split <;> exact ⟨rfl, rfl⟩
    · exact ⟨rfl, rfl⟩

theorem remove_zone_from_programs_nvs_zones (zone_id : Nat) :
    ∀ n i w, (remove_zone_from_programs zone_id n i w).nvs_zones = w.nvs_zones ∧
      (remove_zone_from_programs zone_id n i w).nvs_ok = w.nvs_ok := by
  intro n
  induction n with
  | zero => intro i w; exact ⟨rfl, rfl⟩
  | succ n ih =>
    intro i w
    simp only [remove_zone_from_programs]
    have h1 := ih (i + 1) (sprinkler_remove_zone_from_program w i zone_id).1
    have h2 := sprinkler_remove_zone_from_program_nvs_zones w i zone_id
    exact ⟨h1.1.trans h2.1, h1.2.trans h2.2⟩

theorem getD_set_self {α : Type} (l : List α) (i : Nat) (v d : α) (hi : i < l.length) :
    (l.set i v).getD i d = v := by
  simp [List.getD_eq_getElem?_getD, List.getElem?_set, hi]

theorem zone_update_round_trip (w : World) (zone_id : Nat) (name : List Nat) (output : Nat)
    (h1 : 1 ≤ zone_id) (h2 : zone_id ≤ MAX_ZONES)
    (hlen : w.sprinkler_data.zones.length = MAX_ZONES)
    (hid : (w.sprinkler_data.zones.getD (zone_id - 1) default).id = zone_id)
    (hok : (sprinkler_create_or_update_zone w zone_id name output).2 = ESP_OK) :
    sprinkler_load_zone (sprinkler_create_or_update_zone w zone_id name output).1 zone_id
      = (some ((sprinkler_create_or_update_zone w zone_id name output).1.sprinkler_data.zones.getD
          (zone_id - 1) default), ESP_OK) := by
  have hne : zone_id ≠ 0 := by omega
  have hid0 : (w.sprinkler_data.zones.getD (zone_id - 1) default).id ≠ 0 := by rw [hid]; exact hne
  have hidx : zone_id - 1 < w.sprinkler_data.zones.length := by rw [hlen]; omega
  cases hm : w.mutex_free with
  | false =>
    simp only [sprinkler_create_or_update_zone, ne_eq, hne, not_false_eq_true, if_true, hm,
      reduceCtorEq] at hok
  | true =>
    cases hnvs : w.nvs_ok with
    | false =>
      simp only [sprinkler_create_or_update_zone, ne_eq, hne, not_false_eq_true, if_true, hm,
        Bool.true_eq_false, if_false, zone_slot_access_in_range w zone_id h1 h2, hid0,
        sprinkler_save_zone, set_zone, hnvs, Bool.false_eq_true, reduceCtorEq] at hok
    | true =>
      simp only [sprinkler_create_or_update_zone, ne_eq, hne, not_false_eq_true, if_true, hm,
        Bool.true_eq_false, if_false, zone_slot_access_in_range w zone_id h1 h2, hid0,
        sprinkler_save_zone, set_zone, hnvs, init_zone_gpio, gpio_set_level,
        Bool.false_eq_true, sprinkler_load_zone, hid, nvs_get_set,
        getD_set_self _ _ _ _ hidx]

theorem zone_create_round_trip (w : World) (name : List Nat) (output : Nat)
    (hok : (sprinkler_create_or_update_zone w 0 name output).2 = ESP_OK) :
    ∃ i, i < MAX_ZONES ∧ (w.sprinkler_data.zones.getD i default).id = 0 ∧
      ((sprinkler_create_or_update_zone w 0 name output).1.sprinkler_data.zones.getD i
        default).id = i + 1 ∧
      sprinkler_load_zone (sprinkler_create_or_update_zone w 0 name output).1 (i + 1)
        = (some ((sprinkler_create_or_update_zone w 0 name output).1.sprinkler_data.zones.getD i
            default), ESP_OK) := by
  by_cases hc : w.sprinkler_data.zone_count ≥ MAX_ZONES
  · simp only [sprinkler_create_or_update_zone, ne_eq, not_true_eq_false, if_false, hc, if_true,
      reduceCtorEq] at hok
  · cases hf : find_available_slot
        ((w.sprinkler_data.zones.take MAX_ZONES).map (fun z => z.id)) 0 with
    | none =>
      simp only [sprinkler_create_or_update_zone, ne_eq, not_true_eq_false, if_false, hc, hf,
        reduceCtorEq] at hok
    | some i =>
      obtain ⟨i', hi1, hi2, hi3, _⟩ := find_available_slot_spec _ 0 i hf
      have hii : i = i' := by omega
      subst hii
      simp only [List.length_map, List.length_take] at hi2
      have hidx : i < w.sprinkler_data.zones.length := by omega
      have hi8 : i < MAX_ZONES := by omega
      have h0 : (w.sprinkler_data.zones.getD i default).id = 0 := by
        have htk : (w.sprinkler_data.zones.take MAX_ZONES).getD i default
            = w.sprinkler_data.zones.getD i default := by
          simp [List.getD_eq_getElem?_getD, List.getElem?_take, hi8]
        rw [zone_ids_getD _ _ (by simp only [List.length_take]; omega), htk] at hi3
        exact hi3
      cases hnvs : w.nvs_ok with
      | false =>
        simp only [sprinkler_create_or_update_zone, ne_eq, not_true_eq_false, if_false, hc, hf,
          sprinkler_save_zone, set_zone, hnvs, Bool.false_eq_true, reduceCtorEq] at hok
      | true =>
        refine ⟨i, hi8, h0, ?_, ?_⟩
        · simp only [sprinkler_create_or_update_zone, ne_eq, not_true_eq_false, if_false, hc, hf,
            sprinkler_save_zone, set_zone, hnvs, if_true, init_zone_gpio, gpio_set_level,
            Bool.false_eq_true, getD_set_self _ _ _ _ hidx]
        · simp only [sprinkler_create_or_update_zone, ne_eq, not_true_eq_false, if_false, hc, hf,
            sprinkler_save_zone, set_zone, hnvs, if_true, init_zone_gpio, gpio_set_level,
            Bool.false_eq_true, sprinkler_load_zone, nvs_get_set, getD_set_self _ _ _ _ hidx]

theorem zone_remove_round_trip (w : World) (zone_id : Nat)
    (hok : (sprinkler_remove_zone w zone_id).2 = ESP_OK) :
    sprinkler_load_zone (sprinkler_remove_zone w zone_id).1 zone_id
      = (none, ESP_ERR_NVS_NOT_FOUND) := by
  cases hm : w.mutex_free with
  | false => simp only [sprinkler_remove_zone, hm, if_true, reduceCtorEq] at hok
  | true =>
    cases hnvs : w.nvs_ok with
    | false =>
      simp only [sprinkler_remove_zone, hm, Bool.true_eq_false, if_false, sprinkler_delete_zone,
        set_zone, zone_slot_access, hnvs, Bool.false_eq_true, ne_eq, reduceCtorEq,
        not_false_eq_true, if_true] at hok
    | true =>
      cases hg : nvs_get w.nvs_zones zone_id with
      | none =>
        simp only [sprinkler_remove_zone, hm, Bool.true_eq_false, if_false,
          sprinkler_delete_zone, set_zone, zone_slot_access, hnvs, if_true, hg, ne_eq,
          reduceCtorEq, not_false_eq_true] at hok
      | some z =>
        simp only [sprinkler_remove_zone, hm, Bool.true_eq_false, if_false,
          sprinkler_delete_zone, set_zone, zone_slot_access, hnvs, if_true, hg, ne_eq,
          not_true_eq_false, sprinkler_load_zone,
          (remove_zone_from_programs_nvs_zones zone_id _ _ _).1,
          (remove_zone_from_programs_nvs_zones zone_id _ _ _).2, nvs_get_erase]

theorem program_update_round_trip (w : World) (program_id : Nat) (name : List Nat)
    (days start_hour start_minute : Nat) (zones : List program_zone_t) (zone_count : Nat)
    (h1 : 1 ≤ program_id) (h2 : program_id ≤ MAX_PROGRAMS)
    (hlen : w.sprinkler_data.programs.length = MAX_PROGRAMS)
    (hid : (w.sprinkler_data.programs.getD (program_id - 1) default).id = program_id)
    (hok : (sprinkler_create_or_update_program w program_id name days start_hour start_minute
      zones zone_count).2 = ESP_OK) :
    sprinkler_load_program (sprinkler_create_or_update_program w program_id name days start_hour
        start_minute zones zone_count).1 program_id
      = (some ((sprinkler_create_or_update_program w program_id name days start_hour start_minute
          zones zone_count).1.sprinkler_data.programs.getD (program_id - 1) default), ESP_OK) := by
  have hne : program_id ≠ 0 := by omega
  have hid0 : (w.sprinkler_data.programs.getD (program_id - 1) default).id ≠ 0 := by
    rw [hid]; exact hne
  have hidx : program_id - 1 < w.sprinkler_data.programs.length := by rw [hlen]; omega
  cases hm : w.mutex_free with
  | false =>
    simp only [sprinkler_create_or_update_program, hm, if_true, reduceCtorEq] at hok
  | true =>
    cases hnvs : w.nvs_ok with
    | false =>
      simp only [sprinkler_create_or_update_program, ne_eq, hne, not_false_eq_true, if_true, hm,
        Bool.true_eq_false, if_false, program_slot_access_in_range w program_id h1 h2, hid0,
        sprinkler_save_program, set_program, hnvs, Bool.false_eq_true, reduceCtorEq] at hok
    | true =>
      simp only [sprinkler_create_or_update_program, ne_eq, hne, not_false_eq_true, if_true, hm,
        Bool.true_eq_false, if_false, program_slot_access_in_range w program_id h1 h2, hid0,
        sprinkler_save_program, set_program, hnvs, sprinkler_load_program, hid, nvs_get_set,
        getD_set_self _ _ _ _ hidx]

theorem program_create_round_trip (w : World) (name : List Nat)
    (days start_hour start_minute : Nat) (zones : List program_zone_t) (zone_count : Nat)
    (hok : (sprinkler_create_or_update_program w 0 name days start_hour start_minute
      zones zone_count).2 = ESP_OK) :
    ∃ i, i < MAX_PROGRAMS ∧ (w.sprinkler_data.programs.getD i default).id = 0 ∧
      ((sprinkler_create_or_update_program w 0 name days start_hour start_minute
        zones zone_count).1.sprinkler_data.programs.getD i default).id = i + 1 ∧
      sprinkler_load_program (sprinkler_create_or_update_program w 0 name days start_hour
          start_minute zones zone_count).1 (i + 1)
        = (some ((sprinkler_create_or_update_program w 0 name days start_hour start_minute
            zones zone_count).1.sprinkler_data.programs.getD i default), ESP_OK) := by
  cases hm : w.mutex_free with
  | false =>
    simp only [sprinkler_create_or_update_program, hm, if_true, reduceCtorEq] at hok
  | true =>
    by_cases hc : w.sprinkler_data.program_count ≥ MAX_PROGRAMS
    · simp only [sprinkler_create_or_update_program, hm, Bool.true_eq_false, ne_eq,
        not_true_eq_false, if_false, hc, if_true, reduceCtorEq] at hok
    · cases hf : find_available_slot
          ((w.sprinkler_data.programs.take MAX_PROGRAMS).map (fun p => p.id)) 0 with
      | none =>
        simp only [sprinkler_create_or_update_program, hm, Bool.true_eq_false, ne_eq,
          not_true_eq_false, if_false, hc, hf, reduceCtorEq] at hok
      | some i =>
        obtain ⟨i', hi1, hi2, hi3, _⟩ := find_available_slot_spec _ 0 i hf
        have hii : i = i' := by omega
        subst hii
        simp only [List.length_map, List.length_take] at hi2
        have hidx : i < w.sprinkler_data.programs.length := by omega
        have hi4 : i < MAX_PROGRAMS := by omega
        have h0 : (w.sprinkler_data.programs.getD i default).id = 0 := by
          have htk : (w.sprinkler_data.programs.take MAX_PROGRAMS).getD i default
              = w.sprinkler_data.programs.getD i default := by
            simp [List.getD_eq_getElem?_getD, List.getElem?_take, hi4]
          rw [program_ids_getD _ _ (by simp only [List.length_take]; omega), htk] at hi3
          exact hi3
        cases hnvs : w.nvs_ok with
        | false =>
          simp only [sprinkler_create_or_update_program, hm, Bool.true_eq_false, ne_eq,
            not_true_eq_false, if_false, hc, hf, sprinkler_save_program, set_program, hnvs,
            Bool.false_eq_true, reduceCtorEq] at hok
        | true =>
          refine ⟨i, hi4, h0, ?_, ?_⟩
          · simp only [sprinkler_create_or_update_program, hm, Bool.true_eq_false, ne_eq,
              not_true_eq_false, if_false, hc, hf, sprinkler_save_program, set_program, hnvs,
              if_true, getD_set_self _ _ _ _ hidx]
          · simp only [sprinkler_create_or_update_program, hm, Bool.true_eq_false, ne_eq,
              not_true_eq_false, if_false, hc, hf, sprinkler_save_program, set_program, hnvs,
              if_true, sprinkler_load_program, nvs_get_set, getD_set_self _ _ _ _ hidx]

theorem program_remove_round_trip (w : World) (program_id : Nat)
    (hok : (sprinkler_remove_program w program_id).2 = ESP_OK) :
    sprinkler_load_program (sprinkler_remove_program w program_id).1 program_id
      = (none, ESP_ERR_NVS_NOT_FOUND) := by
  cases hm : w.mutex_free with
  | false => simp only [sprinkler_remove_program, hm, if_true, reduceCtorEq] at hok
  | true =>
    cases hnvs : w.nvs_ok with
    | false =>
      simp only [sprinkler_remove_program, hm, Bool.true_eq_false, if_false,
        sprinkler_delete_program, set_program, program_slot_access, hnvs, Bool.false_eq_true,
        reduceCtorEq] at hok
    | true =>
      cases hg : nvs_get w.nvs_programs program_id with
      | none =>
        simp only [sprinkler_remove_program, hm, Bool.true_eq_false, if_false,
          sprinkler_delete_program, set_program, program_slot_access, hnvs, if_true, hg,
          reduceCtorEq] at hok
      | some p =>
        simp only [sprinkler_remove_program, hm, Bool.true_eq_false, if_false,
          sprinkler_delete_program, set_program, program_slot_access, hnvs, if_true, hg,
          sprinkler_load_program, nvs_get_erase]

/-- C17. With the persistence capability modelled as a key-to-record map and a well-formed
store (full-size slot tables): after `sprinkler_create_or_update_zone` or
`sprinkler_create_or_update_program` returns `ESP_OK`, for the id of an existing entry
(slot `id - 1` holding that id) or for id 0 (the new id being that of the slot filled),
loading that id with
`sprinkler_load_zone` / `sprinkler_load_program` returns `ESP_OK` with a record equal to
the in-memory slot; after `sprinkler_remove_zone(id)` or `sprinkler_remove_program(id)`
returns `ESP_OK`, loading that id fails with the not-found error of the persistence
layer. -/
theorem store_round_trip (w : World)
    (hzlen : w.sprinkler_data.zones.length = MAX_ZONES)
    (hplen : w.sprinkler_data.programs.length = MAX_PROGRAMS) :
    (∀ zone_id name output, 1 ≤ zone_id → zone_id ≤ MAX_ZONES →
      (w.sprinkler_data.zones.getD (zone_id - 1) default).id = zone_id →
      (sprinkler_create_or_update_zone w zone_id name output).2 = ESP_OK →
      sprinkler_load_zone (sprinkler_create_or_update_zone w zone_id name output).1 zone_id
        = (some ((sprinkler_create_or_update_zone w zone_id name
            output).1.sprinkler_data.zones.getD (zone_id - 1) default), ESP_OK)) ∧
    (∀ name output, (sprinkler_create_or_update_zone w 0 name output).2 = ESP_OK →
      ∃ i, i < MAX_ZONES ∧ (w.sprinkler_data.zones.getD i default).id = 0 ∧
        ((sprinkler_create_or_update_zone w 0 name output).1.sprinkler_data.zones.getD i
          default).id = i + 1 ∧
        sprinkler_load_zone (sprinkler_create_or_update_zone w 0 name output).1 (i + 1)
          = (some ((sprinkler_create_or_update_zone w 0 name output).1.sprinkler_data.zones.getD
              i default), ESP_OK)) ∧
    (∀ program_id name days start_hour start_minute zones zone_count,
      1 ≤ program_id → program_id ≤ MAX_PROGRAMS →
      (w.sprinkler_data.programs.getD (program_id - 1) default).id = program_id →
      (sprinkler_create_or_update_program w program_id name days start_hour start_minute
        zones zone_count).2 = ESP_OK →
      sprinkler_load_program (sprinkler_create_or_update_program w program_id name days
          start_hour start_minute zones zone_count).1 program_id
        = (some ((sprinkler_create_or_update_program w program_id name days start_hour
            start_minute zones zone_count).1.sprinkler_data.programs.getD (program_id - 1)
            default), ESP_OK)) ∧
    (∀ name days start_hour start_minute zones zone_count,
      (sprinkler_create_or_update_program w 0 name days start_hour start_minute
        zones zone_count).2 = ESP_OK →
      ∃ i, i < MAX_PROGRAMS ∧ (w.sprinkler_data.programs.getD i default).id = 0 ∧
        ((sprinkler_create_or_update_program w 0 name days start_hour start_minute
          zones zone_count).1.sprinkler_data.programs.getD i default).id = i + 1 ∧
        sprinkler_load_program (sprinkler_create_or_update_program w 0 name days start_hour
            start_minute zones zone_count).1 (i + 1)
          = (some ((sprinkler_create_or_update_program w 0 name days start_hour start_minute
              zones zone_count).1.sprinkler_data.programs.getD i default), ESP_OK)) ∧
    (∀ zone_id, (sprinkler_remove_zone w zone_id).2 = ESP_OK →
      sprinkler_load_zone (sprinkler_remove_zone w zone_id).1 zone_id
        = (none, ESP_ERR_NVS_NOT_FOUND)) ∧
    (∀ program_id, (sprinkler_remove_program w program_id).2 = ESP_OK →
      sprinkler_load_program (sprinkler_remove_program w program_id).1 program_id
        = (none, ESP_ERR_NVS_NOT_FOUND)) :=
  ⟨fun zone_id name output h1 h2 hid hok =>
      zone_update_round_trip w zone_id name output h1 h2 hzlen hid hok,
    fun name output hok => zone_create_round_trip w name output hok,
    fun program_id name days start_hour start_minute zones zone_count h1 h2 hid hok =>
      program_update_round_trip w program_id name days start_hour start_minute zones zone_count
        h1 h2 hplen hid hok,
    fun name days start_hour start_minute zones zone_count hok =>
      program_create_round_trip w name days start_hour start_minute zones zone_count hok,
    fun zone_id hok => zone_remove_round_trip w zone_id hok,
    fun program_id hok => program_remove_round_trip w program_id hok⟩

/-- Instance of C17 on the cascade store (zone 1 in slot 0, program 2 in slot 1), every
call returning `ESP_OK`: zone 1 is updated, a zone is created with id 0 (it gets id 2 in
slot 1), program 2 is updated, a program is created with id 0 (it gets id 1 in slot 0),
and each reloads equal to its slot; zone 1 and program 2 are removed and their reloads
fail with the not-found error. -/
theorem store_round_trip_witness :
    (cascade_world.sprinkler_data.zones.length = MAX_ZONES ∧
      cascade_world.sprinkler_data.programs.length = MAX_PROGRAMS ∧
      (cascade_world.sprinkler_data.zones.getD (1 - 1) default).id = 1 ∧
      (cascade_world.sprinkler_data.programs.getD (2 - 1) default).id = 2 ∧
      (sprinkler_create_or_update_zone cascade_world 1 [90] 7).2 = ESP_OK ∧
      (sprinkler_create_or_update_zone cascade_world 0 [66] 5).2 = ESP_OK ∧
      (sprinkler_create_or_update_program cascade_world 2 [82] 4 6 30
        [{ zone_id := 1, duration := 20, order := 0 }] 1).2 = ESP_OK ∧
      (sprinkler_create_or_update_program cascade_world 0 [83] 4 6 30
        [{ zone_id := 1, duration := 20, order := 0 }] 1).2 = ESP_OK ∧
      (sprinkler_remove_zone cascade_world 1).2 = ESP_OK ∧
      (sprinkler_remove_program cascade_world 2).2 = ESP_OK) ∧
    (sprinkler_load_zone (sprinkler_create_or_update_zone cascade_world 1 [90] 7).1 1
        = (some ((sprinkler_create_or_update_zone cascade_world 1 [90]
            7).1.sprinkler_data.zones.getD (1 - 1) default), ESP_OK) ∧
      ((sprinkler_create_or_update_zone cascade_world 1 [90] 7).1.sprinkler_data.zones.getD 0
        default) = { id := 1, name := [90], output := 7, enabled := true, last_run := 0 }) ∧
    ((∃ i, i < MAX_ZONES ∧ (cascade_world.sprinkler_data.zones.getD i default).id = 0 ∧
        ((sprinkler_create_or_update_zone cascade_world 0 [66] 5).1.sprinkler_data.zones.getD i
          default).id = i + 1 ∧
        sprinkler_load_zone (sprinkler_create_or_update_zone cascade_world 0 [66] 5).1 (i + 1)
          = (some ((sprinkler_create_or_update_zone cascade_world 0 [66]
              5).1.sprinkler_data.zones.getD i default), ESP_OK)) ∧
      sprinkler_load_zone (sprinkler_create_or_update_zone cascade_world 0 [66] 5).1 2
        = (some { id := 2, name := [66], output := 5, enabled := true, last_run := 0 },
            ESP_OK)) ∧
    (sprinkler_load_program (sprinkler_create_or_update_program cascade_world 2 [82] 4 6 30
          [{ zone_id := 1, duration := 20, order := 0 }] 1).1 2
        = (some ((sprinkler_create_or_update_program cascade_world 2 [82] 4 6 30
            [{ zone_id := 1, duration := 20, order := 0 }] 1).1.sprinkler_data.programs.getD
            (2 - 1) default), ESP_OK) ∧
      ((sprinkler_create_or_update_program cascade_world 2 [82] 4 6 30
          [{ zone_id := 1, duration := 20, order := 0 }] 1).1.sprinkler_data.programs.getD 1
          default)
        = { id := 2, name := [82], enabled := true
            schedule := { days := 4, start_hour := 6, start_minute := 30 }
            zones := [{ zone_id := 1, duration := 20, order := 0 }, {}, {}, {}, {}, {}, {}, {}]
            zone_count := 1, last_run := 0, next_run := 1060200 }) ∧
    ((∃ i, i < MAX_PROGRAMS ∧ (cascade_world.sprinkler_data.programs.getD i default).id = 0 ∧
        ((sprinkler_create_or_update_program cascade_world 0 [83] 4 6 30
          [{ zone_id := 1, duration := 20, order := 0 }] 1).1.sprinkler_data.programs.getD i
          default).id = i + 1 ∧
        sprinkler_load_program (sprinkler_create_or_update_program cascade_world 0 [83] 4 6 30
            [{ zone_id := 1, duration := 20, order := 0 }] 1).1 (i + 1)
          = (some ((sprinkler_create_or_update_program cascade_world 0 [83] 4 6 30
              [{ zone_id := 1, duration := 20, order := 0 }] 1).1.sprinkler_data.programs.getD
              i default), ESP_OK)) ∧
      sprinkler_load_program (sprinkler_create_or_update_program cascade_world 0 [83] 4 6 30
          [{ zone_id := 1, duration := 20, order := 0 }] 1).1 1
        = (some { id := 1, name := [83], enabled := true
                  schedule := { days := 4, start_hour := 6, start_minute := 30 }
                  zones := [{ zone_id := 1, duration := 20, order := 0 },
                    {}, {}, {}, {}, {}, {}, {}]
                  zone_count := 1, last_run := 0, next_run := 1060200 }, ESP_OK)) ∧
    (sprinkler_load_zone cascade_world 1).2 = ESP_OK ∧
    sprinkler_load_zone (sprinkler_remove_zone cascade_world 1).1 1
      = (none, ESP_ERR_NVS_NOT_FOUND) ∧
    (sprinkler_load_program cascade_world 2).2 = ESP_OK ∧
    sprinkler_load_program (sprinkler_remove_program cascade_world 2).1 2
      = (none, ESP_ERR_NVS_NOT_FOUND) :=
  ⟨⟨by decide, by decide, by decide, by decide, by decide, by decide, by decide, by decide,
      by decide, by decide⟩,
    ⟨(store_round_trip cascade_world (by decide) (by decide)).1 1 [90] 7 (by decide)
        (by decide) (by decide) (by decide),
      by decide⟩,
    ⟨(store_round_trip cascade_world (by decide) (by decide)).2.1 [66] 5 (by decide),
      by decide⟩,
    ⟨(store_round_trip cascade_world (by decide) (by decide)).2.2.1 2 [82] 4 6 30
        [{ zone_id := 1, duration := 20, order := 0 }] 1 (by decide) (by decide) (by decide)
        (by decide),
      by decide⟩,
    ⟨(store_round_trip cascade_world (by decide) (by decide)).2.2.2.1 [83] 4 6 30
        [{ zone_id := 1, duration := 20, order := 0 }] 1 (by decide),
      by decide⟩,
    by decide,
    (store_round_trip cascade_world (by decide) (by decide)).2.2.2.2.1 1 (by decide),
    by decide,
    (store_round_trip cascade_world (by decide) (by decide)).2.2.2.2.2 2 (by decide)⟩

/-- C18. For every zone id equal to 0 or greater than `MAX_ZONES` and either value of
`turn_on`, `control_zone` returns `ESP_ERR_INVALID_STATE` and hands back the state it was
given: execution state, output lines and store are unchanged. -/
theorem control_zone_rejects_id_out_of_range (w : World) (zone_id : Nat) (turn_on : Bool)
    (h : zone_id = 0 ∨ zone_id > MAX_ZONES) :
    control_zone w zone_id turn_on = (w, ESP_ERR_INVALID_STATE) := by
  have hg : zone_id > MAX_ZONES ∨ zone_id = 0 := h.symm
  simp only [control_zone, hg, if_true]

/-- Instance of C18: zone id 9 on the cascade store, with the projections the claim names. -/
theorem control_zone_rejects_id_out_of_range_witness :
    ((9 : Nat) = 0 ∨ 9 > MAX_ZONES) ∧
    control_zone cascade_world 9 true = (cascade_world, ESP_ERR_INVALID_STATE) ∧
    (control_zone cascade_world 9 true).1.exec_state = cascade_world.exec_state ∧
    (control_zone cascade_world 9 true).1.gpio_high = cascade_world.gpio_high ∧
    (control_zone cascade_world 9 true).1.sprinkler_data = cascade_world.sprinkler_data :=
  ⟨by decide,
    control_zone_rejects_id_out_of_range cascade_world 9 true (by decide),
    by decide, by decide, by decide⟩

/-- C19. Evaluation refuting the claim: on the store holding one zone,
`sprinkler_remove_zone(9)` is not refused with `ESP_ERR_INVALID_ARG`: it accesses
`zones[8]`, outside the table of `MAX_ZONES = 8` slots (the `fault` flag of the model),
and returns the not-found error of the persistence delete;
`sprinkler_enable_zone(9, true)` and `sprinkler_update_program_next_run(5)` make the same
out-of-table access and return `ESP_OK`. The sibling
`sprinkler_add_zone_to_program(5, ..)` does refuse with `ESP_ERR_INVALID_ARG`. -/
theorem store_operations_index_beyond_table :
    cascade_world.fault = false ∧
    (sprinkler_remove_zone cascade_world 9).2 = ESP_ERR_NVS_NOT_FOUND ∧
    (sprinkler_remove_zone cascade_world 9).2 ≠ ESP_ERR_INVALID_ARG ∧
    (sprinkler_remove_zone cascade_world 9).1.fault = true ∧
    (sprinkler_enable_zone cascade_world 9 true).2 = ESP_OK ∧
    (sprinkler_enable_zone cascade_world 9 true).1.fault = true ∧
    (sprinkler_update_program_next_run cascade_world 5).2 = ESP_OK ∧
    (sprinkler_update_program_next_run cascade_world 5).1.fault = true ∧
    sprinkler_add_zone_to_program cascade_world 5 1 5 1 = (cascade_world, ESP_ERR_INVALID_ARG) := by
  refine ⟨by decide, by decide, by decide, by decide, by decide, by decide, by decide,
    by decide, ?_⟩
  have hg : (5 > cascade_world.sprinkler_data.program_count ∨ (5 : Nat) = 0) := by decide
  have hm : cascade_world.mutex_free = true := by decide
  simp only [sprinkler_add_zone_to_program, hm, Bool.true_eq_false, if_false, hg, if_true]

theorem control_zone_off_occupied (w : World) (z : Nat) (hm : w.mutex_free = true)
    (hz1 : 1 ≤ z) (hz2 : z ≤ MAX_ZONES)
    (hocc : (w.sprinkler_data.zones.getD (z - 1) default).id ≠ 0) :
    (control_zone w z false).1.gpio_high
        = w.gpio_high.filter (fun p => p != (w.sprinkler_data.zones.getD (z - 1) default).output) ∧
    (control_zone w z false).1.exec_state
        = { w.exec_state with is_running := false, current_zone_id := 0,
                              zone_start_time := w.now } ∧
    (control_zone w z false).1.sprinkler_data.programs = w.sprinkler_data.programs ∧
    (control_zone w z false).1.nvs_programs = w.nvs_programs ∧
    (control_zone w z false).1.mutex_free = w.mutex_free ∧
    (control_zone w z false).1.nvs_ok = w.nvs_ok ∧
    (control_zone w z false).1.now = w.now ∧
    (control_zone w z false).1.fault = w.fault := by
  have hg : ¬ (z > MAX_ZONES ∨ z = 0) := by omega
  have hf : (w.fault || decide (z = 0) || decide (z > MAX_ZONES)) = w.fault := by
    have h1 : decide (z = 0) = false := by simp; omega
    have h2 : decide (z > MAX_ZONES) = false := by simp; omega
    rw [h1, h2]; simp
  cases hnvs : w.nvs_ok <;>
  simp only [control_zone, hg, if_false, safe_sprinklerdata_operation, hm, if_true,
    update_gpio_state, hocc, gpio_set_level, Bool.false_eq_true, sprinkler_update_zone_status,
    Bool.true_eq_false, zone_slot_access, set_zone, sprinkler_save_zone, hnvs, hf,
    and_self]

/-- Support for C16: for a program id between 1 and `program_count` (and within the
table), with the lock and persistence available, `sprinkler_add_zone_to_program` appends
the reference at index `zone_count`, raises `zone_count` by one and keeps the earlier
references when fewer than `MAX_ZONES_PER_PROGRAM` are held, and returns `ESP_ERR_NO_MEM`
with the world unchanged otherwise. -/
theorem add_zone_appends_within_count (w : World) (program_id zone_id duration order : Nat)
    (hm : w.mutex_free = true) (hnvs : w.nvs_ok = true)
    (h1 : 1 ≤ program_id) (h2 : program_id ≤ w.sprinkler_data.program_count)
    (h3 : program_id ≤ MAX_PROGRAMS)
    (hplen : w.sprinkler_data.programs.length = MAX_PROGRAMS) :
    ((w.sprinkler_data.programs.getD (program_id - 1) default).zone_count
        < MAX_ZONES_PER_PROGRAM →
      (sprinkler_add_zone_to_program w program_id zone_id duration order).2 = ESP_OK ∧
      (sprinkler_add_zone_to_program w program_id zone_id duration
          order).1.sprinkler_data.programs.getD (program_id - 1) default
        = { w.sprinkler_data.programs.getD (program_id - 1) default with
            zones := (w.sprinkler_data.programs.getD (program_id - 1) default).zones.set
              (w.sprinkler_data.programs.getD (program_id - 1) default).zone_count
              { zone_id := zone_id, duration := duration, order := order }
            zone_count :=
              (w.sprinkler_data.programs.getD (program_id - 1) default).zone_count + 1 }) ∧
    ((w.sprinkler_data.programs.getD (program_id - 1) default).zone_count
        ≥ MAX_ZONES_PER_PROGRAM →
      sprinkler_add_zone_to_program w program_id zone_id duration order
        = (w, ESP_ERR_NO_MEM)) := by
  have hg : ¬ (program_id > w.sprinkler_data.program_count ∨ program_id = 0) := by omega
  have hidx : program_id - 1 < w.sprinkler_data.programs.length := by rw [hplen]; omega
  constructor
  · intro hlt
    have hnf : ¬ ((w.sprinkler_data.programs.getD (program_id - 1) default).zone_count
        ≥ MAX_ZONES_PER_PROGRAM) := by omega
    have hmod : ((w.sprinkler_data.programs.getD (program_id - 1) default).zone_count + 1) % 256
        = (w.sprinkler_data.programs.getD (program_id - 1) default).zone_count + 1 := by
      have : MAX_ZONES_PER_PROGRAM = 8 := rfl
      omega
    simp only [sprinkler_add_zone_to_program, hm, Bool.true_eq_false, if_false, hg,
      program_slot_access_in_range w program_id h1 h3, hnf, sprinkler_save_program,
      set_program, hnvs, if_true, hmod, getD_set_self _ _ _ _ hidx, and_self]
  · intro hge
    simp only [sprinkler_add_zone_to_program, hm, Bool.true_eq_false, if_false, hg,
      program_slot_access_in_range w program_id h1 h3, hge, if_true]

/-! ## Theorems: manual runs, status and day masks -/


theorem has_day_add_remove_table : ∀ m, m < 256 → ∀ d, d < 7 → ∀ e, e < 7 →
    has_day (add_day m d) e = (decide (e = d) || has_day m e) ∧
    has_day (remove_day m d) e = (decide (e ≠ d) && has_day m e) := by
  set_option maxRecDepth 100000 in decide

theorem add_remove_day_table : ∀ m, m < 256 → ∀ d, d < 7 →
    add_day (add_day m d) d = add_day m d ∧
    remove_day (remove_day m d) d = remove_day m d ∧
    add_day m d &&& 128 = m &&& 128 ∧
    remove_day m d &&& 128 = m &&& 128 ∧
    (m < 128 → add_day m d < 128 ∧ remove_day m d < 128) := by
  set_option maxRecDepth 100000 in decide

/-- C29. For every 8-bit mask `m` and weekdays `d`, `e` in 0..6: `has_day` after
`add_day(m, d)` holds at `e` exactly when `e = d` or it held before, `has_day` after
`remove_day(m, d)` holds at `e` exactly when `e ≠ d` and it held before; `add_day` and
`remove_day` are idempotent and leave bit 7 as it is, so a 7-bit mask stays 7-bit. -/
theorem day_mask_operations (m d e : Nat) (hm : m < 256) (hd : d < 7) (he : e < 7) :
    has_day (add_day m d) e = (decide (e = d) || has_day m e) ∧
    has_day (remove_day m d) e = (decide (e ≠ d) && has_day m e) ∧
    add_day (add_day m d) d = add_day m d ∧
    remove_day (remove_day m d) d = remove_day m d ∧
    add_day m d &&& 128 = m &&& 128 ∧
    remove_day m d &&& 128 = m &&& 128 ∧
    (m < 128 → add_day m d < 128 ∧ remove_day m d < 128) :=
  ⟨(has_day_add_remove_table m hm d hd e he).1, (has_day_add_remove_table m hm d hd e he).2,
    add_remove_day_table m hm d hd⟩

/-- Instance of C29: Monday and Wednesday (mask 10), adding and removing Friday,
asked about Friday. -/
theorem day_mask_operations_witness :
    ((10 : Nat) < 256 ∧ (5 : Nat) < 7) ∧
    (has_day (add_day 10 5) 5 = (decide ((5 : Nat) = 5) || has_day 10 5) ∧
    has_day (remove_day 10 5) 5 = (decide ((5 : Nat) ≠ 5) && has_day 10 5) ∧
    add_day (add_day 10 5) 5 = add_day 10 5 ∧
    remove_day (remove_day 10 5) 5 = remove_day 10 5 ∧
    add_day 10 5 &&& 128 = 10 &&& 128 ∧
    remove_day 10 5 &&& 128 = 10 &&& 128 ∧
    ((10 : Nat) < 128 → add_day 10 5 < 128 ∧ remove_day 10 5 < 128)) ∧
    add_day 10 5 = 42 ∧ remove_day 42 1 = 40 :=
  ⟨⟨by decide, by decide⟩, day_mask_operations 10 5 5 (by decide) (by decide) (by decide),
    by decide, by decide⟩

/-- C24, evaluation at the failing input. Zone 1 is marked running for 600 seconds since
wall-clock time 1000 and the clock reads 66636, so 65636 seconds have elapsed and
`max(0, 600 - 65636) = 0`; `sprinkler_controller_get_status` keeps the elapsed time in a
`uint16_t` (65636 becomes 100) and reports 500 seconds remaining. -/
theorem get_status_elapsed_wraps_at_65536_seconds :
    stale_clock_world.exec_state.is_running = true ∧
    stale_clock_world.exec_state.zone_start_time = 1000 ∧
    stale_clock_world.exec_state.zone_duration_seconds = 600 ∧
    stale_clock_world.now = 66636 ∧
    max (0 : Int) (600 - (66636 - 1000)) = 0 ∧
    (sprinkler_controller_get_status stale_clock_world).1.zone_remaining_seconds = 500 ∧
    (sprinkler_controller_get_status stale_clock_world).2 = ESP_OK := by
  decide

/-- Support for C24: while fewer than 65536 seconds have elapsed since `zone_start_time`
the reported remaining time is `max(0, zone_duration_seconds - (now - zone_start_time))`;
when nothing is running, or `zone_start_time` is not positive, it is 0; the other fields
copy the execution state, which the function only reads. -/
theorem get_status_remaining_without_wrap (w : World) :
    (w.exec_state.is_running = true → 0 < w.exec_state.zone_start_time →
      w.exec_state.zone_start_time ≤ w.now → w.now - w.exec_state.zone_start_time < 65536 →
      ((sprinkler_controller_get_status w).1.zone_remaining_seconds : Int)
        = max 0 ((w.exec_state.zone_duration_seconds : Int)
            - (w.now - w.exec_state.zone_start_time))) ∧
    (w.exec_state.is_running = false →
      (sprinkler_controller_get_status w).1.zone_remaining_seconds = 0) ∧
    (sprinkler_controller_get_status w).1.is_running = w.exec_state.is_running ∧
    (sprinkler_controller_get_status w).1.current_program_id
      = w.exec_state.current_program_id ∧
    (sprinkler_controller_get_status w).1.current_zone_id = w.exec_state.current_zone_id ∧
    (sprinkler_controller_get_status w).1.zone_start_time = w.exec_state.zone_start_time ∧
    (sprinkler_controller_get_status w).1.zone_duration_seconds
      = w.exec_state.zone_duration_seconds ∧
    (sprinkler_controller_get_status w).2 = ESP_OK := by
  refine ⟨?_, ?_, rfl, rfl, rfl, rfl, rfl, rfl⟩
  · intro hr hs hle hlt
    have hmod : (w.now - w.exec_state.zone_start_time) % 65536
        = w.now - w.exec_state.zone_start_time := by omega
    have hc : w.exec_state.is_running = true ∧ w.exec_state.zone_start_time > 0 := ⟨hr, hs⟩
    simp only [sprinkler_controller_get_status, hc, and_self, if_true, hmod]
    split <;> omega
  · intro hr
    simp only [sprinkler_controller_get_status, hr, Bool.false_eq_true, false_and, if_false]

/-- C25, evaluation at the failing input. Program 1 refers only to the disabled zone 3
and to no zone; the worker handles its program-start command on Tuesday 09:00: no zone is
activated, no timer armed and the engine is idle, but `next_run` keeps its old value
(today 08:00) instead of `calculate_next_run` at the current time (Wednesday 08:00), and
no program record is written. -/
theorem program_start_without_enabled_zone_keeps_next_run :
    no_enabled_zone_world.execution_queue = [program_start_cmd 1] ∧
    next_run_of no_enabled_zone_world 1 = 460800 ∧
    calculate_next_run no_enabled_zone_world.now 127 8 0 = 547200 ∧
    (executor_task_step no_enabled_zone_world).execution_queue = [] ∧
    (executor_task_step no_enabled_zone_world).gpio_high = [] ∧
    (executor_task_step no_enabled_zone_world).zone_timer.active = false ∧
    (executor_task_step no_enabled_zone_world).exec_state.is_running = false ∧
    (executor_task_step no_enabled_zone_world).exec_state.current_program_id = 0 ∧
    next_run_of (executor_task_step no_enabled_zone_world) 1 = 460800 ∧
    (executor_task_step no_enabled_zone_world).sprinkler_data
      = no_enabled_zone_world.sprinkler_data ∧
    (executor_task_step no_enabled_zone_world).nvs_programs
      = no_enabled_zone_world.nvs_programs := by
  decide

/-- C30, evaluation at the failing input. In the store holding zone 1 and program 2
only, slot 2 of the zones and slot 1 of the programs are empty. None of the four
operations returns `ESP_ERR_INVALID_STATE`: the removals lower the count and return the
not-found error of the persistence delete, the enables set the flag in the empty slot,
persist a record and return `ESP_OK`. -/
theorem remove_and_enable_act_on_empty_slot :
    (cascade_world.sprinkler_data.zones.getD 1 default).id = 0 ∧
    (cascade_world.sprinkler_data.programs.getD 0 default).id = 0 ∧
    cascade_world.sprinkler_data.zone_count = 1 ∧
    cascade_world.sprinkler_data.program_count = 1 ∧
    (sprinkler_remove_zone cascade_world 2).2 = ESP_ERR_NVS_NOT_FOUND ∧
    (sprinkler_remove_zone cascade_world 2).1.sprinkler_data.zone_count = 0 ∧
    (sprinkler_remove_program cascade_world 1).2 = ESP_ERR_NVS_NOT_FOUND ∧
    (sprinkler_remove_program cascade_world 1).1.sprinkler_data.program_count = 0 ∧
    (sprinkler_enable_zone cascade_world 2 true).2 = ESP_OK ∧
    ((sprinkler_enable_zone cascade_world 2 true).1.sprinkler_data.zones.getD 1 default).enabled
      = true ∧
    (sprinkler_enable_zone cascade_world 2 true).1.nvs_zones ≠ cascade_world.nvs_zones ∧
    (sprinkler_enable_program cascade_world 1 true).2 = ESP_OK ∧
    ((sprinkler_enable_program cascade_world 1 true).1.sprinkler_data.programs.getD 0
      default).enabled = true ∧
    (sprinkler_enable_program cascade_world 1 true).1.nvs_programs
      ≠ cascade_world.nvs_programs := by
  decide

/-- C26, counterexample. Program 2 has been running zone 1 for 300 of its 600 seconds;
`control_zone(1, true)` on this state sets `zone_start_time` to the current time, so the
remaining time reported by `sprinkler_controller_get_status` goes from 300 back to 600. -/
theorem control_zone_on_active_zone_restarts_clock :
    running_program_world.exec_state.is_running = true ∧
    running_program_world.exec_state.current_zone_id = 1 ∧
    running_program_world.exec_state.zone_start_time = 464100 ∧
    running_program_world.now = 464400 ∧
    (sprinkler_controller_get_status running_program_world).1.zone_remaining_seconds = 300 ∧
    (control_zone running_program_world 1 true).2 = ESP_OK ∧
    (control_zone running_program_world 1 true).1.exec_state.zone_start_time = 464400 ∧
    (control_zone running_program_world 1 true).1.exec_state
      ≠ running_program_world.exec_state ∧
    (sprinkler_controller_get_status
      (control_zone running_program_world 1 true).1).1.zone_remaining_seconds = 600 := by
  decide

/-- C28, counterexample. Program 2 (Mondays 07:00) of the cascade store has a nonzero
`next_run`; `sprinkler_enable_program(2, false)` returns `ESP_OK` and leaves the disabled
program with that `next_run`, and `sprinkler_create_or_update_program` on the disabled
program computes a nonzero `next_run` again. -/
theorem disabled_program_keeps_next_run :
    next_run_of cascade_world 2 = 975600 ∧
    (sprinkler_enable_program cascade_world 2 false).2 = ESP_OK ∧
    ((sprinkler_enable_program cascade_world 2 false).1.sprinkler_data.programs.getD 1
      default).enabled = false ∧
    next_run_of (sprinkler_enable_program cascade_world 2 false).1 2 = 975600 ∧
    (sprinkler_create_or_update_program (sprinkler_enable_program cascade_world 2 false).1
      2 [81] 4 7 0 [] 0).2 = ESP_OK ∧
    ((sprinkler_create_or_update_program (sprinkler_enable_program cascade_world 2 false).1
      2 [81] 4 7 0 [] 0).1.sprinkler_data.programs.getD 1 default).enabled = false ∧
    next_run_of (sprinkler_create_or_update_program
      (sprinkler_enable_program cascade_world 2 false).1 2 [81] 4 7 0 [] 0).1 2 = 1062000 := by
  decide

theorem set_getD_self {α : Type} (l : List α) (i : Nat) (d : α) :
    l.set i (l.getD i d) = l := by
  induction l generalizing i with
  | nil => rfl
  | cons a t ih =>
    cases i with
    | zero => rfl
    | succ n =>
      simp only [List.set_cons_succ, List.getD_cons_succ]
      rw [ih]

theorem control_zone_off_frame (w : World) (z : Nat) (hm : w.mutex_free = true)
    (hz1 : 1 ≤ z) (hz2 : z ≤ MAX_ZONES)
    (hocc : (w.sprinkler_data.zones.getD (z - 1) default).id ≠ 0) :
    (control_zone w z false).1.sprinkler_data.zones = w.sprinkler_data.zones ∧
    (control_zone w z false).1.zone_timer = w.zone_timer ∧
    (control_zone w z false).1.controller_running = w.controller_running ∧
    (control_zone w z false).1.execution_queue = w.execution_queue := by
  have hg : ¬ (z > MAX_ZONES ∨ z = 0) := by omega
  cases hnvs : w.nvs_ok <;>
  simp only [control_zone, hg, if_false, safe_sprinklerdata_operation, hm, if_true,
    update_gpio_state, hocc, gpio_set_level, Bool.false_eq_true, sprinkler_update_zone_status,
    Bool.true_eq_false, zone_slot_access, set_zone, sprinkler_save_zone, hnvs,
    set_getD_self, and_self]

theorem control_zone_on_occupied (w : World) (z : Nat) (hm : w.mutex_free = true)
    (hz1 : 1 ≤ z) (hz2 : z ≤ MAX_ZONES)
    (hocc : (w.sprinkler_data.zones.getD (z - 1) default).id ≠ 0) :
    (w.nvs_ok = true → (control_zone w z true).2 = ESP_OK) ∧
    (control_zone w z true).1.exec_state
        = { w.exec_state with is_running := true, current_zone_id := z,
                              zone_start_time := w.now } ∧
    (control_zone w z true).1.gpio_high
        = (if (w.sprinkler_data.zones.getD (z - 1) default).output ∈ w.gpio_high
            then w.gpio_high
            else w.gpio_high ++ [(w.sprinkler_data.zones.getD (z - 1) default).output]) ∧
    (control_zone w z true).1.zone_timer = w.zone_timer ∧
    (control_zone w z true).1.execution_queue = w.execution_queue ∧
    (control_zone w z true).1.sprinkler_data.programs = w.sprinkler_data.programs ∧
    (control_zone w z true).1.nvs_programs = w.nvs_programs ∧
    (control_zone w z true).1.now = w.now ∧
    (control_zone w z true).1.fault = w.fault := by
  have hg : ¬ (z > MAX_ZONES ∨ z = 0) := by omega
  have hf : (w.fault || decide (z = 0) || decide (z > MAX_ZONES)) = w.fault := by
    have h1 : decide (z = 0) = false := by simp; omega
    have h2 : decide (z > MAX_ZONES) = false := by simp; omega
    rw [h1, h2]; simp
  cases hnvs : w.nvs_ok <;>
  simp only [control_zone, hg, if_false, safe_sprinklerdata_operation, hm, if_true,
    update_gpio_state, hocc, gpio_set_level, sprinkler_update_zone_status,
    Bool.true_eq_false, Bool.false_eq_true, zone_slot_access, set_zone, sprinkler_save_zone,
    hnvs, hf, and_self, imp_self, false_implies, true_implies]

theorem update_program_next_run_frame (w : World) (P : Nat) :
    (sprinkler_update_program_next_run w P).1.sprinkler_data.zones = w.sprinkler_data.zones ∧
    (sprinkler_update_program_next_run w P).1.mutex_free = w.mutex_free ∧
    (sprinkler_update_program_next_run w P).1.nvs_ok = w.nvs_ok ∧
    (sprinkler_update_program_next_run w P).1.now = w.now ∧
    (sprinkler_update_program_next_run w P).1.controller_running = w.controller_running ∧
    (sprinkler_update_program_next_run w P).1.gpio_high = w.gpio_high ∧
    (sprinkler_update_program_next_run w P).1.exec_state = w.exec_state ∧
    (sprinkler_update_program_next_run w P).1.zone_timer = w.zone_timer ∧
    (sprinkler_update_program_next_run w P).1.execution_queue = w.execution_queue ∧
    (sprinkler_update_program_next_run w P).1.nvs_zones = w.nvs_zones ∧
    (1 ≤ P → P ≤ MAX_PROGRAMS → (sprinkler_update_program_next_run w P).1.fault = w.fault) := by
  have hf : 1 ≤ P → P ≤ MAX_PROGRAMS →
      (w.fault || decide (P = 0) || decide (P > MAX_PROGRAMS)) = w.fault := by
    intro h1 h2
    have ha : decide (P = 0) = false := by simp; omega
    have hb : decide (P > MAX_PROGRAMS) = false := by simp; omega
    rw [ha, hb]; simp
  cases hm : w.mutex_free <;> cases hnvs : w.nvs_ok <;>
  simp only [sprinkler_update_program_next_run, hm, Bool.true_eq_false, if_false, if_true,
    program_slot_access, set_program, sprinkler_save_program, hnvs, Bool.false_eq_true,
    and_self, implies_true, true_and] <;> exact hf

/-- C26, amended. For every state in which the occupied zone `z` is the active zone
(store lock available), `control_zone(z, true)` touches neither the timer nor the queue
and keeps `is_running`, the active zone and program, the zone index and
`zone_duration_seconds`, and the output lines when the line of `z` is high; but it sets
`zone_start_time` to the current time, so that `sprinkler_controller_get_status`
afterwards reports the whole `zone_duration_seconds` as remaining. -/
theorem control_zone_on_active_zone_restamps_start (w : World) (z : Nat)
    (hm : w.mutex_free = true) (hz1 : 1 ≤ z) (hz2 : z ≤ MAX_ZONES)
    (hocc : (w.sprinkler_data.zones.getD (z - 1) default).id ≠ 0)
    (hr : w.exec_state.is_running = true) (hcz : w.exec_state.current_zone_id = z) :
    (control_zone w z true).1.exec_state = { w.exec_state with zone_start_time := w.now } ∧
    (control_zone w z true).1.zone_timer = w.zone_timer ∧
    (control_zone w z true).1.execution_queue = w.execution_queue ∧
    ((w.sprinkler_data.zones.getD (z - 1) default).output ∈ w.gpio_high →
      (control_zone w z true).1.gpio_high = w.gpio_high) ∧
    (0 < w.now →
      (sprinkler_controller_get_status (control_zone w z true).1).1.zone_remaining_seconds
        = w.exec_state.zone_duration_seconds) := by
  obtain ⟨_, ce, cg, ct, cq, _, _, cn, _⟩ := control_zone_on_occupied w z hm hz1 hz2 hocc
  have he : (control_zone w z true).1.exec_state
      = { w.exec_state with zone_start_time := w.now } := by
    rw [ce]
    simp only [hr, hcz]
  refine ⟨he, ct, cq, ?_, ?_⟩
  · intro hmem
    rw [cg, if_pos hmem]
  · intro hnow
    have hc : (true = true ∧ w.now > 0) := ⟨rfl, hnow⟩
    simp only [sprinkler_controller_get_status, he, cn, hr, hc, if_true, sub_self,
      EuclideanDomain.zero_mod, Int.toNat_zero, Nat.sub_zero]
    by_cases hd : 0 < w.exec_state.zone_duration_seconds
    · rw [if_pos hd]
      simp only [and_self, if_true]
    · rw [if_neg hd]
      simp only [and_self, if_true]
      omega

/-- Instance of the amended C26: zone 1 of the running program is activated again. -/
theorem control_zone_on_active_zone_restamps_start_witness :
    (running_program_world.exec_state.is_running = true ∧
      running_program_world.exec_state.current_zone_id = 1 ∧
      running_program_world.exec_state.zone_start_time = 464100 ∧
      running_program_world.now = 464400) ∧
    ((control_zone running_program_world 1 true).1.exec_state
      = { running_program_world.exec_state with
          zone_start_time := running_program_world.now } ∧
    (control_zone running_program_world 1 true).1.zone_timer
      = running_program_world.zone_timer ∧
    (control_zone running_program_world 1 true).1.execution_queue
      = running_program_world.execution_queue ∧
    ((running_program_world.sprinkler_data.zones.getD (1 - 1) default).output
        ∈ running_program_world.gpio_high →
      (control_zone running_program_world 1 true).1.gpio_high
        = running_program_world.gpio_high) ∧
    (0 < running_program_world.now →
      (sprinkler_controller_get_status
        (control_zone running_program_world 1 true).1).1.zone_remaining_seconds
        = running_program_world.exec_state.zone_duration_seconds)) :=
  ⟨⟨by decide, by decide, by decide, by decide⟩,
    control_zone_on_active_zone_restamps_start running_program_world 1 (by decide) (by decide)
      (by decide) (by decide) (by decide) (by decide)⟩

/-- C28, amended. With the store lock available and a full-size program table, for every
program id in `1..MAX_PROGRAMS`: `sprinkler_enable_program(id, enabled)` changes only the
enabled flag of slot `id` and leaves its `next_run` as it was;
`sprinkler_create_or_update_program` on an occupied slot and
`sprinkler_update_program_next_run` set `next_run` to `calculate_next_run` of the
schedule at the current time and keep the enabled flag, whether the program is enabled
or not; and `calculate_next_run` is 0 for the empty day mask. -/
theorem next_run_ignores_enabled_flag (w : World) (program_id : Nat)
    (hm : w.mutex_free = true)
    (hlen : w.sprinkler_data.programs.length = MAX_PROGRAMS)
    (h1 : 1 ≤ program_id) (h2 : program_id ≤ MAX_PROGRAMS) :
    (∀ is_enabled,
      (sprinkler_enable_program w program_id is_enabled).1.sprinkler_data.programs
        = w.sprinkler_data.programs.set (program_id - 1)
            { w.sprinkler_data.programs.getD (program_id - 1) default with
              enabled := is_enabled } ∧
      next_run_of (sprinkler_enable_program w program_id is_enabled).1 program_id
        = next_run_of w program_id) ∧
    (∀ name days start_hour start_minute zones zone_count,
      (w.sprinkler_data.programs.getD (program_id - 1) default).id ≠ 0 →
      next_run_of (sprinkler_create_or_update_program w program_id name days start_hour
          start_minute zones zone_count).1 program_id
        = calculate_next_run w.now days start_hour start_minute ∧
      ((sprinkler_create_or_update_program w program_id name days start_hour start_minute
          zones zone_count).1.sprinkler_data.programs.getD (program_id - 1) default).enabled
        = (w.sprinkler_data.programs.getD (program_id - 1) default).enabled) ∧
    (next_run_of (sprinkler_update_program_next_run w program_id).1 program_id
        = calculate_next_run w.now
            (w.sprinkler_data.programs.getD (program_id - 1) default).schedule.days
            (w.sprinkler_data.programs.getD (program_id - 1) default).schedule.start_hour
            (w.sprinkler_data.programs.getD (program_id - 1) default).schedule.start_minute ∧
      ((sprinkler_update_program_next_run w program_id).1.sprinkler_data.programs.getD
          (program_id - 1) default).enabled
        = (w.sprinkler_data.programs.getD (program_id - 1) default).enabled) ∧
    (∀ start_hour start_minute, calculate_next_run w.now 0 start_hour start_minute = 0) := by
  have hne : program_id ≠ 0 := by omega
  have hidx : program_id - 1 < w.sprinkler_data.programs.length := by rw [hlen]; omega
  refine ⟨?_, ?_, ?_, fun start_hour start_minute =>
    calculate_next_run_empty_mask w.now start_hour start_minute⟩
  · intro is_enabled
    cases hnvs : w.nvs_ok <;>
    simp only [sprinkler_enable_program, hm, Bool.true_eq_false, if_false,
      program_slot_access_in_range w program_id h1 h2, set_program, sprinkler_save_program,
      hnvs, if_true, Bool.false_eq_true, next_run_of, getD_set_self _ _ _ _ hidx, and_self]
  · intro name days start_hour start_minute zones zone_count hid
    cases hnvs : w.nvs_ok <;>
    simp only [sprinkler_create_or_update_program, hm, Bool.true_eq_false, if_false, ne_eq,
      hne, not_false_eq_true, if_true, program_slot_access_in_range w program_id h1 h2, hid,
      set_program, sprinkler_save_program, hnvs, Bool.false_eq_true, next_run_of,
      getD_set_self _ _ _ _ hidx, and_self]
  · cases hnvs : w.nvs_ok <;>
    simp only [sprinkler_update_program_next_run, hm, Bool.true_eq_false, if_false,
      program_slot_access_in_range w program_id h1 h2, set_program, sprinkler_save_program,
      hnvs, if_true, Bool.false_eq_true, next_run_of, getD_set_self _ _ _ _ hidx, and_self]

/-- Instance of the amended C28 on program 2 of the cascade store (Mondays 07:00, next
run Monday 1970-01-12 07:00): disabling it keeps that `next_run`. -/
theorem next_run_ignores_enabled_flag_witness :
    (cascade_world.mutex_free = true ∧
      cascade_world.sprinkler_data.programs.length = MAX_PROGRAMS ∧
      next_run_of cascade_world 2 = 975600) ∧
    ((sprinkler_enable_program cascade_world 2 false).1.sprinkler_data.programs
        = cascade_world.sprinkler_data.programs.set (2 - 1)
            { cascade_world.sprinkler_data.programs.getD (2 - 1) default with
              enabled := false } ∧
      next_run_of (sprinkler_enable_program cascade_world 2 false).1 2
        = next_run_of cascade_world 2) ∧
    (next_run_of (sprinkler_create_or_update_program cascade_world 2 [81] 4 7 0 [] 0).1 2
        = calculate_next_run cascade_world.now 4 7 0 ∧
      ((sprinkler_create_or_update_program cascade_world 2 [81] 4 7 0 []
          0).1.sprinkler_data.programs.getD (2 - 1) default).enabled
        = (cascade_world.sprinkler_data.programs.getD (2 - 1) default).enabled) :=
  ⟨⟨by decide, by decide, by decide⟩,
    (next_run_ignores_enabled_flag cascade_world 2 (by decide) (by decide) (by decide)
      (by decide)).1 false,
    (next_run_ignores_enabled_flag cascade_world 2 (by decide) (by decide) (by decide)
      (by decide)).2.1 [81] 4 7 0 [] 0 (by decide)⟩

theorem zone_status_active_iff (zone : zone_t) (st : sprinkler_controller_status_t) :
    (zone_status_to_string zone st = "running" ∨ zone_status_to_string zone st = "testing") ↔
      (zone.enabled = true ∧ st.is_running = true ∧ zone.id = st.current_zone_id) := by
  unfold zone_status_to_string
  cases he : zone.enabled
  · simp only [if_true, Bool.false_eq_true, false_and, iff_false]
    decide
  · by_cases hc : st.is_running = true ∧ zone.id = st.current_zone_id
    · by_cases hp : st.current_program_id = 255
      · simp only [Bool.true_eq_false, if_false, hc, and_self, if_true, hp, true_and, iff_true]
        exact Or.inr trivial
      · simp only [Bool.true_eq_false, if_false, hc, and_self, if_true, hp, true_and, iff_true]
        exact Or.inl trivial
    · simp only [Bool.true_eq_false, if_false, hc, true_and, iff_false]
      decide

theorem zone_list_entries_mem (data : sprinkler_data_t) (st : sprinkler_controller_status_t) :
    ∀ n k, 1 ≤ k → ∀ e, e ∈ zone_list_entries data st n k →
      ∃ i, k - 1 ≤ i ∧ i < k - 1 + n ∧ e.1 = data.zones.getD i default ∧ e.1.id ≠ 0 ∧
        e.2 = zone_status_to_string e.1 st := by
  intro n
  induction n with
  | zero => intro k _ e he; simp [zone_list_entries] at he
  | succ n ih =>
    intro k hk e he
    unfold zone_list_entries at he
    split at he
    · obtain ⟨i, h1, h2, h3⟩ := ih (k + 1) (by omega) e he
      exact ⟨i, by omega, by omega, h3⟩
    · rename_i hocc
      rcases List.mem_cons.mp he with h | h
      · refine ⟨k - 1, le_refl _, by omega, ?_, ?_, ?_⟩
        · rw [h]
        · rw [h]; exact hocc
        · rw [h]
      · obtain ⟨i, h1, h2, h3⟩ := ih (k + 1) (by omega) e h
        exact ⟨i, by omega, by omega, h3⟩

theorem zone_list_entries_active_le_one (data : sprinkler_data_t)
    (st : sprinkler_controller_status_t)
    (hdistinct : ∀ i, i < MAX_ZONES → ∀ j, j < MAX_ZONES →
      (data.zones.getD i default).id ≠ 0 →
      (data.zones.getD i default).id = (data.zones.getD j default).id → i = j) :
    ∀ n k, 1 ≤ k → k - 1 + n ≤ MAX_ZONES →
      ((zone_list_entries data st n k).filter
        (fun e => decide (e.2 = "running" ∨ e.2 = "testing"))).length ≤ 1 := by
  intro n
  induction n with
  | zero => intro k _ _; simp [zone_list_entries]
  | succ n ih =>
    intro k hk hbound
    unfold zone_list_entries
    split
    · exact ih (k + 1) (by omega) (by omega)
    · rename_i hocc
      rw [List.filter_cons]
      split
      · rename_i hact
        have hhead := (zone_status_active_iff _ st).mp (of_decide_eq_true hact)
        have htail : (zone_list_entries data st n (k + 1)).filter
            (fun e => decide (e.2 = "running" ∨ e.2 = "testing")) = [] := by
          rw [List.filter_eq_nil_iff]
          intro e he hea
          obtain ⟨i, h1, h2, h3, h4, h5⟩ := zone_list_entries_mem data st n (k + 1) (by omega) e he
          have hact2 := of_decide_eq_true hea
          rw [h5] at hact2
          have htl := (zone_status_active_iff _ st).mp hact2
          have hid : (data.zones.getD (k - 1) default).id = (data.zones.getD i default).id := by
            rw [← h3, hhead.2.2, htl.2.2]
          have := hdistinct (k - 1) (by omega) i (by omega) hocc hid
          omega
        rw [htail]
        exact le_refl 1
      · exact ih (k + 1) (by omega) (by omega)

/-- C27. In every execution state and every store whose occupied zone slots carry
pairwise distinct ids, at most one entry of the zone list gets the status `"running"` or
`"testing"` from `zone_status_to_string` over the snapshot of
`sprinkler_controller_get_status`; an entry gets one of the two exactly when its zone is
enabled, `is_running` is set and its id equals `current_zone_id`. -/
theorem at_most_one_zone_reported_running (w : World)
    (hdistinct : ∀ i, i < MAX_ZONES → ∀ j, j < MAX_ZONES →
      (w.sprinkler_data.zones.getD i default).id ≠ 0 →
      (w.sprinkler_data.zones.getD i default).id = (w.sprinkler_data.zones.getD j default).id →
      i = j) :
    ((sprinkler_zones_to_json w).filter
      (fun e => decide (e.2 = "running" ∨ e.2 = "testing"))).length ≤ 1 ∧
    (∀ e, e ∈ sprinkler_zones_to_json w →
      ((e.2 = "running" ∨ e.2 = "testing") ↔
        (e.1.enabled = true ∧ w.exec_state.is_running = true ∧
          e.1.id = w.exec_state.current_zone_id))) := by
  refine ⟨zone_list_entries_active_le_one w.sprinkler_data _ hdistinct MAX_ZONES 1
    (le_refl 1) (le_refl _), ?_⟩
  intro e he
  obtain ⟨i, _, _, _, _, h5⟩ := zone_list_entries_mem w.sprinkler_data _ MAX_ZONES 1
    (le_refl 1) e he
  rw [h5]
  exact zone_status_active_iff e.1 (sprinkler_controller_get_status w).1

/-- Instance of C27 on the store of the engine scenario while program 2 runs zone 1:
zone 1 is listed as running, zone 2 as idle and zone 3 as disabled. -/
theorem at_most_one_zone_reported_running_witness :
    (∀ i, i < MAX_ZONES → ∀ j, j < MAX_ZONES →
      (running_program_world.sprinkler_data.zones.getD i default).id ≠ 0 →
      (running_program_world.sprinkler_data.zones.getD i default).id
        = (running_program_world.sprinkler_data.zones.getD j default).id → i = j) ∧
    (((sprinkler_zones_to_json running_program_world).filter
      (fun e => decide (e.2 = "running" ∨ e.2 = "testing"))).length ≤ 1 ∧
    (∀ e, e ∈ sprinkler_zones_to_json running_program_world →
      ((e.2 = "running" ∨ e.2 = "testing") ↔
        (e.1.enabled = true ∧ running_program_world.exec_state.is_running = true ∧
          e.1.id = running_program_world.exec_state.current_zone_id)))) ∧
    (sprinkler_zones_to_json running_program_world).map (fun e => (e.1.id, e.2))
      = [(1, "running"), (2, "idle"), (3, "disabled")] :=
  ⟨by decide, at_most_one_zone_reported_running running_program_world (by decide), by decide⟩

/-- Support for C25: whenever the worker handles a program-start command for an existing
program in which the lookup finds no enabled zone, the step only removes the command and
clears the active program and index; the store, and with it every `next_run`, the output
lines and the timer are left as they were. -/
theorem executor_task_step_program_start_no_zone (w : World) (cmd : execution_cmd_t)
    (rest : List execution_cmd_t) (op_data : executor_operation_data_t)
    (hrun : w.controller_running = true) (hq : w.execution_queue = cmd :: rest)
    (hm : w.mutex_free = true) (hs : cmd.is_program_start = true)
    (hop : executor_get_program_zone_operation w.sprinkler_data
      { program_id := cmd.program_id, zone_index := 0 } = op_data)
    (hf : op_data.program_found = true) (he : op_data.zone_enabled = false) :
    executor_task_step w
      = { w with
          execution_queue := rest
          exec_state :=
            { w.exec_state with current_program_id := 0, current_zone_index := 0 } } := by
  unfold executor_task_step
  simp only [hrun, hq, hm, hs, hop, hf, he, Bool.true_eq_false, Bool.false_eq_true, if_false,
    if_true]

/-! ## Theorems: lookup, start, store invariants and reference removal -/


/-- C32, evaluation at the failing input. On the started, idle controller
`sprinkler_controller_manual_zone` with zone id 9 (above `MAX_ZONES`), 0, or 4 (an empty
slot) returns the error of `control_zone` and arms no timer, but the execution state
keeps the manual sentinel 255 as active program and the requested 60 seconds as
`zone_duration_seconds`: the engine is not left idle. -/
theorem manual_zone_failure_keeps_manual_state :
    (started_world 464400 0 []).exec_state = {} ∧
    (sprinkler_controller_manual_zone (started_world 464400 0 []) 9 60).2
      = ESP_ERR_INVALID_STATE ∧
    (sprinkler_controller_manual_zone (started_world 464400 0 []) 9 60).1.exec_state
      = { is_running := false, current_program_id := 255, current_zone_id := 0,
          current_zone_index := 0, zone_start_time := 0, zone_duration_seconds := 60 } ∧
    (sprinkler_controller_manual_zone (started_world 464400 0 []) 9 60).1.zone_timer.active
      = false ∧
    (sprinkler_controller_manual_zone (started_world 464400 0 []) 0 60).2
      = ESP_ERR_INVALID_STATE ∧
    (sprinkler_controller_manual_zone (started_world 464400 0 [])
      0 60).1.exec_state.current_program_id = 255 ∧
    (sprinkler_controller_manual_zone (started_world 464400 0 []) 4 60).2
      = ESP_ERR_NOT_FOUND ∧
    (sprinkler_controller_manual_zone (started_world 464400 0 [])
      4 60).1.exec_state.current_program_id = 255 ∧
    (sprinkler_controller_manual_zone (started_world 464400 0 [])
      4 60).1.exec_state.zone_duration_seconds = 60 := by
  decide

/-- C33, evaluation at the failing input. The worker starts program 1, whose first
reference runs zone 1 for 1093 minutes, that is 65580 seconds; the `uint16_t` field
`zone_duration_seconds` holds 44 and the timer is armed with 44000 ms. -/
theorem zone_duration_seconds_wraps_at_1093_minutes :
    ((long_zone_world.sprinkler_data.programs.getD 0 default).zones.getD 0 default).duration
      = 1093 ∧
    1093 * 60 = 65580 ∧
    (executor_task_step long_zone_world).exec_state.current_zone_id = 1 ∧
    (executor_task_step long_zone_world).gpio_high = [4] ∧
    (executor_task_step long_zone_world).exec_state.zone_duration_seconds = 44 ∧
    (executor_task_step long_zone_world).zone_timer = { period_ms := 44000, active := true } := by
  decide

/-- Support for C33: whenever the worker activates the reference found by the lookup,
with duration `m` minutes, `zone_duration_seconds` is `m * 60` reduced modulo 65536 and
the timer is armed with that many seconds; they equal `m * 60` for `m` up to 1092. -/
theorem executor_activate_duration (w : World) (op_data : executor_operation_data_t) :
    (executor_activate w op_data).exec_state.zone_duration_seconds
      = (op_data.zone_duration_minutes * 60) % 65536 ∧
    (executor_activate w op_data).zone_timer
      = { period_ms := (op_data.zone_duration_minutes * 60) % 65536 * 1000, active := true } ∧
    (op_data.zone_duration_minutes ≤ 1092 →
      (executor_activate w op_data).exec_state.zone_duration_seconds
        = op_data.zone_duration_minutes * 60 ∧
      (executor_activate w op_data).zone_timer
        = { period_ms := op_data.zone_duration_minutes * 60 * 1000, active := true }) := by
  have h1 : (executor_activate w op_data).exec_state.zone_duration_seconds
      = (op_data.zone_duration_minutes * 60) % 65536 := by
    rw [executor_activate_eq]
    exact control_zone_duration _ _ _
  have h2 : (executor_activate w op_data).zone_timer
      = { period_ms := (op_data.zone_duration_minutes * 60) % 65536 * 1000, active := true } := by
    rw [executor_activate_eq]
  refine ⟨h1, h2, ?_⟩
  intro hm
  have hmod : (op_data.zone_duration_minutes * 60) % 65536
      = op_data.zone_duration_minutes * 60 := by omega
  rw [h1, h2, hmod]
  exact ⟨rfl, rfl⟩

/-- C37, evaluation at the failing input. The store holding zone 1 and program 2 has
consistent counts; after `sprinkler_remove_zone(2)` and after
`sprinkler_remove_program(1)`, both on an empty slot with an id in range, the count is 0
while one slot is occupied; after a creation whose persistence write fails the count is
0 while slot 0 is occupied. -/
theorem counts_differ_from_occupied_slots :
    cascade_world.sprinkler_data.zone_count
      = (cascade_world.sprinkler_data.zones.filter (fun z => decide (z.id ≠ 0))).length ∧
    cascade_world.sprinkler_data.program_count
      = (cascade_world.sprinkler_data.programs.filter (fun p => decide (p.id ≠ 0))).length ∧
    (store_op.remove_zone 2).ids_in_range = true ∧
    (store_step cascade_world (.remove_zone 2)).1.sprinkler_data.zone_count = 0 ∧
    ((store_step cascade_world (.remove_zone 2)).1.sprinkler_data.zones.filter
      (fun z => decide (z.id ≠ 0))).length = 1 ∧
    (store_op.remove_program 1).ids_in_range = true ∧
    (store_step cascade_world (.remove_program 1)).1.sprinkler_data.program_count = 0 ∧
    ((store_step cascade_world (.remove_program 1)).1.sprinkler_data.programs.filter
      (fun p => decide (p.id ≠ 0))).length = 1 ∧
    (store_step nvs_down_world (.create_or_update_zone 0 [65] 4)).2 = ESP_FAIL ∧
    (store_step nvs_down_world (.create_or_update_zone 0 [65] 4)).1.sprinkler_data.zone_count
      = 0 ∧
    ((store_step nvs_down_world (.create_or_update_zone 0 [65] 4)).1.sprinkler_data.zones.filter
      (fun z => decide (z.id ≠ 0))).length = 1 := by
  decide

/-- C39, counterexample. Zone 2 (line 5) runs under the manual sentinel 255 while the
advance command of program 2 is still queued; the worker takes the command, turns zone 2
off and changes the execution state, although the command's program id 2 differs from
the active program id 255. -/
theorem stale_advance_turns_manual_zone_off :
    stale_advance_world.execution_queue
      = [{ program_id := 2, zone_index := 1, is_program_start := false }] ∧
    stale_advance_world.exec_state.current_program_id = 255 ∧
    stale_advance_world.exec_state.current_zone_id = 2 ∧
    stale_advance_world.exec_state.is_running = true ∧
    stale_advance_world.gpio_high = [5] ∧
    (executor_task_step stale_advance_world).gpio_high = [] ∧
    (executor_task_step stale_advance_world).exec_state.is_running = false ∧
    (executor_task_step stale_advance_world).exec_state.current_program_id = 0 ∧
    (executor_task_step stale_advance_world).exec_state ≠ stale_advance_world.exec_state := by
  decide

/-- C34, evaluation at the failing input. After the worker has handled the stale advance
command of `stale_advance_world`, no zone is active but the timer armed for the manual
run is still armed; `sprinkler_controller_stop_pending` and `sprinkler_controller_stop`
both return `ESP_OK` and leave it armed, and its expiry then fires. -/
theorem timer_still_armed_after_stop :
    (executor_task_step stale_advance_world).zone_timer = { period_ms := 60000, active := true } ∧
    (executor_task_step stale_advance_world).exec_state.current_zone_id = 0 ∧
    (executor_task_step stale_advance_world).exec_state.is_running = false ∧
    (sprinkler_controller_stop_pending (executor_task_step stale_advance_world)).2 = ESP_OK ∧
    (sprinkler_controller_stop_pending (executor_task_step stale_advance_world)).1.zone_timer.active
      = true ∧
    (sprinkler_controller_stop (executor_task_step stale_advance_world)).2 = ESP_OK ∧
    (sprinkler_controller_stop (executor_task_step stale_advance_world)).1.zone_timer.active
      = true ∧
    (timer_expiry (sprinkler_controller_stop_pending
      (executor_task_step stale_advance_world)).1).execution_queue
      = [{ program_id := 0, zone_index := 1, is_program_start := false }] := by
  decide

theorem zone_ref_enabled_iff (data : sprinkler_data_t) (pz : program_zone_t) :
    zone_ref_enabled data pz = true ↔
      (1 ≤ pz.zone_id ∧ pz.zone_id ≤ MAX_ZONES ∧
        (data.zones.getD (pz.zone_id - 1) default).enabled = true) := by
  simp only [zone_ref_enabled, Bool.and_eq_true, decide_eq_true_eq]
  constructor
  · rintro ⟨⟨h1, h2⟩, h3⟩
    exact ⟨h1, h2, h3⟩
  · rintro ⟨h1, h2, h3⟩
    exact ⟨⟨h1, h2⟩, h3⟩

theorem executor_find_zone_spec (data : sprinkler_data_t) (program : program_t) :
    ∀ n j (op_data : executor_operation_data_t), op_data.zone_enabled = false →
      ((executor_find_zone data program n j op_data).zone_enabled = true →
        j ≤ (executor_find_zone data program n j op_data).zone_index ∧
        (executor_find_zone data program n j op_data).zone_index < j + n ∧
        zone_ref_enabled data (program.zones.getD
          (executor_find_zone data program n j op_data).zone_index default) = true ∧
        (∀ k, j ≤ k → k < (executor_find_zone data program n j op_data).zone_index →
          zone_ref_enabled data (program.zones.getD k default) = false) ∧
        (executor_find_zone data program n j op_data).zone_id
          = (program.zones.getD
              (executor_find_zone data program n j op_data).zone_index default).zone_id ∧
        (executor_find_zone data program n j op_data).zone_duration_minutes
          = (program.zones.getD
              (executor_find_zone data program n j op_data).zone_index default).duration) ∧
      ((executor_find_zone data program n j op_data).zone_enabled = false →
        ∀ k, j ≤ k → k < j + n → zone_ref_enabled data (program.zones.getD k default) = false) ∧
      (executor_find_zone data program n j op_data).program_found = op_data.program_found := by
  intro n
  induction n with
  | zero =>
    intro j op_data hop
    refine ⟨fun h => ?_, fun _ k h1 h2 => ?_, rfl⟩
    · have h2 : op_data.zone_enabled = true := h
      rw [hop] at h2
      exact Bool.noConfusion h2
    · omega
  | succ n ih =>
    intro j op_data hop
    by_cases he : zone_ref_enabled data (program.zones.getD j default) = true
    · have hstep : executor_find_zone data program (n + 1) j op_data
          = { op_data with
              zone_index := j
              zone_id := (program.zones.getD j default).zone_id
              zone_duration_minutes := (program.zones.getD j default).duration
              zone_enabled := true } := by
        simp only [executor_find_zone, he, if_true]
      rw [hstep]
      refine ⟨fun _ => ⟨le_refl _, Nat.lt_add_of_pos_right (Nat.succ_pos n), he,
        fun k h1 h2 => ?_, rfl, rfl⟩, fun h => Bool.noConfusion h, rfl⟩
      have h3 : k < j := h2
      omega
    · have hf : zone_ref_enabled data (program.zones.getD j default) = false := by
        cases h : zone_ref_enabled data (program.zones.getD j default)
        · rfl
        · exact absurd h he
      have hstep : executor_find_zone data program (n + 1) j op_data
          = executor_find_zone data program n (j + 1) op_data := by
        simp only [executor_find_zone, hf, Bool.false_eq_true, if_false]
      rw [hstep]
      obtain ⟨i1, i2, i3⟩ := ih (j + 1) op_data hop
      refine ⟨fun h => ?_, fun h k h1 h2 => ?_, i3⟩
      · obtain ⟨a1, a2, a3, a4, a5, a6⟩ := i1 h
        refine ⟨by omega, by omega, a3, fun k h1 h2 => ?_, a5, a6⟩
        by_cases hk : k = j
        · rw [hk]; exact hf
        · exact a4 k (by omega) h2
      · by_cases hk : k = j
        · rw [hk]; exact hf
        · exact i2 h k (by omega) (by omega)

/-- C31. For every store and every request (program id and start index `s`):
`executor_get_program_zone_operation` reports `program_found = false` exactly when the
program id is 0, above `MAX_PROGRAMS` or names an empty slot. For an existing program it
reports `zone_enabled = true` together with `zone_index` = the least `i` with
`s <= i < zone_count` whose reference has a zone id in `1..MAX_ZONES` naming an enabled
zone, and the zone id and duration of that reference; it reports `zone_enabled = false`
exactly when there is no such `i`. -/
theorem executor_lookup_finds_first_enabled_reference (data : sprinkler_data_t)
    (op_data : executor_operation_data_t) :
    ((executor_get_program_zone_operation data op_data).program_found = false ↔
      (op_data.program_id = 0 ∨ op_data.program_id > MAX_PROGRAMS ∨
        (data.programs.getD (op_data.program_id - 1) default).id = 0)) ∧
    ((executor_get_program_zone_operation data op_data).program_found = true →
      ((executor_get_program_zone_operation data op_data).zone_enabled = true →
        op_data.zone_index ≤ (executor_get_program_zone_operation data op_data).zone_index ∧
        (executor_get_program_zone_operation data op_data).zone_index
          < (data.programs.getD (op_data.program_id - 1) default).zone_count ∧
        (1 ≤ (executor_get_program_zone_operation data op_data).zone_id ∧
          (executor_get_program_zone_operation data op_data).zone_id ≤ MAX_ZONES ∧
          (data.zones.getD ((executor_get_program_zone_operation data op_data).zone_id - 1)
            default).enabled = true) ∧
        (∀ k, op_data.zone_index ≤ k →
          k < (executor_get_program_zone_operation data op_data).zone_index →
          ¬ (1 ≤ ((data.programs.getD (op_data.program_id - 1) default).zones.getD k
                default).zone_id ∧
            ((data.programs.getD (op_data.program_id - 1) default).zones.getD k
                default).zone_id ≤ MAX_ZONES ∧
            (data.zones.getD (((data.programs.getD (op_data.program_id - 1)
              default).zones.getD k default).zone_id - 1) default).enabled = true)) ∧
        (executor_get_program_zone_operation data op_data).zone_id
          = ((data.programs.getD (op_data.program_id - 1) default).zones.getD
              (executor_get_program_zone_operation data op_data).zone_index default).zone_id ∧
        (executor_get_program_zone_operation data op_data).zone_duration_minutes
          = ((data.programs.getD (op_data.program_id - 1) default).zones.getD
              (executor_get_program_zone_operation data op_data).zone_index
              default).duration) ∧
      ((executor_get_program_zone_operation data op_data).zone_enabled = false ↔
        ¬ ∃ i, op_data.zone_index ≤ i ∧
          i < (data.programs.getD (op_data.program_id - 1) default).zone_count ∧
          1 ≤ ((data.programs.getD (op_data.program_id - 1) default).zones.getD i
                default).zone_id ∧
          ((data.programs.getD (op_data.program_id - 1) default).zones.getD i
                default).zone_id ≤ MAX_ZONES ∧
          (data.zones.getD (((data.programs.getD (op_data.program_id - 1)
            default).zones.getD i default).zone_id - 1) default).enabled = true)) := by
  by_cases hid : op_data.program_id = 0 ∨ op_data.program_id > MAX_PROGRAMS
  · have hr : executor_get_program_zone_operation data op_data
        = { op_data with program_found := false, zone_enabled := false } := by
      simp only [executor_get_program_zone_operation, hid, if_true]
    rw [hr]
    refine ⟨⟨fun _ => ?_, fun _ => rfl⟩, fun h => Bool.noConfusion h⟩
    rcases hid with h | h
    · exact Or.inl h
    · exact Or.inr (Or.inl h)
  · by_cases hslot : (data.programs.getD (op_data.program_id - 1) default).id = 0
    · have hr : executor_get_program_zone_operation data op_data
          = { op_data with program_found := false, zone_enabled := false } := by
        simp only [executor_get_program_zone_operation, hid, if_false, hslot, if_true]
      rw [hr]
      exact ⟨⟨fun _ => Or.inr (Or.inr hslot), fun _ => rfl⟩, fun h => Bool.noConfusion h⟩
    · have hr : executor_get_program_zone_operation data op_data
          = executor_find_zone data (data.programs.getD (op_data.program_id - 1) default)
              ((data.programs.getD (op_data.program_id - 1) default).zone_count
                - op_data.zone_index) op_data.zone_index
              { op_data with
                program_found := true
                zone_enabled := false
                program_name := strncpy (data.programs.getD (op_data.program_id - 1) default).name
                  (MAX_PROGRAM_NAME_LEN - 1)
                zone_count := (data.programs.getD (op_data.program_id - 1) default).zone_count } := by
        simp only [executor_get_program_zone_operation, hid, if_false, hslot]
      obtain ⟨s1, s2, s3⟩ := executor_find_zone_spec data
        (data.programs.getD (op_data.program_id - 1) default)
        ((data.programs.getD (op_data.program_id - 1) default).zone_count - op_data.zone_index)
        op_data.zone_index
        { op_data with
          program_found := true
          zone_enabled := false
          program_name := strncpy (data.programs.getD (op_data.program_id - 1) default).name
            (MAX_PROGRAM_NAME_LEN - 1)
          zone_count := (data.programs.getD (op_data.program_id - 1) default).zone_count } rfl
      rw [← hr] at s1 s2 s3
      refine ⟨⟨fun h => ?_, fun h => ?_⟩, fun _ => ⟨fun hen => ?_, ⟨fun hdis => ?_, fun hno => ?_⟩⟩⟩
      · rw [s3] at h; exact Bool.noConfusion h
      · rcases h with h | h | h
        · exact absurd (Or.inl h) hid
        · exact absurd (Or.inr h) hid
        · exact absurd h hslot
      · obtain ⟨a1, a2, a3, a4, a5, a6⟩ := s1 hen
        refine ⟨a1, by omega, ?_, fun k h1 h2 hk => ?_, a5, a6⟩
        · rw [a5]; exact (zone_ref_enabled_iff data _).mp a3
        · have := a4 k h1 h2
          rw [(zone_ref_enabled_iff data _).mpr hk] at this
          exact absurd this (by decide)
      · rintro ⟨i, h1, h2, h3⟩
        have := s2 hdis i h1 (by omega)
        rw [(zone_ref_enabled_iff data _).mpr h3] at this
        exact absurd this (by decide)
      · cases hz : (executor_get_program_zone_operation data op_data).zone_enabled
        · rfl
        · obtain ⟨a1, a2, a3, _⟩ := s1 hz
          exact absurd ⟨_, a1, by omega, (zone_ref_enabled_iff data _).mp a3⟩ hno

/-- Instance of C31 on the engine scenario: program 1 (zone 1, disabled zone 3, zone 2),
looked up from index 1, yields index 2, zone 2 for 5 minutes. -/
theorem executor_lookup_finds_first_enabled_reference_witness :
    (executor_get_program_zone_operation (engine_scenario_data 0)
        { program_id := 1, zone_index := 1 }).program_found = true ∧
    (executor_get_program_zone_operation (engine_scenario_data 0)
        { program_id := 1, zone_index := 1 }).zone_enabled = true ∧
    (executor_get_program_zone_operation (engine_scenario_data 0)
        { program_id := 1, zone_index := 1 }).zone_index = 2 ∧
    (executor_get_program_zone_operation (engine_scenario_data 0)
        { program_id := 1, zone_index := 1 }).zone_id = 2 ∧
    (executor_get_program_zone_operation (engine_scenario_data 0)
        { program_id := 1, zone_index := 1 }).zone_duration_minutes = 5 ∧
    (∀ k, 1 ≤ k → k < 2 →
      ¬ (1 ≤ (((engine_scenario_data 0).programs.getD (1 - 1) default).zones.getD k
            default).zone_id ∧
        (((engine_scenario_data 0).programs.getD (1 - 1) default).zones.getD k
            default).zone_id ≤ MAX_ZONES ∧
        ((engine_scenario_data 0).zones.getD ((((engine_scenario_data 0).programs.getD (1 - 1)
          default).zones.getD k default).zone_id - 1) default).enabled = true)) :=
  ⟨by decide, by decide, by decide, by decide, by decide,
    (((executor_lookup_finds_first_enabled_reference (engine_scenario_data 0)
      { program_id := 1, zone_index := 1 }).2 (by decide)).1 (by decide)).2.2.2.1⟩

/-- C39, amended. The worker does not compare the program id of a dequeued advance
command with the active program id. For every started controller (store lock available)
whose active zone `z` is an occupied slot and every advance command whose program exists,
whatever the active program id: the worker turns `z` off; when the command's program has
no enabled reference from the command's index + 1 on, the execution state becomes idle
(not running, program 0, zone 0) and the timer is left as it was; otherwise the found
reference is activated and the timer armed for it. -/
theorem worker_handles_advance_for_any_active_program (w : World) (cmd : execution_cmd_t)
    (rest : List execution_cmd_t) (op_data : executor_operation_data_t) (z : Nat)
    (hrun : w.controller_running = true) (hq : w.execution_queue = cmd :: rest)
    (hm : w.mutex_free = true) (hs : cmd.is_program_start = false)
    (hop : executor_get_program_zone_operation w.sprinkler_data
      { program_id := cmd.program_id, zone_index := cmd.zone_index + 1 } = op_data)
    (hf : op_data.program_found = true)
    (hcz : w.exec_state.current_zone_id = z) (hz1 : 1 ≤ z) (hz2 : z ≤ MAX_ZONES)
    (hocc : (w.sprinkler_data.zones.getD (z - 1) default).id ≠ 0) :
    (op_data.zone_enabled = false →
      (w.sprinkler_data.zones.getD (z - 1) default).output ∉ (executor_task_step w).gpio_high ∧
      (executor_task_step w).exec_state
        = { is_running := false, current_program_id := 0, current_zone_id := 0,
            current_zone_index := 0, zone_start_time := w.now,
            zone_duration_seconds := w.exec_state.zone_duration_seconds } ∧
      (executor_task_step w).zone_timer = w.zone_timer ∧
      (executor_task_step w).execution_queue = rest) ∧
    (op_data.zone_enabled = true →
      executor_task_step w
        = executor_activate
            { (control_zone { w with execution_queue := rest } z false).1 with
              exec_state :=
                { (control_zone { w with execution_queue := rest } z false).1.exec_state with
                  current_zone_index := op_data.zone_index % 256 } } op_data ∧
      (executor_task_step w).zone_timer
        = { period_ms := (op_data.zone_duration_minutes * 60) % 65536 * 1000,
            active := true }) := by
  have hc := control_zone_off_occupied { w with execution_queue := rest } z hm hz1 hz2 hocc
  have hcf := control_zone_off_frame { w with execution_queue := rest } z hm hz1 hz2 hocc
  have cg : (control_zone { w with execution_queue := rest } z false).1.gpio_high
      = w.gpio_high.filter
          (fun p => p != (w.sprinkler_data.zones.getD (z - 1) default).output) := hc.1
  have ce : (control_zone { w with execution_queue := rest } z false).1.exec_state
      = { w.exec_state with is_running := false, current_zone_id := 0,
                            zone_start_time := w.now } := hc.2.1
  have ct : (control_zone { w with execution_queue := rest } z false).1.zone_timer
      = w.zone_timer := hcf.2.1
  have cq : (control_zone { w with execution_queue := rest } z false).1.execution_queue
      = rest := hcf.2.2.2
  refine ⟨fun he => ?_, fun he => ?_⟩
  · have hstep := executor_task_step_complete w cmd rest op_data hrun hq hm hs hop hf he
    rw [hcz] at hstep
    obtain ⟨_, _, _, _, _, ug, ue, ut, uq, _⟩ := update_program_next_run_frame
      (control_zone { w with execution_queue := rest } z false).1 op_data.program_id
    refine ⟨?_, ?_, ?_, ?_⟩
    · rw [hstep]
      show _ ∉ (sprinkler_update_program_next_run _ _).1.gpio_high
      rw [ug, cg]
      intro hmem
      have := (List.mem_filter.mp hmem).2
      simp at this
    · rw [hstep]
      show ({ (sprinkler_update_program_next_run _ _).1.exec_state with
        current_program_id := 0, current_zone_index := 0 } : execution_state_t) = _
      rw [ue, ce]
    · rw [hstep]
      show (sprinkler_update_program_next_run _ _).1.zone_timer = _
      rw [ut, ct]
    · rw [hstep]
      show (sprinkler_update_program_next_run _ _).1.execution_queue = _
      rw [uq, cq]
  · have hstep := executor_task_step_continue w cmd rest op_data hrun hq hm hs hop hf he
    rw [hcz] at hstep
    refine ⟨hstep, ?_⟩
    rw [hstep, executor_activate_eq]

/-- Instance of the amended C39 on the stale advance command of program 2 while zone 2
runs under the manual sentinel 255. -/
theorem worker_handles_advance_for_any_active_program_witness :
    (stale_advance_world.exec_state.current_program_id = 255 ∧
      stale_advance_world.execution_queue
        = [{ program_id := 2, zone_index := 1, is_program_start := false }] ∧
      (stale_advance_world.sprinkler_data.zones.getD (2 - 1) default).output = 5 ∧
      stale_advance_world.gpio_high = [5]) ∧
    ((stale_advance_world.sprinkler_data.zones.getD (2 - 1) default).output
        ∉ (executor_task_step stale_advance_world).gpio_high ∧
      (executor_task_step stale_advance_world).exec_state
        = { is_running := false, current_program_id := 0, current_zone_id := 0,
            current_zone_index := 0, zone_start_time := stale_advance_world.now,
            zone_duration_seconds := stale_advance_world.exec_state.zone_duration_seconds } ∧
      (executor_task_step stale_advance_world).zone_timer = stale_advance_world.zone_timer ∧
      (executor_task_step stale_advance_world).execution_queue = []) :=
  ⟨⟨by decide, by decide, by decide, by decide⟩,
    (worker_handles_advance_for_any_active_program stale_advance_world
      { program_id := 2, zone_index := 1, is_program_start := false } []
      (executor_get_program_zone_operation stale_advance_world.sprinkler_data
        { program_id := 2, zone_index := 1 + 1 }) 2
      (by decide) (by decide) (by decide) (by decide) rfl (by decide) (by decide) (by decide)
      (by decide) (by decide)).1 (by decide)⟩

theorem getD_set_ne {α : Type} (l : List α) (k i : Nat) (v d : α) (h : k ≠ i) :
    (l.set k v).getD i d = l.getD i d := by
  simp only [List.getD_eq_getElem?_getD, List.getElem?_set_ne h]

theorem getD_set_cases {α : Type} (l : List α) (k i : Nat) (v d : α) :
    (l.set k v).getD i d = l.getD i d ∨ (k = i ∧ (l.set k v).getD i d = v) := by
  by_cases hk : k = i
  · by_cases hi : i < l.length
    · right
      exact ⟨hk, by rw [hk]; exact getD_set_self l i v d hi⟩
    · left
      rw [List.set_eq_of_length_le (by omega)]
  · left
    exact getD_set_ne l k i v d hk

theorem zone_ids_set_same (l : List zone_t) (k : Nat) (v : zone_t)
    (h : v.id = (l.getD k default).id) (i : Nat) :
    ((l.set k v).getD i default).id = (l.getD i default).id := by
  rcases getD_set_cases l k i v default with h1 | ⟨h1, h2⟩
  · rw [h1]
  · rw [h2, h, h1]

theorem program_ids_set_same (l : List program_t) (k : Nat) (v : program_t)
    (h : v.id = (l.getD k default).id) (i : Nat) :
    ((l.set k v).getD i default).id = (l.getD i default).id := by
  rcases getD_set_cases l k i v default with h1 | ⟨h1, h2⟩
  · rw [h1]
  · rw [h2, h, h1]

theorem update_zone_keeps_zone_ids (w : World) (zone_id : Nat) (name : List Nat) (output : Nat)
    (hne : zone_id ≠ 0) (i : Nat) :
    ((sprinkler_create_or_update_zone w zone_id name output).1.sprinkler_data.zones.getD i
      default).id = (w.sprinkler_data.zones.getD i default).id ∧
    (sprinkler_create_or_update_zone w zone_id name output).1.sprinkler_data.programs
      = w.sprinkler_data.programs := by
  cases hm : w.mutex_free
  · simp only [sprinkler_create_or_update_zone, ne_eq, hne, not_false_eq_true, if_true, hm,
      and_self]
  · by_cases h0 : (w.sprinkler_data.zones.getD (zone_id - 1) default).id = 0
    · simp only [sprinkler_create_or_update_zone, ne_eq, hne, not_false_eq_true, if_true, hm,
        Bool.true_eq_false, if_false, zone_slot_access, h0, and_self]
    · cases hnvs : w.nvs_ok <;>
      simp only [sprinkler_create_or_update_zone, ne_eq, hne, not_false_eq_true, if_true, hm,
        Bool.true_eq_false, if_false, zone_slot_access, h0, set_zone, sprinkler_save_zone,
        hnvs, init_zone_gpio, gpio_set_level, Bool.false_eq_true, and_true] <;>
      exact zone_ids_set_same _ _ _ (by rfl) i

theorem enable_zone_keeps_zone_ids (w : World) (zone_id : Nat) (is_enabled : Bool) (i : Nat) :
    ((sprinkler_enable_zone w zone_id is_enabled).1.sprinkler_data.zones.getD i default).id
      = (w.sprinkler_data.zones.getD i default).id ∧
    (sprinkler_enable_zone w zone_id is_enabled).1.sprinkler_data.programs
      = w.sprinkler_data.programs := by
  cases hm : w.mutex_free
  · simp only [sprinkler_enable_zone, hm, if_true, and_self]
  · cases hnvs : w.nvs_ok <;>
    simp only [sprinkler_enable_zone, hm, Bool.true_eq_false, if_false, zone_slot_access,
      set_zone, sprinkler_save_zone, hnvs, Bool.false_eq_true, if_true, and_true] <;>
    exact zone_ids_set_same _ _ _ (by rfl) i

theorem update_zone_status_keeps_zone_ids (w : World) (zone_id : Nat) (turn_on : Bool)
    (i : Nat) :
    ((sprinkler_update_zone_status w zone_id turn_on).1.sprinkler_data.zones.getD i default).id
      = (w.sprinkler_data.zones.getD i default).id ∧
    (sprinkler_update_zone_status w zone_id turn_on).1.sprinkler_data.programs
      = w.sprinkler_data.programs := by
  cases hm : w.mutex_free
  · simp only [sprinkler_update_zone_status, hm, if_true, and_self]
  · cases hnvs : w.nvs_ok <;> cases turn_on <;>
    simp only [sprinkler_update_zone_status, hm, Bool.true_eq_false, if_false,
      zone_slot_access, set_zone, sprinkler_save_zone, hnvs, Bool.false_eq_true, if_true,
      and_true] <;>
    exact zone_ids_set_same _ _ _ (by rfl) i

theorem create_zone_fills_free_slot (w : World) (name : List Nat) (output : Nat) (i : Nat) :
    (((sprinkler_create_or_update_zone w 0 name output).1.sprinkler_data.zones.getD i
        default).id = (w.sprinkler_data.zones.getD i default).id ∨
      ((w.sprinkler_data.zones.getD i default).id = 0 ∧
        ((sprinkler_create_or_update_zone w 0 name output).1.sprinkler_data.zones.getD i
          default).id = i + 1)) ∧
    (sprinkler_create_or_update_zone w 0 name output).1.sprinkler_data.programs
      = w.sprinkler_data.programs := by
  by_cases hc : w.sprinkler_data.zone_count ≥ MAX_ZONES
  · simp only [sprinkler_create_or_update_zone, ne_eq, not_true_eq_false, if_false, hc,
      if_true, true_or, and_self]
  · cases hf : find_available_slot
        ((w.sprinkler_data.zones.take MAX_ZONES).map (fun z => z.id)) 0 with
    | none =>
      simp only [sprinkler_create_or_update_zone, ne_eq, not_true_eq_false, if_false, hc, hf,
        true_or, and_self]
    | some k =>
      obtain ⟨k', hk1, hk2, hk3, _⟩ := find_available_slot_spec _ 0 k hf
      have hkk : k = k' := by omega
      subst hkk
      simp only [List.length_map, List.length_take] at hk2
      have h0 : (w.sprinkler_data.zones.getD k default).id = 0 := by
        have htk : (w.sprinkler_data.zones.take MAX_ZONES).getD k default
            = w.sprinkler_data.zones.getD k default := by
          have hk4 : k < MAX_ZONES := by omega
          simp [List.getD_eq_getElem?_getD, List.getElem?_take, hk4]
        rw [zone_ids_getD _ _ (by simp only [List.length_take]; omega), htk] at hk3
        exact hk3
      have key : ∀ v : zone_t, v.id = k + 1 →
          (((w.sprinkler_data.zones.set k v).getD i default).id
              = (w.sprinkler_data.zones.getD i default).id ∨
            ((w.sprinkler_data.zones.getD i default).id = 0 ∧
              ((w.sprinkler_data.zones.set k v).getD i default).id = i + 1)) := by
        intro v hv
        rcases getD_set_cases w.sprinkler_data.zones k i v default with h1 | ⟨h1, h2⟩
        · left; rw [h1]
        · right
          rw [h2, hv, ← h1]
          exact ⟨h0, rfl⟩
      cases hnvs : w.nvs_ok <;>
      simp only [sprinkler_create_or_update_zone, ne_eq, not_true_eq_false, if_false, hc, hf,
        set_zone, sprinkler_save_zone, hnvs, Bool.false_eq_true, if_true, init_zone_gpio,
        gpio_set_level, reduceCtorEq, and_true] <;>
      exact key _ (by rfl)

theorem sprinkler_remove_zone_from_program_ids (w : World) (program_id zone_id : Nat) (i : Nat) :
    (sprinkler_remove_zone_from_program w program_id zone_id).1.sprinkler_data.zones
      = w.sprinkler_data.zones ∧
    ((sprinkler_remove_zone_from_program w program_id zone_id).1.sprinkler_data.programs.getD i
      default).id = (w.sprinkler_data.programs.getD i default).id := by
  by_cases hg : program_id > w.sprinkler_data.program_count ∨ program_id = 0
  · simp only [sprinkler_remove_zone_from_program, hg, if_true, and_self]
  · cases hnvs : w.nvs_ok <;>
    cases hmod : (remove_zone_loop zone_id
        (w.sprinkler_data.programs.getD (program_id - 1) default).zone_count
        { zones := (w.sprinkler_data.programs.getD (program_id - 1) default).zones
          zone_count := (w.sprinkler_data.programs.getD (program_id - 1) default).zone_count
          j := 0, program_modified := false }).program_modified <;>
    simp only [sprinkler_remove_zone_from_program, hg, if_false, program_slot_access,
      set_program, sprinkler_save_program, hnvs, hmod, Bool.false_eq_true, if_true,
      true_and] <;>
    exact program_ids_set_same _ _ _ (by rfl) i

theorem remove_zone_from_programs_ids (zone_id : Nat) (i : Nat) :
    ∀ n k w, (remove_zone_from_programs zone_id n k w).sprinkler_data.zones
        = w.sprinkler_data.zones ∧
      ((remove_zone_from_programs zone_id n k w).sprinkler_data.programs.getD i default).id
        = (w.sprinkler_data.programs.getD i default).id := by
  intro n
  induction n with
  | zero => intro k w; exact ⟨rfl, rfl⟩
  | succ n ih =>
    intro k w
    simp only [remove_zone_from_programs]
    have h1 := ih (k + 1) (sprinkler_remove_zone_from_program w k zone_id).1
    have h2 := sprinkler_remove_zone_from_program_ids w k zone_id i
    exact ⟨h1.1.trans h2.1, h1.2.trans h2.2⟩

theorem remove_zone_clears_its_slot (w : World) (zone_id : Nat) (h1 : 1 ≤ zone_id) (i : Nat) :
    (((sprinkler_remove_zone w zone_id).1.sprinkler_data.zones.getD i default).id
        = (w.sprinkler_data.zones.getD i default).id ∨
      (((sprinkler_remove_zone w zone_id).1.sprinkler_data.zones.getD i default).id = 0 ∧
        zone_id = i + 1)) ∧
    ((sprinkler_remove_zone w zone_id).1.sprinkler_data.programs.getD i default).id
      = (w.sprinkler_data.programs.getD i default).id := by
  have key : (((w.sprinkler_data.zones.set (zone_id - 1) default).getD i default).id
        = (w.sprinkler_data.zones.getD i default).id ∨
      (((w.sprinkler_data.zones.set (zone_id - 1) default).getD i default).id = 0 ∧
        zone_id = i + 1)) := by
    rcases getD_set_cases w.sprinkler_data.zones (zone_id - 1) i default default with h | ⟨h, h2⟩
    · left; rw [h]
    · right; rw [h2]; exact ⟨rfl, by omega⟩
  cases hm : w.mutex_free
  · simp only [sprinkler_remove_zone, hm, if_true, true_or, and_self]
  · cases hnvs : w.nvs_ok
    · simp only [sprinkler_remove_zone, hm, Bool.true_eq_false, if_false, zone_slot_access,
        set_zone, sprinkler_delete_zone, hnvs, Bool.false_eq_true, ne_eq, reduceCtorEq,
        not_false_eq_true, if_true, and_true]
      exact key
    · cases hg : nvs_get w.nvs_zones zone_id with
      | none =>
        simp only [sprinkler_remove_zone, hm, Bool.true_eq_false, if_false, zone_slot_access,
          set_zone, sprinkler_delete_zone, hnvs, if_true, hg, ne_eq, reduceCtorEq,
          not_false_eq_true, and_true]
        exact key
      | some z =>
        simp only [sprinkler_remove_zone, hm, Bool.true_eq_false, if_false, zone_slot_access,
          set_zone, sprinkler_delete_zone, hnvs, if_true, hg, ne_eq, not_true_eq_false,
          (remove_zone_from_programs_ids zone_id i _ _ _).1,
          (remove_zone_from_programs_ids zone_id i _ _ _).2, and_true]
        exact key

theorem update_program_keeps_program_ids (w : World) (program_id : Nat) (name : List Nat)
    (days start_hour start_minute : Nat) (zones : List program_zone_t) (zone_count : Nat)
    (hne : program_id ≠ 0) (i : Nat) :
    ((sprinkler_create_or_update_program w program_id name days start_hour start_minute zones
      zone_count).1.sprinkler_data.programs.getD i default).id
      = (w.sprinkler_data.programs.getD i default).id ∧
    (sprinkler_create_or_update_program w program_id name days start_hour start_minute zones
      zone_count).1.sprinkler_data.zones = w.sprinkler_data.zones := by
  cases hm : w.mutex_free
  · simp only [sprinkler_create_or_update_program, hm, if_true, and_self]
  · by_cases h0 : (w.sprinkler_data.programs.getD (program_id - 1) default).id = 0
    · simp only [sprinkler_create_or_update_program, hm, Bool.true_eq_false, if_false, ne_eq,
        hne, not_false_eq_true, if_true, program_slot_access, h0, and_self]
    · cases hnvs : w.nvs_ok <;>
      simp only [sprinkler_create_or_update_program, hm, Bool.true_eq_false, if_false, ne_eq,
        hne, not_false_eq_true, if_true, program_slot_access, h0, set_program,
        sprinkler_save_program, hnvs, Bool.false_eq_true, and_true] <;>
      exact program_ids_set_same _ _ _ (by rfl) i

theorem create_program_fills_free_slot (w : World) (name : List Nat)
    (days start_hour start_minute : Nat) (zones : List program_zone_t) (zone_count : Nat)
    (i : Nat) :
    (((sprinkler_create_or_update_program w 0 name days start_hour start_minute zones
        zone_count).1.sprinkler_data.programs.getD i default).id
        = (w.sprinkler_data.programs.getD i default).id ∨
      ((w.sprinkler_data.programs.getD i default).id = 0 ∧
        ((sprinkler_create_or_update_program w 0 name days start_hour start_minute zones
          zone_count).1.sprinkler_data.programs.getD i default).id = i + 1)) ∧
    (sprinkler_create_or_update_program w 0 name days start_hour start_minute zones
      zone_count).1.sprinkler_data.zones = w.sprinkler_data.zones := by
  cases hm : w.mutex_free
  · simp only [sprinkler_create_or_update_program, hm, if_true, true_or, and_self]
  · by_cases hc : w.sprinkler_data.program_count ≥ MAX_PROGRAMS
    · simp only [sprinkler_create_or_update_program, hm, Bool.true_eq_false, if_false, ne_eq,
        not_true_eq_false, hc, if_true, true_or, and_self]
    · cases hf : find_available_slot
          ((w.sprinkler_data.programs.take MAX_PROGRAMS).map (fun p => p.id)) 0 with
      | none =>
        simp only [sprinkler_create_or_update_program, hm, Bool.true_eq_false, if_false, ne_eq,
          not_true_eq_false, hc, hf, true_or, and_self]
      | some k =>
        obtain ⟨k', hk1, hk2, hk3, _⟩ := find_available_slot_spec _ 0 k hf
        have hkk : k = k' := by omega
        subst hkk
        simp only [List.length_map, List.length_take] at hk2
        have h0 : (w.sprinkler_data.programs.getD k default).id = 0 := by
          have htk : (w.sprinkler_data.programs.take MAX_PROGRAMS).getD k default
              = w.sprinkler_data.programs.getD k default := by
            have hk4 : k < MAX_PROGRAMS := by omega
            simp [List.getD_eq_getElem?_getD, List.getElem?_take, hk4]
          rw [program_ids_getD _ _ (by simp only [List.length_take]; omega), htk] at hk3
          exact hk3
        have key : ∀ v : program_t, v.id = k + 1 →
            (((w.sprinkler_data.programs.set k v).getD i default).id
                = (w.sprinkler_data.programs.getD i default).id ∨
              ((w.sprinkler_data.programs.getD i default).id = 0 ∧
                ((w.sprinkler_data.programs.set k v).getD i default).id = i + 1)) := by
          intro v hv
          rcases getD_set_cases w.sprinkler_data.programs k i v default with h1 | ⟨h1, h2⟩
          · left; rw [h1]
          · right
            rw [h2, hv, ← h1]
            exact ⟨h0, rfl⟩
        cases hnvs : w.nvs_ok <;>
        simp only [sprinkler_create_or_update_program, hm, Bool.true_eq_false, if_false, ne_eq,
          not_true_eq_false, hc, hf, set_program, sprinkler_save_program, hnvs,
          Bool.false_eq_true, if_true, reduceCtorEq, and_true] <;>
        exact key _ (by rfl)

theorem remove_program_clears_its_slot (w : World) (program_id : Nat) (h1 : 1 ≤ program_id)
    (i : Nat) :
    (((sprinkler_remove_program w program_id).1.sprinkler_data.programs.getD i default).id
        = (w.sprinkler_data.programs.getD i default).id ∨
      (((sprinkler_remove_program w program_id).1.sprinkler_data.programs.getD i default).id = 0 ∧
        program_id = i + 1)) ∧
    (sprinkler_remove_program w program_id).1.sprinkler_data.zones = w.sprinkler_data.zones := by
  have key : (((w.sprinkler_data.programs.set (program_id - 1) default).getD i default).id
        = (w.sprinkler_data.programs.getD i default).id ∨
      (((w.sprinkler_data.programs.set (program_id - 1) default).getD i default).id = 0 ∧
        program_id = i + 1)) := by
    rcases getD_set_cases w.sprinkler_data.programs (program_id - 1) i default default
      with h | ⟨h, h2⟩
    · left; rw [h]
    · right; rw [h2]; exact ⟨rfl, by omega⟩
  cases hm : w.mutex_free
  · simp only [sprinkler_remove_program, hm, if_true, true_or, and_self]
  · cases hnvs : w.nvs_ok
    · simp only [sprinkler_remove_program, hm, Bool.true_eq_false, if_false,
        program_slot_access, set_program, sprinkler_delete_program, hnvs, Bool.false_eq_true,
        and_true]
      exact key
    · cases hg : nvs_get w.nvs_programs program_id <;>
      simp only [sprinkler_remove_program, hm, Bool.true_eq_false, if_false,
        program_slot_access, set_program, sprinkler_delete_program, hnvs, if_true, hg,
        and_true] <;>
      exact key

theorem enable_program_keeps_program_ids (w : World) (program_id : Nat) (is_enabled : Bool)
    (i : Nat) :
    ((sprinkler_enable_program w program_id is_enabled).1.sprinkler_data.programs.getD i
      default).id = (w.sprinkler_data.programs.getD i default).id ∧
    (sprinkler_enable_program w program_id is_enabled).1.sprinkler_data.zones
      = w.sprinkler_data.zones := by
  cases hm : w.mutex_free
  · simp only [sprinkler_enable_program, hm, if_true, and_self]
  · cases hnvs : w.nvs_ok <;>
    simp only [sprinkler_enable_program, hm, Bool.true_eq_false, if_false,
      program_slot_access, set_program, sprinkler_save_program, hnvs, Bool.false_eq_true,
      if_true, and_true] <;>
    exact program_ids_set_same _ _ _ (by rfl) i

theorem add_zone_keeps_program_ids (w : World) (program_id zone_id duration order : Nat)
    (i : Nat) :
    ((sprinkler_add_zone_to_program w program_id zone_id duration
      order).1.sprinkler_data.programs.getD i default).id
      = (w.sprinkler_data.programs.getD i default).id ∧
    (sprinkler_add_zone_to_program w program_id zone_id duration order).1.sprinkler_data.zones
      = w.sprinkler_data.zones := by
  cases hm : w.mutex_free
  · simp only [sprinkler_add_zone_to_program, hm, if_true, and_self]
  · by_cases hg : program_id > w.sprinkler_data.program_count ∨ program_id = 0
    · simp only [sprinkler_add_zone_to_program, hm, Bool.true_eq_false, if_false, hg,
        if_true, and_self]
    · by_cases hfull : (w.sprinkler_data.programs.getD (program_id - 1) default).zone_count
          ≥ MAX_ZONES_PER_PROGRAM
      · simp only [sprinkler_add_zone_to_program, hm, Bool.true_eq_false, if_false, hg,
          program_slot_access, hfull, if_true, and_self]
      · cases hnvs : w.nvs_ok <;>
        simp only [sprinkler_add_zone_to_program, hm, Bool.true_eq_false, if_false, hg,
          program_slot_access, hfull, set_program, sprinkler_save_program, hnvs,
          Bool.false_eq_true, if_true, and_true] <;>
        exact program_ids_set_same _ _ _ (by rfl) i

theorem update_program_next_run_keeps_ids (w : World) (program_id : Nat) (i : Nat) :
    ((sprinkler_update_program_next_run w program_id).1.sprinkler_data.programs.getD i
      default).id = (w.sprinkler_data.programs.getD i default).id ∧
    (sprinkler_update_program_next_run w program_id).1.sprinkler_data.zones
      = w.sprinkler_data.zones := by
  cases hm : w.mutex_free
  · simp only [sprinkler_update_program_next_run, hm, if_true, and_self]
  · cases hnvs : w.nvs_ok <;>
    simp only [sprinkler_update_program_next_run, hm, Bool.true_eq_false, if_false,
      program_slot_access, set_program, sprinkler_save_program, hnvs, Bool.false_eq_true,
      if_true, and_true] <;>
    exact program_ids_set_same _ _ _ (by rfl) i

theorem update_program_last_run_keeps_ids (w : World) (program_id : Nat) (i : Nat) :
    ((sprinkler_update_program_last_run w program_id).1.sprinkler_data.programs.getD i
      default).id = (w.sprinkler_data.programs.getD i default).id ∧
    (sprinkler_update_program_last_run w program_id).1.sprinkler_data.zones
      = w.sprinkler_data.zones := by
  cases hm : w.mutex_free
  · simp only [sprinkler_update_program_last_run, hm, if_true, and_self]
  · cases hnvs : w.nvs_ok <;>
    simp only [sprinkler_update_program_last_run, hm, Bool.true_eq_false, if_false,
      program_slot_access, set_program, sprinkler_save_program, hnvs, Bool.false_eq_true,
      if_true, and_true] <;>
    exact program_ids_set_same _ _ _ (by rfl) i

theorem nvs_get_mem {α : Type} (m : List (Nat × α)) (k : Nat) (v : α)
    (h : nvs_get m k = some v) : (k, v) ∈ m := by
  unfold nvs_get at h
  cases hf : m.find? (fun e => e.1 == k) with
  | none => rw [hf] at h; exact Option.noConfusion h
  | some e =>
    rw [hf] at h
    have hv : e.2 = v := Option.some.inj h
    have hk : e.1 = k := by
      have := List.find?_some hf
      exact beq_iff_eq.mp this
    have hmem := List.mem_of_find?_eq_some hf
    rw [← hk, ← hv]
    exact hmem

theorem load_zones_loop_agree :
    ∀ n i w, 1 ≤ i → (∀ e, e ∈ w.nvs_zones → e.2.id = e.1) →
      (∀ k, k < MAX_ZONES → (w.sprinkler_data.zones.getD k default).id = 0 ∨
        (w.sprinkler_data.zones.getD k default).id = k + 1) →
      (∀ k, k < MAX_ZONES →
        ((load_zones_loop n i w).sprinkler_data.zones.getD k default).id = 0 ∨
        ((load_zones_loop n i w).sprinkler_data.zones.getD k default).id = k + 1) ∧
      (load_zones_loop n i w).sprinkler_data.programs = w.sprinkler_data.programs ∧
      (load_zones_loop n i w).nvs_programs = w.nvs_programs ∧
      (load_zones_loop n i w).nvs_ok = w.nvs_ok := by
  intro n
  induction n with
  | zero => intro i w _ _ hag; exact ⟨hag, rfl, rfl, rfl⟩
  | succ n ih =>
    intro i w hi hkey hag
    unfold load_zones_loop
    cases hl : (sprinkler_load_zone w i).1 with
    | none => exact ih (i + 1) w (by omega) hkey hag
    | some zone =>
      have hid : zone.id = i := by
        unfold sprinkler_load_zone at hl
        cases hnvs : w.nvs_ok
        · simp only [hnvs, Bool.false_eq_true, if_false, reduceCtorEq] at hl
        · cases hg : nvs_get w.nvs_zones i with
          | none => simp only [hnvs, if_true, hg, reduceCtorEq] at hl
          | some z =>
            simp only [hnvs, if_true, hg, Option.some.injEq] at hl
            have := hkey _ (nvs_get_mem _ _ _ hg)
            rw [← hl]
            exact this
      have hstep := ih (i + 1)
        { zone_slot_access w zone.id with
          sprinkler_data :=
            { w.sprinkler_data with
              zones := w.sprinkler_data.zones.set (zone.id - 1) zone
              zone_count := (w.sprinkler_data.zone_count + 1) % 256 } }
        (by omega) hkey
        (by
          intro k hk
          show ((w.sprinkler_data.zones.set (zone.id - 1) zone).getD k default).id = 0 ∨
            ((w.sprinkler_data.zones.set (zone.id - 1) zone).getD k default).id = k + 1
          rcases getD_set_cases w.sprinkler_data.zones (zone.id - 1) k zone default
            with h | ⟨h, h2⟩
          · rw [h]; exact hag k hk
          · right; rw [h2, hid]; omega)
      exact hstep

theorem load_programs_loop_agree :
    ∀ n i w, 1 ≤ i → (∀ e, e ∈ w.nvs_programs → e.2.id = e.1) →
      (∀ k, k < MAX_PROGRAMS → (w.sprinkler_data.programs.getD k default).id = 0 ∨
        (w.sprinkler_data.programs.getD k default).id = k + 1) →
      (∀ k, k < MAX_PROGRAMS →
        ((load_programs_loop n i w).sprinkler_data.programs.getD k default).id = 0 ∨
        ((load_programs_loop n i w).sprinkler_data.programs.getD k default).id = k + 1) ∧
      (load_programs_loop n i w).sprinkler_data.zones = w.sprinkler_data.zones := by
  intro n
  induction n with
  | zero => intro i w _ _ hag; exact ⟨hag, rfl⟩
  | succ n ih =>
    intro i w hi hkey hag
    unfold load_programs_loop
    cases hl : (sprinkler_load_program w i).1 with
    | none => exact ih (i + 1) w (by omega) hkey hag
    | some program =>
      have hid : program.id = i := by
        unfold sprinkler_load_program at hl
        cases hnvs : w.nvs_ok
        · simp only [hnvs, Bool.false_eq_true, if_false, reduceCtorEq] at hl
        · cases hg : nvs_get w.nvs_programs i with
          | none => simp only [hnvs, if_true, hg, reduceCtorEq] at hl
          | some z =>
            simp only [hnvs, if_true, hg, Option.some.injEq] at hl
            have := hkey _ (nvs_get_mem _ _ _ hg)
            rw [← hl]
            exact this
      have hstep := ih (i + 1)
        { program_slot_access w program.id with
          sprinkler_data :=
            { w.sprinkler_data with
              programs := w.sprinkler_data.programs.set (program.id - 1) program
              program_count := (w.sprinkler_data.program_count + 1) % 256 } }
        (by omega) hkey
        (by
          intro k hk
          show ((w.sprinkler_data.programs.set (program.id - 1) program).getD k default).id = 0 ∨
            ((w.sprinkler_data.programs.set (program.id - 1) program).getD k default).id = k + 1
          rcases getD_set_cases w.sprinkler_data.programs (program.id - 1) k program default
            with h | ⟨h, h2⟩
          · rw [h]; exact hag k hk
          · right; rw [h2, hid]; omega)
      exact hstep

theorem load_all_slots_agree (w : World) (hkey : records_keyed_by_id w) :
    slots_agree (sprinkler_load_all_data w).1.sprinkler_data := by
  have hz0 : ∀ k, k < MAX_ZONES →
      (((default : sprinkler_data_t)).zones.getD k default).id = 0 ∨
      (((default : sprinkler_data_t)).zones.getD k default).id = k + 1 := by decide
  have hp0 : ∀ k, k < MAX_PROGRAMS →
      (((default : sprinkler_data_t)).programs.getD k default).id = 0 ∨
      (((default : sprinkler_data_t)).programs.getD k default).id = k + 1 := by decide
  obtain ⟨z1, z2, z3, _⟩ := load_zones_loop_agree MAX_ZONES 1 { w with sprinkler_data := {} }
    (le_refl 1) hkey.1 hz0
  obtain ⟨p1, p2⟩ := load_programs_loop_agree MAX_PROGRAMS 1
    (load_zones_loop MAX_ZONES 1 { w with sprinkler_data := {} }) (le_refl 1)
    (by rw [z3]; exact hkey.2)
    (by rw [z2]; exact hp0)
  have hz : (sprinkler_load_all_data w).1.sprinkler_data.zones
      = (load_zones_loop MAX_ZONES 1 { w with sprinkler_data := {} }).sprinkler_data.zones := p2
  refine ⟨?_, p1⟩
  intro k hk
  rw [hz]
  exact z1 k hk

theorem store_step_ids (w : World) (op : store_op) (hop : op.ids_in_range = true) (i : Nat) :
    (((store_step w op).1.sprinkler_data.zones.getD i default).id
        = (w.sprinkler_data.zones.getD i default).id ∨
      ((w.sprinkler_data.zones.getD i default).id = 0 ∧
        ((store_step w op).1.sprinkler_data.zones.getD i default).id = i + 1) ∨
      (((store_step w op).1.sprinkler_data.zones.getD i default).id = 0 ∧
        op = .remove_zone (i + 1))) ∧
    (((store_step w op).1.sprinkler_data.programs.getD i default).id
        = (w.sprinkler_data.programs.getD i default).id ∨
      ((w.sprinkler_data.programs.getD i default).id = 0 ∧
        ((store_step w op).1.sprinkler_data.programs.getD i default).id = i + 1) ∨
      (((store_step w op).1.sprinkler_data.programs.getD i default).id = 0 ∧
        op = .remove_program (i + 1))) := by
  cases op with
  | create_or_update_zone zone_id name output =>
    simp only [store_step]
    by_cases hz : zone_id = 0
    · subst hz
      obtain ⟨h1, h2⟩ := create_zone_fills_free_slot w name output i
      refine ⟨?_, Or.inl (by rw [h2])⟩
      rcases h1 with h | h
      · exact Or.inl h
      · exact Or.inr (Or.inl h)
    · obtain ⟨h1, h2⟩ := update_zone_keeps_zone_ids w zone_id name output hz i
      exact ⟨Or.inl h1, Or.inl (by rw [h2])⟩
  | remove_zone zone_id =>
    simp only [store_step]
    have hr : 1 ≤ zone_id := by
      simp only [store_op.ids_in_range, decide_eq_true_eq] at hop
      exact hop.1
    obtain ⟨h1, h2⟩ := remove_zone_clears_its_slot w zone_id hr i
    refine ⟨?_, Or.inl h2⟩
    rcases h1 with h | ⟨h, h3⟩
    · exact Or.inl h
    · exact Or.inr (Or.inr ⟨h, by rw [h3]⟩)
  | enable_zone zone_id is_enabled =>
    simp only [store_step]
    obtain ⟨h1, h2⟩ := enable_zone_keeps_zone_ids w zone_id is_enabled i
    exact ⟨Or.inl h1, Or.inl (by rw [h2])⟩
  | create_or_update_program program_id name days start_hour start_minute zones zone_count =>
    simp only [store_step]
    by_cases hz : program_id = 0
    · subst hz
      obtain ⟨h1, h2⟩ := create_program_fills_free_slot w name days start_hour start_minute
        zones zone_count i
      refine ⟨Or.inl (by rw [h2]), ?_⟩
      rcases h1 with h | h
      · exact Or.inl h
      · exact Or.inr (Or.inl h)
    · obtain ⟨h1, h2⟩ := update_program_keeps_program_ids w program_id name days start_hour
        start_minute zones zone_count hz i
      exact ⟨Or.inl (by rw [h2]), Or.inl h1⟩
  | remove_program program_id =>
    simp only [store_step]
    have hr : 1 ≤ program_id := by
      simp only [store_op.ids_in_range, decide_eq_true_eq] at hop
      exact hop.1
    obtain ⟨h1, h2⟩ := remove_program_clears_its_slot w program_id hr i
    refine ⟨Or.inl (by rw [h2]), ?_⟩
    rcases h1 with h | ⟨h, h3⟩
    · exact Or.inl h
    · exact Or.inr (Or.inr ⟨h, by rw [h3]⟩)
  | enable_program program_id is_enabled =>
    simp only [store_step]
    obtain ⟨h1, h2⟩ := enable_program_keeps_program_ids w program_id is_enabled i
    exact ⟨Or.inl (by rw [h2]), Or.inl h1⟩
  | add_zone_to_program program_id zone_id duration order =>
    simp only [store_step]
    obtain ⟨h1, h2⟩ := add_zone_keeps_program_ids w program_id zone_id duration order i
    exact ⟨Or.inl (by rw [h2]), Or.inl h1⟩
  | update_zone_status zone_id turn_on =>
    simp only [store_step]
    obtain ⟨h1, h2⟩ := update_zone_status_keeps_zone_ids w zone_id turn_on i
    exact ⟨Or.inl h1, Or.inl (by rw [h2])⟩
  | update_program_next_run program_id =>
    simp only [store_step]
    obtain ⟨h1, h2⟩ := update_program_next_run_keeps_ids w program_id i
    exact ⟨Or.inl (by rw [h2]), Or.inl h1⟩
  | update_program_last_run program_id =>
    simp only [store_step]
    obtain ⟨h1, h2⟩ := update_program_last_run_keeps_ids w program_id i
    exact ⟨Or.inl (by rw [h2]), Or.inl h1⟩

theorem store_step_slots_agree (w : World) (op : store_op) (hop : op.ids_in_range = true)
    (hag : slots_agree w.sprinkler_data) : slots_agree (store_step w op).1.sprinkler_data := by
  refine ⟨fun i hi => ?_, fun i hi => ?_⟩
  · rcases (store_step_ids w op hop i).1 with h | ⟨_, h⟩ | ⟨h, _⟩
    · rw [h]; exact hag.1 i hi
    · exact Or.inr h
    · exact Or.inl h
  · rcases (store_step_ids w op hop i).2 with h | ⟨_, h⟩ | ⟨h, _⟩
    · rw [h]; exact hag.2 i hi
    · exact Or.inr h
    · exact Or.inl h

theorem store_run_slots_agree (ops : List store_op) :
    ∀ w : World, (∀ op, op ∈ ops → op.ids_in_range = true) → slots_agree w.sprinkler_data →
      slots_agree (store_run w ops).sprinkler_data := by
  induction ops with
  | nil => intro w _ hag; exact hag
  | cons op rest ih =>
    intro w hops hag
    have h1 := store_step_slots_agree w op (hops op (List.mem_cons_self _ _)) hag
    exact ih (store_step w op).1 (fun o ho => hops o (List.mem_cons_of_mem _ ho)) h1

/-- C36. Slot/id agreement is an invariant of the store. Starting from
`sprinkler_load_all_data` over persisted records that carry the id of their key (as the
store writes them), or from any store in which zone slot `i` and program slot `i` hold id
0 or `i + 1`, every sequence of store operations with ids in range leads to a store in
which every zone slot `i` and every program slot `i` holds id 0 or `i + 1`; and a single
operation changes the id of an occupied zone (program) slot only when it is the removal
of that zone (program) id. -/
theorem slot_id_agreement_is_invariant (w : World) (ops : List store_op)
    (hops : ∀ op, op ∈ ops → op.ids_in_range = true) :
    (records_keyed_by_id w →
      slots_agree (store_run (sprinkler_load_all_data w).1 ops).sprinkler_data) ∧
    (slots_agree w.sprinkler_data → slots_agree (store_run w ops).sprinkler_data) ∧
    (∀ op, op.ids_in_range = true → slots_agree w.sprinkler_data →
      (∀ i, i < MAX_ZONES → (w.sprinkler_data.zones.getD i default).id ≠ 0 →
        op ≠ .remove_zone (w.sprinkler_data.zones.getD i default).id →
        ((store_step w op).1.sprinkler_data.zones.getD i default).id
          = (w.sprinkler_data.zones.getD i default).id) ∧
      (∀ i, i < MAX_PROGRAMS → (w.sprinkler_data.programs.getD i default).id ≠ 0 →
        op ≠ .remove_program (w.sprinkler_data.programs.getD i default).id →
        ((store_step w op).1.sprinkler_data.programs.getD i default).id
          = (w.sprinkler_data.programs.getD i default).id)) := by
  refine ⟨fun hkey => store_run_slots_agree ops _ hops (load_all_slots_agree w hkey),
    fun hag => store_run_slots_agree ops w hops hag, fun op hop hag => ⟨?_, ?_⟩⟩
  · intro i hi hocc hne
    rcases (store_step_ids w op hop i).1 with h | ⟨h, _⟩ | ⟨_, h⟩
    · exact h
    · exact absurd h hocc
    · rcases hag.1 i hi with h0 | h1
      · exact absurd h0 hocc
      · rw [h1] at hne
        exact absurd h hne
  · intro i hi hocc hne
    rcases (store_step_ids w op hop i).2 with h | ⟨h, _⟩ | ⟨_, h⟩
    · exact h
    · exact absurd h hocc
    · rcases hag.2 i hi with h0 | h1
      · exact absurd h0 hocc
      · rw [h1] at hne
        exact absurd h hne

/-- Instance of C36: from the empty persistence, zone 1, program 1 and program 2 are
created and program 1 is removed; program 2 stays in slot 1. -/
theorem slot_id_agreement_is_invariant_witness :
    (∀ op, op ∈ [store_op.create_or_update_zone 0 [65] 4,
        store_op.create_or_update_program 0 [80] 2 6 0 [] 0,
        store_op.create_or_update_program 0 [81] 2 7 0
          [{ zone_id := 1, duration := 10, order := 0 }] 1,
        store_op.remove_program 1] → op.ids_in_range = true) ∧
    slots_agree (store_run (sprinkler_load_all_data { now := 463500 }).1
      [store_op.create_or_update_zone 0 [65] 4,
        store_op.create_or_update_program 0 [80] 2 6 0 [] 0,
        store_op.create_or_update_program 0 [81] 2 7 0
          [{ zone_id := 1, duration := 10, order := 0 }] 1,
        store_op.remove_program 1]).sprinkler_data ∧
    ((store_run (sprinkler_load_all_data { now := 463500 }).1
      [store_op.create_or_update_zone 0 [65] 4,
        store_op.create_or_update_program 0 [80] 2 6 0 [] 0,
        store_op.create_or_update_program 0 [81] 2 7 0
          [{ zone_id := 1, duration := 10, order := 0 }] 1,
        store_op.remove_program 1]).sprinkler_data.programs.map (fun p => p.id))
      = [0, 2, 0, 0] :=
  ⟨by decide,
    (slot_id_agreement_is_invariant { now := 463500 } _ (by decide)).1
      ⟨fun e h => absurd h (List.not_mem_nil e), fun e h => absurd h (List.not_mem_nil e)⟩,
    by decide⟩

theorem program_next_run_eta (p : program_t) : ({ p with next_run := p.next_run } : program_t) = p := by
  cases p; rfl

theorem update_all_loop_spec :
    ∀ n i (w : World),
      ((update_all_programs_next_run_loop n i w).now = w.now ∧
        (update_all_programs_next_run_loop n i w).mutex_free = w.mutex_free ∧
        (update_all_programs_next_run_loop n i w).sprinkler_data.zones = w.sprinkler_data.zones ∧
        (update_all_programs_next_run_loop n i w).exec_state = w.exec_state ∧
        (update_all_programs_next_run_loop n i w).gpio_high = w.gpio_high ∧
        (update_all_programs_next_run_loop n i w).zone_timer = w.zone_timer ∧
        (update_all_programs_next_run_loop n i w).controller_running = w.controller_running ∧
        (update_all_programs_next_run_loop n i w).execution_queue = w.execution_queue) ∧
      ∀ k, (update_all_programs_next_run_loop n i w).sprinkler_data.programs.getD k default
        = if i ≤ k ∧ k < i + n ∧ (w.sprinkler_data.programs.getD k default).id ≠ 0 ∧
              (w.sprinkler_data.programs.getD k default).enabled = true
          then { w.sprinkler_data.programs.getD k default with
                 next_run := calculate_next_run w.now
                   (w.sprinkler_data.programs.getD k default).schedule.days
                   (w.sprinkler_data.programs.getD k default).schedule.start_hour
                   (w.sprinkler_data.programs.getD k default).schedule.start_minute }
          else w.sprinkler_data.programs.getD k default := by
  intro n
  induction n with
  | zero =>
    intro i w
    refine ⟨⟨rfl, rfl, rfl, rfl, rfl, rfl, rfl, rfl⟩, fun k => ?_⟩
    have hc : ¬ (i ≤ k ∧ k < i + 0 ∧ (w.sprinkler_data.programs.getD k default).id ≠ 0 ∧
        (w.sprinkler_data.programs.getD k default).enabled = true) := by
      intro h; omega
    rw [if_neg hc]
    rfl
  | succ n ih =>
    intro i w
    by_cases hskip : (w.sprinkler_data.programs.getD i default).id = 0 ∨
        (w.sprinkler_data.programs.getD i default).enabled = false
    · have hstep : update_all_programs_next_run_loop (n + 1) i w
          = update_all_programs_next_run_loop n (i + 1) w := by
        simp only [update_all_programs_next_run_loop, hskip, if_true]
      rw [hstep]
      obtain ⟨hfr, hp⟩ := ih (i + 1) w
      refine ⟨hfr, fun k => ?_⟩
      rw [hp k]
      by_cases hk : k = i
      · subst hk
        have h1 : ¬ (k + 1 ≤ k ∧ k < k + 1 + n ∧
            (w.sprinkler_data.programs.getD k default).id ≠ 0 ∧
            (w.sprinkler_data.programs.getD k default).enabled = true) := by
          intro h; omega
        have h2 : ¬ (k ≤ k ∧ k < k + (n + 1) ∧
            (w.sprinkler_data.programs.getD k default).id ≠ 0 ∧
            (w.sprinkler_data.programs.getD k default).enabled = true) := by
          rintro ⟨_, _, h3, h4⟩
          rcases hskip with h | h
          · exact h3 h
          · rw [h] at h4; exact Bool.noConfusion h4
        rw [if_neg h1, if_neg h2]
      · have hiff : (i + 1 ≤ k ∧ k < i + 1 + n ∧
            (w.sprinkler_data.programs.getD k default).id ≠ 0 ∧
            (w.sprinkler_data.programs.getD k default).enabled = true) ↔
            (i ≤ k ∧ k < i + (n + 1) ∧
            (w.sprinkler_data.programs.getD k default).id ≠ 0 ∧
            (w.sprinkler_data.programs.getD k default).enabled = true) := by
          constructor
          · rintro ⟨a, b, c⟩; exact ⟨by omega, by omega, c⟩
          · rintro ⟨a, b, c⟩; exact ⟨by omega, by omega, c⟩
        simp only [hiff]
    · have hid : (w.sprinkler_data.programs.getD i default).id ≠ 0 := fun h => hskip (Or.inl h)
      have hen : (w.sprinkler_data.programs.getD i default).enabled = true := by
        cases h : (w.sprinkler_data.programs.getD i default).enabled
        · exact absurd (Or.inr h) hskip
        · rfl
      have hilt : i < w.sprinkler_data.programs.length := by
        by_contra hge
        apply hid
        rw [List.getD_eq_default _ _ (by omega)]
        rfl
      by_cases hsame : (w.sprinkler_data.programs.getD i default).next_run
          = calculate_next_run w.now
              (w.sprinkler_data.programs.getD i default).schedule.days
              (w.sprinkler_data.programs.getD i default).schedule.start_hour
              (w.sprinkler_data.programs.getD i default).schedule.start_minute
      · have hstep : update_all_programs_next_run_loop (n + 1) i w
            = update_all_programs_next_run_loop n (i + 1) w := by
          simp only [update_all_programs_next_run_loop, hskip, if_false, ne_eq, hsame,
            not_true_eq_false]
        rw [hstep]
        obtain ⟨hfr, hp⟩ := ih (i + 1) w
        refine ⟨hfr, fun k => ?_⟩
        rw [hp k]
        by_cases hk : k = i
        · subst hk
          have h1 : ¬ (k + 1 ≤ k ∧ k < k + 1 + n ∧
              (w.sprinkler_data.programs.getD k default).id ≠ 0 ∧
              (w.sprinkler_data.programs.getD k default).enabled = true) := by
            intro h; omega
          have h2 : (k ≤ k ∧ k < k + (n + 1) ∧
              (w.sprinkler_data.programs.getD k default).id ≠ 0 ∧
              (w.sprinkler_data.programs.getD k default).enabled = true) :=
            ⟨le_refl _, by omega, hid, hen⟩
          rw [if_neg h1, if_pos h2, ← hsame, program_next_run_eta]
        · have hiff : (i + 1 ≤ k ∧ k < i + 1 + n ∧
              (w.sprinkler_data.programs.getD k default).id ≠ 0 ∧
              (w.sprinkler_data.programs.getD k default).enabled = true) ↔
              (i ≤ k ∧ k < i + (n + 1) ∧
              (w.sprinkler_data.programs.getD k default).id ≠ 0 ∧
              (w.sprinkler_data.programs.getD k default).enabled = true) := by
            constructor
            · rintro ⟨a, b, c⟩; exact ⟨by omega, by omega, c⟩
            · rintro ⟨a, b, c⟩; exact ⟨by omega, by omega, c⟩
          simp only [hiff]
      · have hstep : update_all_programs_next_run_loop (n + 1) i w
            = update_all_programs_next_run_loop n (i + 1)
                (sprinkler_save_program
                  (set_program w i
                    { w.sprinkler_data.programs.getD i default with
                      next_run := calculate_next_run w.now
                        (w.sprinkler_data.programs.getD i default).schedule.days
                        (w.sprinkler_data.programs.getD i default).schedule.start_hour
                        (w.sprinkler_data.programs.getD i default).schedule.start_minute })
                  { w.sprinkler_data.programs.getD i default with
                    next_run := calculate_next_run w.now
                      (w.sprinkler_data.programs.getD i default).schedule.days
                      (w.sprinkler_data.programs.getD i default).schedule.start_hour
                      (w.sprinkler_data.programs.getD i default).schedule.start_minute }).1 := by
          simp only [update_all_programs_next_run_loop, hskip, if_false, ne_eq, hsame,
            not_false_eq_true, if_true]
        rw [hstep]
        have hw : ∀ p : program_t,
            (sprinkler_save_program (set_program w i p) p).1.now = w.now ∧
            (sprinkler_save_program (set_program w i p) p).1.mutex_free = w.mutex_free ∧
            (sprinkler_save_program (set_program w i p) p).1.sprinkler_data.zones
              = w.sprinkler_data.zones ∧
            (sprinkler_save_program (set_program w i p) p).1.exec_state = w.exec_state ∧
            (sprinkler_save_program (set_program w i p) p).1.gpio_high = w.gpio_high ∧
            (sprinkler_save_program (set_program w i p) p).1.zone_timer = w.zone_timer ∧
            (sprinkler_save_program (set_program w i p) p).1.controller_running
              = w.controller_running ∧
            (sprinkler_save_program (set_program w i p) p).1.execution_queue
              = w.execution_queue ∧
            (sprinkler_save_program (set_program w i p) p).1.sprinkler_data.programs
              = w.sprinkler_data.programs.set i p := by
          intro p
          cases hnvs : w.nvs_ok <;>
          simp only [sprinkler_save_program, set_program, hnvs, Bool.false_eq_true, if_false,
            if_true, and_self]
        obtain ⟨w1, w2, w3, w4, w5, w6, w7, w8, w9⟩ := hw
          { w.sprinkler_data.programs.getD i default with
            next_run := calculate_next_run w.now
              (w.sprinkler_data.programs.getD i default).schedule.days
              (w.sprinkler_data.programs.getD i default).schedule.start_hour
              (w.sprinkler_data.programs.getD i default).schedule.start_minute }
        obtain ⟨⟨f1, f2, f3, f4, f5, f6, f7, f8⟩, hp⟩ := ih (i + 1)
          (sprinkler_save_program
            (set_program w i
              { w.sprinkler_data.programs.getD i default with
                next_run := calculate_next_run w.now
                  (w.sprinkler_data.programs.getD i default).schedule.days
                  (w.sprinkler_data.programs.getD i default).schedule.start_hour
                  (w.sprinkler_data.programs.getD i default).schedule.start_minute })
            { w.sprinkler_data.programs.getD i default with
              next_run := calculate_next_run w.now
                (w.sprinkler_data.programs.getD i default).schedule.days
                (w.sprinkler_data.programs.getD i default).schedule.start_hour
                (w.sprinkler_data.programs.getD i default).schedule.start_minute }).1
        refine ⟨⟨f1.trans w1, f2.trans w2, f3.trans w3, f4.trans w4, f5.trans w5, f6.trans w6,
          f7.trans w7, f8.trans w8⟩, fun k => ?_⟩
        rw [hp k, w9, w1]
        by_cases hk : k = i
        · subst hk
          have h1 : ¬ (k + 1 ≤ k ∧ k < k + 1 + n ∧
              ((w.sprinkler_data.programs.set k
                { w.sprinkler_data.programs.getD k default with
                  next_run := calculate_next_run w.now
                    (w.sprinkler_data.programs.getD k default).schedule.days
                    (w.sprinkler_data.programs.getD k default).schedule.start_hour
                    (w.sprinkler_data.programs.getD k default).schedule.start_minute }).getD k
                default).id ≠ 0 ∧
              ((w.sprinkler_data.programs.set k
                { w.sprinkler_data.programs.getD k default with
                  next_run := calculate_next_run w.now
                    (w.sprinkler_data.programs.getD k default).schedule.days
                    (w.sprinkler_data.programs.getD k default).schedule.start_hour
                    (w.sprinkler_data.programs.getD k default).schedule.start_minute }).getD k
                default).enabled = true) := by
            intro h; omega
          have h2 : (k ≤ k ∧ k < k + (n + 1) ∧
              (w.sprinkler_data.programs.getD k default).id ≠ 0 ∧
              (w.sprinkler_data.programs.getD k default).enabled = true) :=
            ⟨le_refl _, by omega, hid, hen⟩
          rw [if_neg h1, if_pos h2, getD_set_self _ _ _ _ hilt]
        · have hne : i ≠ k := fun h => hk h.symm
          rw [getD_set_ne _ _ _ _ _ hne]
          have hiff : (i + 1 ≤ k ∧ k < i + 1 + n ∧
              (w.sprinkler_data.programs.getD k default).id ≠ 0 ∧
              (w.sprinkler_data.programs.getD k default).enabled = true) ↔
              (i ≤ k ∧ k < i + (n + 1) ∧
              (w.sprinkler_data.programs.getD k default).id ≠ 0 ∧
              (w.sprinkler_data.programs.getD k default).enabled = true) := by
            constructor
            · rintro ⟨a, b, c⟩; exact ⟨by omega, by omega, c⟩
            · rintro ⟨a, b, c⟩; exact ⟨by omega, by omega, c⟩
          simp only [hiff]

theorem control_zone_store_frame (w : World) (z : Nat) (b : Bool) :
    (control_zone w z b).1.sprinkler_data.programs = w.sprinkler_data.programs ∧
    (control_zone w z b).1.now = w.now ∧
    (control_zone w z b).1.mutex_free = w.mutex_free ∧
    (control_zone w z b).1.exec_state.current_program_id = w.exec_state.current_program_id ∧
    (control_zone w z b).1.exec_state.current_zone_index = w.exec_state.current_zone_index ∧
    (control_zone w z b).1.controller_running = w.controller_running := by
  by_cases hg : z > MAX_ZONES ∨ z = 0
  · simp only [control_zone, hg, if_true, and_self]
  · cases hm : w.mutex_free
    · simp only [control_zone, hg, if_false, safe_sprinklerdata_operation, hm,
        Bool.false_eq_true, reduceCtorEq, and_self]
    · by_cases hocc : (w.sprinkler_data.zones.getD (z - 1) default).id = 0
      · simp only [control_zone, hg, if_false, safe_sprinklerdata_operation, hm, if_true,
          update_gpio_state, hocc, reduceCtorEq, and_self]
      · cases hnvs : w.nvs_ok <;> cases b <;>
        simp only [control_zone, hg, if_false, safe_sprinklerdata_operation, hm, if_true,
          update_gpio_state, hocc, gpio_set_level, sprinkler_update_zone_status,
          Bool.true_eq_false, Bool.false_eq_true, zone_slot_access, set_zone,
          sprinkler_save_zone, hnvs, and_self]

theorem update_program_last_run_eval (w : World) (P : Nat) (hm : w.mutex_free = true) :
    (sprinkler_update_program_last_run w P).1.sprinkler_data.programs
      = w.sprinkler_data.programs.set (P - 1)
          { w.sprinkler_data.programs.getD (P - 1) default with last_run := w.now } := by
  cases hnvs : w.nvs_ok <;>
  simp only [sprinkler_update_program_last_run, hm, Bool.true_eq_false, if_false,
    program_slot_access, set_program, sprinkler_save_program, hnvs, if_true,
    Bool.false_eq_true]

theorem start_programs (w : World) (hstop : w.controller_running = false)
    (hm : w.mutex_free = true) :
    (sprinkler_controller_start w).2 = ESP_OK ∧
    ((sprinkler_controller_start w).1.sprinkler_data.programs
        = (update_all_programs_next_run_loop MAX_PROGRAMS 0
            { w with controller_running := true }).sprinkler_data.programs ∨
      ∃ pid, (sprinkler_controller_start w).1.sprinkler_data.programs
        = (update_all_programs_next_run_loop MAX_PROGRAMS 0
            { w with controller_running := true }).sprinkler_data.programs.set (pid - 1)
            { (update_all_programs_next_run_loop MAX_PROGRAMS 0
                { w with controller_running := true }).sprinkler_data.programs.getD (pid - 1)
                default with last_run := w.now }) := by
  have h1 : (sprinkler_controller_update_all_next_runs { w with controller_running := true }).1
      = update_all_programs_next_run_loop MAX_PROGRAMS 0 { w with controller_running := true } := by
    simp only [sprinkler_controller_update_all_next_runs, safe_sprinklerdata_operation, hm,
      if_true]
  obtain ⟨⟨l1, l2, _⟩, _⟩ := update_all_loop_spec MAX_PROGRAMS 0
    { w with controller_running := true }
  have l1 : (update_all_programs_next_run_loop MAX_PROGRAMS 0
      { w with controller_running := true }).now = w.now := l1
  have l2 : (update_all_programs_next_run_loop MAX_PROGRAMS 0
      { w with controller_running := true }).mutex_free = true := l2.trans hm
  generalize hW : update_all_programs_next_run_loop MAX_PROGRAMS 0
    { w with controller_running := true } = W at h1 l1 l2 ⊢
  by_cases hres : (check_program_recovery_operation W.sprinkler_data W.now {}).should_resume = true
  · by_cases hfound :
        (executor_get_program_zone_operation W.sprinkler_data
          { program_id := (check_program_recovery_operation W.sprinkler_data W.now {}).program_id
            zone_index :=
              (check_program_recovery_operation W.sprinkler_data W.now {}).zone_index
          }).program_found = true ∧
        (executor_get_program_zone_operation W.sprinkler_data
          { program_id := (check_program_recovery_operation W.sprinkler_data W.now {}).program_id
            zone_index :=
              (check_program_recovery_operation W.sprinkler_data W.now {}).zone_index
          }).zone_enabled = true
    · simp only [sprinkler_controller_start, hstop, Bool.false_eq_true, if_false, h1, l2,
        Bool.true_eq_false, hres, if_true, hfound, and_self, true_and]
      right
      refine ⟨(check_program_recovery_operation W.sprinkler_data W.now {}).program_id, ?_⟩
      rw [update_program_last_run_eval _ _ (by
        show (control_zone _ _ true).1.mutex_free = true
        rw [(control_zone_store_frame _ _ _).2.2.1])]
      show (control_zone _ _ true).1.sprinkler_data.programs.set _
        { (control_zone _ _ true).1.sprinkler_data.programs.getD _ default with
          last_run := (control_zone _ _ true).1.now } = _
      rw [(control_zone_store_frame _ _ _).1, (control_zone_store_frame _ _ _).2.1]
      show W.sprinkler_data.programs.set _
        { W.sprinkler_data.programs.getD _ default with last_run := W.now } = _
      rw [l1]
    · simp only [sprinkler_controller_start, hstop, Bool.false_eq_true, if_false, h1, l2,
        Bool.true_eq_false, hres, if_true, hfound, true_and]
      left
      trivial
  · simp only [sprinkler_controller_start, hstop, Bool.false_eq_true, if_false, h1, l2,
      Bool.true_eq_false, hres, true_and]
    left
    trivial

theorem update_all_at_start (w : World) (k : Nat) (hk : k < MAX_PROGRAMS) :
    (update_all_programs_next_run_loop MAX_PROGRAMS 0
        { w with controller_running := true }).sprinkler_data.programs.getD k default
      = if (w.sprinkler_data.programs.getD k default).id ≠ 0 ∧
            (w.sprinkler_data.programs.getD k default).enabled = true
        then { w.sprinkler_data.programs.getD k default with
               next_run := calculate_next_run w.now
                 (w.sprinkler_data.programs.getD k default).schedule.days
                 (w.sprinkler_data.programs.getD k default).schedule.start_hour
                 (w.sprinkler_data.programs.getD k default).schedule.start_minute }
        else w.sprinkler_data.programs.getD k default := by
  have h := (update_all_loop_spec MAX_PROGRAMS 0 { w with controller_running := true }).2 k
  have h0 : (0 ≤ k) = True := eq_true (Nat.zero_le k)
  have h1 : (k < 0 + MAX_PROGRAMS) = True := eq_true (by omega)
  simp only [h0, h1, true_and] at h
  exact h

/-- C35, counterexample. The controller is stopped, persistence works and programs 1 and
2 (occupied, enabled, Mondays 06:00 and 07:00) hold the stale `next_run` 100, while
another task holds the store lock beyond the timeout: `sprinkler_controller_start`
returns `ESP_OK` with the controller started, and both programs keep `next_run` 100,
which is neither `calculate_next_run` of their schedule (972000 and 975600) nor 0 nor
later than the start time 464400. -/
theorem start_with_store_lock_taken :
    locked_boot_world.controller_running = false ∧
    locked_boot_world.nvs_ok = true ∧
    locked_boot_world.now = 464400 ∧
    ((locked_boot_world.sprinkler_data.programs.getD 0 default).id = 1 ∧
      (locked_boot_world.sprinkler_data.programs.getD 0 default).enabled = true ∧
      (locked_boot_world.sprinkler_data.programs.getD 1 default).id = 2 ∧
      (locked_boot_world.sprinkler_data.programs.getD 1 default).enabled = true) ∧
    (sprinkler_controller_start locked_boot_world).2 = ESP_OK ∧
    (sprinkler_controller_start locked_boot_world).1.controller_running = true ∧
    next_run_of (sprinkler_controller_start locked_boot_world).1 1 = 100 ∧
    next_run_of (sprinkler_controller_start locked_boot_world).1 2 = 100 ∧
    calculate_next_run locked_boot_world.now
      (locked_boot_world.sprinkler_data.programs.getD 0 default).schedule.days
      (locked_boot_world.sprinkler_data.programs.getD 0 default).schedule.start_hour
      (locked_boot_world.sprinkler_data.programs.getD 0 default).schedule.start_minute
      = 972000 ∧
    calculate_next_run locked_boot_world.now
      (locked_boot_world.sprinkler_data.programs.getD 1 default).schedule.days
      (locked_boot_world.sprinkler_data.programs.getD 1 default).schedule.start_hour
      (locked_boot_world.sprinkler_data.programs.getD 1 default).schedule.start_minute
      = 975600 := by
  decide

/-- C35, amended. With the store lock available: `sprinkler_controller_start` on a started
controller returns `ESP_ERR_INVALID_STATE` and changes nothing; on a stopped controller
it returns `ESP_OK` and every program slot keeps all its fields except that `next_run` of
an occupied enabled program is `calculate_next_run` of its schedule at the start time
(for a 7-bit day mask and a valid start time: 0 or strictly later than the start time),
the `next_run` of the other programs being unchanged, and that `last_run` of at most one
slot, the one of the resumed program, is set to the start time. -/
theorem start_recomputes_next_run_of_enabled_programs (w : World)
    (hm : w.mutex_free = true) :
    (w.controller_running = true →
      sprinkler_controller_start w = (w, ESP_ERR_INVALID_STATE)) ∧
    (w.controller_running = false →
      (sprinkler_controller_start w).2 = ESP_OK ∧
      (∃ r : Option Nat, ∀ k, k < MAX_PROGRAMS →
        (sprinkler_controller_start w).1.sprinkler_data.programs.getD k default
          = { w.sprinkler_data.programs.getD k default with
              next_run :=
                if (w.sprinkler_data.programs.getD k default).id ≠ 0 ∧
                    (w.sprinkler_data.programs.getD k default).enabled = true
                then calculate_next_run w.now
                  (w.sprinkler_data.programs.getD k default).schedule.days
                  (w.sprinkler_data.programs.getD k default).schedule.start_hour
                  (w.sprinkler_data.programs.getD k default).schedule.start_minute
                else (w.sprinkler_data.programs.getD k default).next_run
              last_run :=
                if r = some k then w.now
                else (w.sprinkler_data.programs.getD k default).last_run }) ∧
      (∀ k, k < MAX_PROGRAMS →
        (w.sprinkler_data.programs.getD k default).id ≠ 0 →
        (w.sprinkler_data.programs.getD k default).enabled = true →
        (w.sprinkler_data.programs.getD k default).schedule.days < 128 →
        (w.sprinkler_data.programs.getD k default).schedule.start_hour < 24 →
        (w.sprinkler_data.programs.getD k default).schedule.start_minute < 60 →
        ((sprinkler_controller_start w).1.sprinkler_data.programs.getD k default).next_run = 0 ∨
        w.now < ((sprinkler_controller_start w).1.sprinkler_data.programs.getD k
          default).next_run)) := by
  refine ⟨fun hrun => ?_, fun hstop => ?_⟩
  · simp only [sprinkler_controller_start, hrun, if_true]
  · obtain ⟨hok, hprog⟩ := start_programs w hstop hm
    have hform : ∀ (k : Nat) (L : Int), k < MAX_PROGRAMS →
        ({ (update_all_programs_next_run_loop MAX_PROGRAMS 0
              { w with controller_running := true }).sprinkler_data.programs.getD k default with
            last_run := L } : program_t)
          = { w.sprinkler_data.programs.getD k default with
              next_run :=
                if (w.sprinkler_data.programs.getD k default).id ≠ 0 ∧
                    (w.sprinkler_data.programs.getD k default).enabled = true
                then calculate_next_run w.now
                  (w.sprinkler_data.programs.getD k default).schedule.days
                  (w.sprinkler_data.programs.getD k default).schedule.start_hour
                  (w.sprinkler_data.programs.getD k default).schedule.start_minute
                else (w.sprinkler_data.programs.getD k default).next_run
              last_run := L } := by
      intro k L hk
      rw [update_all_at_start w k hk]
      by_cases hc : (w.sprinkler_data.programs.getD k default).id ≠ 0 ∧
          (w.sprinkler_data.programs.getD k default).enabled = true
      · rw [if_pos hc, if_pos hc]
      · rw [if_neg hc, if_neg hc]
    have hsame : ∀ k, k < MAX_PROGRAMS →
        (update_all_programs_next_run_loop MAX_PROGRAMS 0
            { w with controller_running := true }).sprinkler_data.programs.getD k default
          = { w.sprinkler_data.programs.getD k default with
              next_run :=
                if (w.sprinkler_data.programs.getD k default).id ≠ 0 ∧
                    (w.sprinkler_data.programs.getD k default).enabled = true
                then calculate_next_run w.now
                  (w.sprinkler_data.programs.getD k default).schedule.days
                  (w.sprinkler_data.programs.getD k default).schedule.start_hour
                  (w.sprinkler_data.programs.getD k default).schedule.start_minute
                else (w.sprinkler_data.programs.getD k default).next_run
              last_run := (w.sprinkler_data.programs.getD k default).last_run } := by
      intro k hk
      rw [update_all_at_start w k hk]
      by_cases hc : (w.sprinkler_data.programs.getD k default).id ≠ 0 ∧
          (w.sprinkler_data.programs.getD k default).enabled = true
      · rw [if_pos hc, if_pos hc]
      · rw [if_neg hc, if_neg hc]
    have hex : ∃ r : Option Nat, ∀ k, k < MAX_PROGRAMS →
        (sprinkler_controller_start w).1.sprinkler_data.programs.getD k default
          = { w.sprinkler_data.programs.getD k default with
              next_run :=
                if (w.sprinkler_data.programs.getD k default).id ≠ 0 ∧
                    (w.sprinkler_data.programs.getD k default).enabled = true
                then calculate_next_run w.now
                  (w.sprinkler_data.programs.getD k default).schedule.days
                  (w.sprinkler_data.programs.getD k default).schedule.start_hour
                  (w.sprinkler_data.programs.getD k default).schedule.start_minute
                else (w.sprinkler_data.programs.getD k default).next_run
              last_run :=
                if r = some k then w.now
                else (w.sprinkler_data.programs.getD k default).last_run } := by
      rcases hprog with hp | ⟨pid, hp⟩
      · refine ⟨none, fun k hk => ?_⟩
        have hn : ¬ ((none : Option Nat) = some k) := fun h => Option.noConfusion h
        rw [hp, hsame k hk, if_neg hn]
      · by_cases hlen : pid - 1 < (update_all_programs_next_run_loop MAX_PROGRAMS 0
            { w with controller_running := true }).sprinkler_data.programs.length
        · refine ⟨some (pid - 1), fun k hk => ?_⟩
          rw [hp]
          by_cases hkp : pid - 1 = k
          · rw [if_pos (by rw [hkp])]
            rw [← hkp, getD_set_self _ _ _ _ hlen, hform (pid - 1) _ (by omega)]
          · rw [if_neg (by intro h; exact hkp (Option.some.inj h))]
            rw [getD_set_ne _ _ _ _ _ hkp, hsame k hk]
        · refine ⟨none, fun k hk => ?_⟩
          have hn : ¬ ((none : Option Nat) = some k) := fun h => Option.noConfusion h
          rw [hp, List.set_eq_of_length_le (by omega), hsame k hk, if_neg hn]
    refine ⟨hok, hex, ?_⟩
    intro k hk hid hen hd hh hmin
    obtain ⟨r, hr⟩ := hex
    rw [hr k hk]
    show (if (w.sprinkler_data.programs.getD k default).id ≠ 0 ∧
        (w.sprinkler_data.programs.getD k default).enabled = true then _ else _) = 0 ∨
      w.now < (if (w.sprinkler_data.programs.getD k default).id ≠ 0 ∧
        (w.sprinkler_data.programs.getD k default).enabled = true then _ else _)
    rw [if_pos ⟨hid, hen⟩]
    by_cases hz : (w.sprinkler_data.programs.getD k default).schedule.days = 0
    · left
      rw [hz]
      exact calculate_next_run_empty_mask _ _ _
    · right
      exact calculate_next_run_gt _ _ _ _ (by omega) hd hh hmin

/-- Instance of C35: the stopped controller of the engine scenario is started on Tuesday
09:00; program 1 (Mondays 06:00) gets the next Monday 06:00 as `next_run`. -/
theorem start_recomputes_next_run_of_enabled_programs_witness :
    ((boot_world 464400 0).mutex_free = true ∧
      (boot_world 464400 0).controller_running = false) ∧
    (sprinkler_controller_start (boot_world 464400 0)).2 = ESP_OK ∧
    (((sprinkler_controller_start (boot_world 464400 0)).1.sprinkler_data.programs.getD 0
        default).next_run = 0 ∨
      (boot_world 464400 0).now
        < ((sprinkler_controller_start (boot_world 464400 0)).1.sprinkler_data.programs.getD 0
            default).next_run) ∧
    next_run_of (sprinkler_controller_start (boot_world 464400 0)).1 1 = 972000 ∧
    ((started_world 464400 0 []).mutex_free = true ∧
      (started_world 464400 0 []).controller_running = true) ∧
    sprinkler_controller_start (started_world 464400 0 [])
      = (started_world 464400 0 [], ESP_ERR_INVALID_STATE) :=
  ⟨⟨by decide, by decide⟩,
    ((start_recomputes_next_run_of_enabled_programs (boot_world 464400 0) (by decide)).2
      (by decide)).1,
    ((start_recomputes_next_run_of_enabled_programs (boot_world 464400 0) (by decide)).2
      (by decide)).2.2 0 (by decide) (by decide) (by decide) (by decide) (by decide)
      (by decide),
    by decide,
    ⟨by decide, by decide⟩,
    (start_recomputes_next_run_of_enabled_programs (started_world 464400 0 [])
      (by decide)).1 (by decide)⟩

theorem zone_ref_enabled_congr (data data2 : sprinkler_data_t) (pz : program_zone_t)
    (hz : data2.zones = data.zones) : zone_ref_enabled data2 pz = zone_ref_enabled data pz := by
  simp only [zone_ref_enabled, hz]

theorem enabled_minutes_before_congr (data data2 : sprinkler_data_t) (p p2 : program_t)
    (hz : data2.zones = data.zones) (hp : p2.zones = p.zones) :
    ∀ n, enabled_minutes_before data2 p2 n = enabled_minutes_before data p n := by
  intro n
  induction n with
  | zero => rfl
  | succ n ih =>
    simp only [enabled_minutes_before, enabled_minutes, ih, hp,
      zone_ref_enabled_congr data data2 _ hz]

theorem in_recovery_window_congr (data data2 : sprinkler_data_t) (now : Int) (p p2 : program_t)
    (hz : data2.zones = data.zones) (hzs : p2.zones = p.zones) (hid : p2.id = p.id)
    (hen : p2.enabled = p.enabled) (hs : p2.schedule = p.schedule)
    (hc : p2.zone_count = p.zone_count) :
    in_recovery_window data2 now p2 ↔ in_recovery_window data now p := by
  simp only [in_recovery_window, program_start_today, hid, hen, hs, hc,
    enabled_minutes_before_congr data data2 p p2 hz hzs]

theorem update_all_at_start_fields (w : World) (k : Nat) (hk : k < MAX_PROGRAMS) :
    ((update_all_programs_next_run_loop MAX_PROGRAMS 0
        { w with controller_running := true }).sprinkler_data.programs.getD k default).id
      = (w.sprinkler_data.programs.getD k default).id ∧
    ((update_all_programs_next_run_loop MAX_PROGRAMS 0
        { w with controller_running := true }).sprinkler_data.programs.getD k default).enabled
      = (w.sprinkler_data.programs.getD k default).enabled ∧
    ((update_all_programs_next_run_loop MAX_PROGRAMS 0
        { w with controller_running := true }).sprinkler_data.programs.getD k default).schedule
      = (w.sprinkler_data.programs.getD k default).schedule ∧
    ((update_all_programs_next_run_loop MAX_PROGRAMS 0
        { w with controller_running := true }).sprinkler_data.programs.getD k default).zones
      = (w.sprinkler_data.programs.getD k default).zones ∧
    ((update_all_programs_next_run_loop MAX_PROGRAMS 0
        { w with controller_running := true }).sprinkler_data.programs.getD k default).zone_count
      = (w.sprinkler_data.programs.getD k default).zone_count := by
  rw [update_all_at_start w k hk]
  split <;> exact ⟨rfl, rfl, rfl, rfl, rfl⟩

theorem control_zone_on_current_zone (w : World) (z : Nat)
    (hcz : w.exec_state.current_zone_id = z) :
    (control_zone w z true).1.exec_state.current_zone_id = z := by
  by_cases hg : z > MAX_ZONES ∨ z = 0
  · simp only [control_zone, hg, if_true, hcz]
  · cases hm : w.mutex_free
    · simp only [control_zone, hg, if_false, safe_sprinklerdata_operation, hm,
        Bool.false_eq_true, reduceCtorEq, hcz]
    · by_cases hocc : (w.sprinkler_data.zones.getD (z - 1) default).id = 0
      · simp only [control_zone, hg, if_false, safe_sprinklerdata_operation, hm, if_true,
          update_gpio_state, hocc, reduceCtorEq, hcz]
      · cases hnvs : w.nvs_ok <;>
        simp only [control_zone, hg, if_false, safe_sprinklerdata_operation, hm, if_true,
          update_gpio_state, hocc, gpio_set_level, sprinkler_update_zone_status,
          Bool.true_eq_false, Bool.false_eq_true, zone_slot_access, set_zone,
          sprinkler_save_zone, hnvs]

theorem update_program_last_run_frame (w : World) (P : Nat) :
    (sprinkler_update_program_last_run w P).1.exec_state = w.exec_state ∧
    (sprinkler_update_program_last_run w P).1.zone_timer = w.zone_timer ∧
    (sprinkler_update_program_last_run w P).1.sprinkler_data.zones = w.sprinkler_data.zones := by
  cases hm : w.mutex_free <;> cases hnvs : w.nvs_ok <;>
  simp only [sprinkler_update_program_last_run, hm, Bool.true_eq_false, if_false, if_true,
    program_slot_access, set_program, sprinkler_save_program, hnvs, Bool.false_eq_true,
    and_self]

theorem executor_lookup_at_enabled_index (data : sprinkler_data_t) (pid j : Nat)
    (h1 : 1 ≤ pid) (h2 : pid ≤ MAX_PROGRAMS)
    (hocc : (data.programs.getD (pid - 1) default).id ≠ 0)
    (hj : j < (data.programs.getD (pid - 1) default).zone_count)
    (hen : zone_ref_enabled data ((data.programs.getD (pid - 1) default).zones.getD j default)
      = true) :
    (executor_get_program_zone_operation data { program_id := pid, zone_index := j }).program_found
      = true ∧
    (executor_get_program_zone_operation data { program_id := pid, zone_index := j }).zone_enabled
      = true ∧
    (executor_get_program_zone_operation data { program_id := pid, zone_index := j }).zone_index
      = j ∧
    (executor_get_program_zone_operation data { program_id := pid, zone_index := j }).zone_id
      = ((data.programs.getD (pid - 1) default).zones.getD j default).zone_id ∧
    (executor_get_program_zone_operation data
        { program_id := pid, zone_index := j }).zone_duration_minutes
      = ((data.programs.getD (pid - 1) default).zones.getD j default).duration := by
  have hg : ¬ (pid = 0 ∨ pid > MAX_PROGRAMS) := by omega
  obtain ⟨n, hn⟩ : ∃ n, (data.programs.getD (pid - 1) default).zone_count - j = n + 1 :=
    ⟨(data.programs.getD (pid - 1) default).zone_count - j - 1, by omega⟩
  simp only [executor_get_program_zone_operation, hg, if_false, hocc, hn, executor_find_zone,
    hen, if_true, and_self]

theorem start_resume_state (w : World) (hstop : w.controller_running = false)
    (hm : w.mutex_free = true)
    (hres : (check_program_recovery_operation
      (update_all_programs_next_run_loop MAX_PROGRAMS 0
        { w with controller_running := true }).sprinkler_data w.now {}).should_resume = true)
    (hfound : (executor_get_program_zone_operation
      (update_all_programs_next_run_loop MAX_PROGRAMS 0
        { w with controller_running := true }).sprinkler_data
      { program_id := (check_program_recovery_operation
          (update_all_programs_next_run_loop MAX_PROGRAMS 0
            { w with controller_running := true }).sprinkler_data w.now {}).program_id
        zone_index := (check_program_recovery_operation
          (update_all_programs_next_run_loop MAX_PROGRAMS 0
            { w with controller_running := true }).sprinkler_data w.now {}).zone_index
      }).program_found = true)
    (henabled : (executor_get_program_zone_operation
      (update_all_programs_next_run_loop MAX_PROGRAMS 0
        { w with controller_running := true }).sprinkler_data
      { program_id := (check_program_recovery_operation
          (update_all_programs_next_run_loop MAX_PROGRAMS 0
            { w with controller_running := true }).sprinkler_data w.now {}).program_id
        zone_index := (check_program_recovery_operation
          (update_all_programs_next_run_loop MAX_PROGRAMS 0
            { w with controller_running := true }).sprinkler_data w.now {}).zone_index
      }).zone_enabled = true) :
    (sprinkler_controller_start w).1.exec_state.current_program_id
      = (check_program_recovery_operation
          (update_all_programs_next_run_loop MAX_PROGRAMS 0
            { w with controller_running := true }).sprinkler_data w.now {}).program_id ∧
    (sprinkler_controller_start w).1.exec_state.current_zone_index
      = (check_program_recovery_operation
          (update_all_programs_next_run_loop MAX_PROGRAMS 0
            { w with controller_running := true }).sprinkler_data w.now {}).zone_index ∧
    (sprinkler_controller_start w).1.exec_state.current_zone_id
      = (executor_get_program_zone_operation
          (update_all_programs_next_run_loop MAX_PROGRAMS 0
            { w with controller_running := true }).sprinkler_data
          { program_id := (check_program_recovery_operation
              (update_all_programs_next_run_loop MAX_PROGRAMS 0
                { w with controller_running := true }).sprinkler_data w.now {}).program_id
            zone_index := (check_program_recovery_operation
              (update_all_programs_next_run_loop MAX_PROGRAMS 0
                { w with controller_running := true }).sprinkler_data w.now {}).zone_index
          }).zone_id ∧
    (sprinkler_controller_start w).1.exec_state.zone_duration_seconds
      = ((check_program_recovery_operation
          (update_all_programs_next_run_loop MAX_PROGRAMS 0
            { w with controller_running := true }).sprinkler_data w.now
          {}).remaining_minutes * 60) % 65536 ∧
    (sprinkler_controller_start w).1.zone_timer
      = { period_ms := ((check_program_recovery_operation
            (update_all_programs_next_run_loop MAX_PROGRAMS 0
              { w with controller_running := true }).sprinkler_data w.now
            {}).remaining_minutes * 60) % 65536 * 1000
          active := true } := by
  have h1 : (sprinkler_controller_update_all_next_runs { w with controller_running := true }).1
      = update_all_programs_next_run_loop MAX_PROGRAMS 0 { w with controller_running := true } := by
    simp only [sprinkler_controller_update_all_next_runs, safe_sprinklerdata_operation, hm,
      if_true]
  obtain ⟨⟨l1, l2, _⟩, _⟩ := update_all_loop_spec MAX_PROGRAMS 0
    { w with controller_running := true }
  have l1 : (update_all_programs_next_run_loop MAX_PROGRAMS 0
      { w with controller_running := true }).now = w.now := l1
  have l2 : (update_all_programs_next_run_loop MAX_PROGRAMS 0
      { w with controller_running := true }).mutex_free = true := l2.trans hm
  generalize hW : update_all_programs_next_run_loop MAX_PROGRAMS 0
    { w with controller_running := true } = W at h1 l1 l2 hres hfound henabled ⊢
  rw [← l1] at hres hfound henabled ⊢
  generalize hR : check_program_recovery_operation W.sprinkler_data W.now {} = R
    at hres hfound henabled ⊢
  generalize hO : executor_get_program_zone_operation W.sprinkler_data
    { program_id := R.program_id, zone_index := R.zone_index } = O at hfound henabled ⊢
  have hstart : (sprinkler_controller_start w).1
      = (sprinkler_update_program_last_run
          (timer_change_period_and_start
            (control_zone
              { W with exec_state :=
                { W.exec_state with
                  current_program_id := R.program_id
                  current_zone_index := R.zone_index
                  zone_duration_seconds := (R.remaining_minutes * 60) % 65536
                  current_zone_id := O.zone_id } } O.zone_id true).1
            ((control_zone
              { W with exec_state :=
                { W.exec_state with
                  current_program_id := R.program_id
                  current_zone_index := R.zone_index
                  zone_duration_seconds := (R.remaining_minutes * 60) % 65536
                  current_zone_id := O.zone_id } } O.zone_id
              true).1.exec_state.zone_duration_seconds * 1000))
          R.program_id).1 := by
    simp only [sprinkler_controller_start, hstop, Bool.false_eq_true, if_false, h1, l2,
      Bool.true_eq_false, hR, hres, if_true, hO, hfound, henabled, and_self]
  have hd := control_zone_duration
    { W with exec_state :=
      { W.exec_state with
        current_program_id := R.program_id
        current_zone_index := R.zone_index
        zone_duration_seconds := (R.remaining_minutes * 60) % 65536
        current_zone_id := O.zone_id } } O.zone_id true
  have hf := control_zone_store_frame
    { W with exec_state :=
      { W.exec_state with
        current_program_id := R.program_id
        current_zone_index := R.zone_index
        zone_duration_seconds := (R.remaining_minutes * 60) % 65536
        current_zone_id := O.zone_id } } O.zone_id true
  have hz := control_zone_on_current_zone
    { W with exec_state :=
      { W.exec_state with
        current_program_id := R.program_id
        current_zone_index := R.zone_index
        zone_duration_seconds := (R.remaining_minutes * 60) % 65536
        current_zone_id := O.zone_id } } O.zone_id rfl
  rw [hstart]
  obtain ⟨ue, ut, _⟩ := update_program_last_run_frame
    (timer_change_period_and_start
      (control_zone
        { W with exec_state :=
          { W.exec_state with
            current_program_id := R.program_id
            current_zone_index := R.zone_index
            zone_duration_seconds := (R.remaining_minutes * 60) % 65536
            current_zone_id := O.zone_id } } O.zone_id true).1
      ((control_zone
        { W with exec_state :=
          { W.exec_state with
            current_program_id := R.program_id
            current_zone_index := R.zone_index
            zone_duration_seconds := (R.remaining_minutes * 60) % 65536
            current_zone_id := O.zone_id } } O.zone_id
        true).1.exec_state.zone_duration_seconds * 1000))
    R.program_id
  rw [ue, ut]
  refine ⟨hf.2.2.2.1, hf.2.2.2.2.1, hz, hd, ?_⟩
  show ({ period_ms := _ * 1000, active := true } : timer_t) = _
  rw [hd]

theorem start_resumes_window_slot (w : World) (hstop : w.controller_running = false)
    (hm : w.mutex_free = true) (k : Nat) (hk : k < MAX_PROGRAMS)
    (hid : (w.sprinkler_data.programs.getD k default).id = k + 1)
    (hwin : in_recovery_window w.sprinkler_data w.now (w.sprinkler_data.programs.getD k default))
    (hlow : ∀ i, i < k →
      ¬ in_recovery_window w.sprinkler_data w.now (w.sprinkler_data.programs.getD i default))
    (htot : ∀ i, i < MAX_PROGRAMS →
      enabled_minutes_before w.sprinkler_data (w.sprinkler_data.programs.getD i default)
        (w.sprinkler_data.programs.getD i default).zone_count < 1093)
    (hcnt : (w.sprinkler_data.programs.getD k default).zone_count ≤ MAX_ZONES_PER_PROGRAM) :
    ∃ j remaining,
      j < (w.sprinkler_data.programs.getD k default).zone_count ∧
      zone_ref_enabled w.sprinkler_data
        ((w.sprinkler_data.programs.getD k default).zones.getD j default) = true ∧
      1 ≤ remaining ∧
      remaining ≤ ((w.sprinkler_data.programs.getD k default).zones.getD j default).duration ∧
      w.now + 60 * (remaining : Int)
        = program_start_today w.now (w.sprinkler_data.programs.getD k default)
          + 60 * (enabled_minutes_before w.sprinkler_data
              (w.sprinkler_data.programs.getD k default) (j + 1) : Int)
          + (w.now - program_start_today w.now (w.sprinkler_data.programs.getD k default)) % 60 ∧
      check_program_recovery_operation
          (update_all_programs_next_run_loop MAX_PROGRAMS 0
            { w with controller_running := true }).sprinkler_data w.now {}
        = { should_resume := true, program_id := k + 1, zone_index := j,
            remaining_minutes := remaining } ∧
      (executor_get_program_zone_operation
          (update_all_programs_next_run_loop MAX_PROGRAMS 0
            { w with controller_running := true }).sprinkler_data
          { program_id := k + 1, zone_index := j }).program_found = true ∧
      (executor_get_program_zone_operation
          (update_all_programs_next_run_loop MAX_PROGRAMS 0
            { w with controller_running := true }).sprinkler_data
          { program_id := k + 1, zone_index := j }).zone_enabled = true ∧
      (executor_get_program_zone_operation
          (update_all_programs_next_run_loop MAX_PROGRAMS 0
            { w with controller_running := true }).sprinkler_data
          { program_id := k + 1, zone_index := j }).zone_index = j ∧
      (executor_get_program_zone_operation
          (update_all_programs_next_run_loop MAX_PROGRAMS 0
            { w with controller_running := true }).sprinkler_data
          { program_id := k + 1, zone_index := j }).zone_id
        = ((w.sprinkler_data.programs.getD k default).zones.getD j default).zone_id ∧
      (sprinkler_controller_start w).1.exec_state.current_program_id = k + 1 ∧
      (sprinkler_controller_start w).1.exec_state.current_zone_index = j ∧
      (sprinkler_controller_start w).1.exec_state.current_zone_id
        = ((w.sprinkler_data.programs.getD k default).zones.getD j default).zone_id ∧
      (sprinkler_controller_start w).1.exec_state.zone_duration_seconds = remaining * 60 ∧
      (sprinkler_controller_start w).1.zone_timer
        = { period_ms := remaining * 60 * 1000, active := true } := by
  obtain ⟨⟨_, _, hz, _⟩, _⟩ :=
    update_all_loop_spec MAX_PROGRAMS 0 { w with controller_running := true }
  have hz : (update_all_programs_next_run_loop MAX_PROGRAMS 0
      { w with controller_running := true }).sprinkler_data.zones = w.sprinkler_data.zones := hz
  have hf := update_all_at_start_fields w
  have hS := start_resume_state w hstop hm
  generalize (update_all_programs_next_run_loop MAX_PROGRAMS 0
    { w with controller_running := true }).sprinkler_data = D at hz hf hS ⊢
  have emb_eq : ∀ i, i < MAX_PROGRAMS → ∀ n,
      enabled_minutes_before D (D.programs.getD i default) n
        = enabled_minutes_before w.sprinkler_data (w.sprinkler_data.programs.getD i default) n :=
    fun i hi n => enabled_minutes_before_congr _ _ _ _ hz (hf i hi).2.2.2.1 n
  have hno : ∀ i, i < MAX_PROGRAMS →
      enabled_minutes_before D (D.programs.getD i default)
        (D.programs.getD i default).zone_count < 65536 := by
    intro i hi
    rw [emb_eq i hi, (hf i hi).2.2.2.2]
    have := htot i hi
    omega
  have win_iff : ∀ i, i < MAX_PROGRAMS →
      (in_recovery_window D w.now (D.programs.getD i default) ↔
        in_recovery_window w.sprinkler_data w.now (w.sprinkler_data.programs.getD i default)) :=
    fun i hi => in_recovery_window_congr _ _ _ _ _ hz (hf i hi).2.2.2.1 (hf i hi).1
      (hf i hi).2.1 (hf i hi).2.2.1 (hf i hi).2.2.2.2
  have hwin2 := (win_iff k hk).2 hwin
  have hlow2 : ∀ i, i < k → ¬ in_recovery_window D w.now (D.programs.getD i default) :=
    fun i hi h => hlow i hi ((win_iff i (by omega)).1 h)
  have hrec := (recovery_resume_iff_without_overflow D w.now {} hno).2 k hk hwin2 hlow2
  have hnok := hno k hk
  have hembk := emb_eq k hk
  have htotk := htot k hk
  obtain ⟨fid, _, fs, fzs, fc⟩ := hf k hk
  have hpst : program_start_today w.now (D.programs.getD k default)
      = program_start_today w.now (w.sprinkler_data.programs.getD k default) := by
    simp only [program_start_today, fs]
  have hen_eq : ∀ j, zone_ref_enabled D ((D.programs.getD k default).zones.getD j default)
      = zone_ref_enabled w.sprinkler_data
          ((w.sprinkler_data.programs.getD k default).zones.getD j default) := by
    intro j
    rw [fzs]
    exact zone_ref_enabled_congr _ _ _ hz
  obtain ⟨h1, h2, h3, h4, h5⟩ := hwin2
  have hmatch := check_program_recovery_program_match D w.now _ h1 h2 h3 hnok h4 h5
  have hel : ((w.now - program_start_today w.now (D.programs.getD k default)) / 60).toNat
      < enabled_minutes_before D (D.programs.getD k default)
          (D.programs.getD k default).zone_count := by
    omega
  obtain ⟨j, _, hj2, hj3, hj4, hj5, hj6⟩ :=
    recovery_find_zone_spec D (D.programs.getD k default) _ hnok hel
      (D.programs.getD k default).zone_count 0 (by omega)
      (by simp [enabled_minutes_before])
  have hj6 : recovery_find_zone D (D.programs.getD k default)
      ((w.now - program_start_today w.now (D.programs.getD k default)) / 60).toNat
      (D.programs.getD k default).zone_count 0 0
      = some { should_resume := true
               program_id := (D.programs.getD k default).id
               zone_index := j % 256
               remaining_minutes :=
                 enabled_minutes_before D (D.programs.getD k default) (j + 1)
                   - ((w.now - program_start_today w.now
                        (D.programs.getD k default)) / 60).toNat } := hj6
  rw [← hmatch, hrec] at hj6
  have hR := Option.some.inj hj6
  have hjmod : j % 256 = j := by
    apply Nat.mod_eq_of_lt
    simp only [MAX_ZONES_PER_PROGRAM] at hcnt
    omega
  have hstep : enabled_minutes_before w.sprinkler_data
      (w.sprinkler_data.programs.getD k default) (j + 1)
      = enabled_minutes_before w.sprinkler_data (w.sprinkler_data.programs.getD k default) j
        + ((w.sprinkler_data.programs.getD k default).zones.getD j default).duration := by
    have he := hen_eq j
    rw [hj3] at he
    simp only [enabled_minutes_before, enabled_minutes, ← he, if_true]
  have hmono : enabled_minutes_before w.sprinkler_data
      (w.sprinkler_data.programs.getD k default) (j + 1)
      ≤ enabled_minutes_before w.sprinkler_data (w.sprinkler_data.programs.getD k default)
          (w.sprinkler_data.programs.getD k default).zone_count :=
    enabled_minutes_before_mono _ _ _ _ (by omega)
  rw [hjmod, fid, hid, hembk, hpst] at hR
  rw [hen_eq] at hj3
  rw [hembk, hpst] at hj4 hj5
  rw [hpst] at h4
  rw [fc] at hj2
  have hk1 : k + 1 - 1 = k := by omega
  have hL := executor_lookup_at_enabled_index D (k + 1) j (by omega) (by omega)
  rw [hk1, fid, fc, hen_eq] at hL
  obtain ⟨l1, l2, l3, l4, _⟩ := hL (by omega) hj2 hj3
  rw [fzs] at l4
  rw [hR] at hS
  obtain ⟨s1, s2, s3, s4, s5⟩ := hS rfl l1 l2
  have hsmall : (enabled_minutes_before w.sprinkler_data
      (w.sprinkler_data.programs.getD k default) (j + 1)
      - ((w.now - program_start_today w.now
          (w.sprinkler_data.programs.getD k default)) / 60).toNat) * 60 % 65536
      = (enabled_minutes_before w.sprinkler_data
          (w.sprinkler_data.programs.getD k default) (j + 1)
        - ((w.now - program_start_today w.now
            (w.sprinkler_data.programs.getD k default)) / 60).toNat) * 60 := by
    apply Nat.mod_eq_of_lt
    omega
  refine ⟨j, enabled_minutes_before w.sprinkler_data
      (w.sprinkler_data.programs.getD k default) (j + 1)
      - ((w.now - program_start_today w.now
          (w.sprinkler_data.programs.getD k default)) / 60).toNat,
    hj2, hj3, ?_, ?_, ?_, hR, l1, l2, l3, l4, s1, s2, s3.trans l4, ?_, ?_⟩
  · omega
  · omega
  · omega
  · exact s4.trans hsmall
  · rw [s5]
    show ({ period_ms := _ * 1000, active := true } : timer_t) = _
    rw [hsmall]

theorem exists_least_below (P : Nat → Prop) (n : Nat) (h : ∃ i, i < n ∧ P i) :
    ∃ k, k < n ∧ P k ∧ ∀ i, i < k → ¬ P i := by
  classical
  obtain ⟨i, hi, hp⟩ := h
  have hex : ∃ i, P i := ⟨i, hp⟩
  exact ⟨Nat.find hex, lt_of_le_of_lt (Nat.find_min' hex hp) hi, Nat.find_spec hex,
    fun i hlt => Nat.find_min hex hlt⟩

/-- C38. When `sprinkler_controller_start` resumes a program through recovery (the
controller was stopped, the store lock is available, the recovery check reports
`should_resume`; slots hold id 0 or their slot number plus one, reference counts are at
most `MAX_ZONES_PER_PROGRAM`, and every program's enabled durations total fewer than
1093 minutes), there are a slot `k`, a reference index `j` and a number `remaining` with:
reference `j` of the program in slot `k` points to an enabled zone, the recovery record is
`(k + 1, j, remaining)`, `executor_get_program_zone_operation` returns that reference
enabled at exactly index `j`, `1 ≤ remaining ≤ duration of reference j`, and
`now + 60 * remaining` equals the scheduled end of reference `j` (program start plus 60
times the enabled minutes up to and including `j`) plus `(now - program_start) mod 60`
seconds; the engine state then holds program `k + 1`, index `j`, that zone,
`60 * remaining` seconds, and the timer is armed for that time. -/
theorem start_resumes_enabled_reference_on_schedule (w : World)
    (hstop : w.controller_running = false) (hm : w.mutex_free = true)
    (hagree : ∀ i, i < MAX_PROGRAMS →
      (w.sprinkler_data.programs.getD i default).id = 0 ∨
        (w.sprinkler_data.programs.getD i default).id = i + 1)
    (hcnt : ∀ i, i < MAX_PROGRAMS →
      (w.sprinkler_data.programs.getD i default).zone_count ≤ MAX_ZONES_PER_PROGRAM)
    (htot : ∀ i, i < MAX_PROGRAMS →
      enabled_minutes_before w.sprinkler_data (w.sprinkler_data.programs.getD i default)
        (w.sprinkler_data.programs.getD i default).zone_count < 1093)
    (hres : (check_program_recovery_operation
      (update_all_programs_next_run_loop MAX_PROGRAMS 0
        { w with controller_running := true }).sprinkler_data w.now {}).should_resume = true) :
    ∃ k j remaining,
      k < MAX_PROGRAMS ∧
      (w.sprinkler_data.programs.getD k default).id = k + 1 ∧
      j < (w.sprinkler_data.programs.getD k default).zone_count ∧
      zone_ref_enabled w.sprinkler_data
        ((w.sprinkler_data.programs.getD k default).zones.getD j default) = true ∧
      1 ≤ remaining ∧
      remaining ≤ ((w.sprinkler_data.programs.getD k default).zones.getD j default).duration ∧
      w.now + 60 * (remaining : Int)
        = program_start_today w.now (w.sprinkler_data.programs.getD k default)
          + 60 * (enabled_minutes_before w.sprinkler_data
              (w.sprinkler_data.programs.getD k default) (j + 1) : Int)
          + (w.now - program_start_today w.now (w.sprinkler_data.programs.getD k default)) % 60 ∧
      check_program_recovery_operation
          (update_all_programs_next_run_loop MAX_PROGRAMS 0
            { w with controller_running := true }).sprinkler_data w.now {}
        = { should_resume := true, program_id := k + 1, zone_index := j,
            remaining_minutes := remaining } ∧
      (executor_get_program_zone_operation
          (update_all_programs_next_run_loop MAX_PROGRAMS 0
            { w with controller_running := true }).sprinkler_data
          { program_id := k + 1, zone_index := j }).program_found = true ∧
      (executor_get_program_zone_operation
          (update_all_programs_next_run_loop MAX_PROGRAMS 0
            { w with controller_running := true }).sprinkler_data
          { program_id := k + 1, zone_index := j }).zone_enabled = true ∧
      (executor_get_program_zone_operation
          (update_all_programs_next_run_loop MAX_PROGRAMS 0
            { w with controller_running := true }).sprinkler_data
          { program_id := k + 1, zone_index := j }).zone_index = j ∧
      (executor_get_program_zone_operation
          (update_all_programs_next_run_loop MAX_PROGRAMS 0
            { w with controller_running := true }).sprinkler_data
          { program_id := k + 1, zone_index := j }).zone_id
        = ((w.sprinkler_data.programs.getD k default).zones.getD j default).zone_id ∧
      (sprinkler_controller_start w).1.exec_state.current_program_id = k + 1 ∧
      (sprinkler_controller_start w).1.exec_state.current_zone_index = j ∧
      (sprinkler_controller_start w).1.exec_state.current_zone_id
        = ((w.sprinkler_data.programs.getD k default).zones.getD j default).zone_id ∧
      (sprinkler_controller_start w).1.exec_state.zone_duration_seconds = remaining * 60 ∧
      (sprinkler_controller_start w).1.zone_timer
        = { period_ms := remaining * 60 * 1000, active := true } := by
  have hex : ∃ i, i < MAX_PROGRAMS ∧
      in_recovery_window w.sprinkler_data w.now (w.sprinkler_data.programs.getD i default) := by
    obtain ⟨⟨_, _, hz, _⟩, _⟩ :=
      update_all_loop_spec MAX_PROGRAMS 0 { w with controller_running := true }
    have hz : (update_all_programs_next_run_loop MAX_PROGRAMS 0
        { w with controller_running := true }).sprinkler_data.zones
        = w.sprinkler_data.zones := hz
    have hf := update_all_at_start_fields w
    generalize (update_all_programs_next_run_loop MAX_PROGRAMS 0
      { w with controller_running := true }).sprinkler_data = D at hz hf hres
    have hno : ∀ i, i < MAX_PROGRAMS →
        enabled_minutes_before D (D.programs.getD i default)
          (D.programs.getD i default).zone_count < 65536 := by
      intro i hi
      rw [enabled_minutes_before_congr _ _ _ _ hz (hf i hi).2.2.2.1, (hf i hi).2.2.2.2]
      have := htot i hi
      omega
    obtain ⟨i, hi, hw⟩ := (recovery_resume_iff_without_overflow D w.now {} hno).1.1 hres
    exact ⟨i, hi, (in_recovery_window_congr _ _ _ _ _ hz (hf i hi).2.2.2.1 (hf i hi).1
      (hf i hi).2.1 (hf i hi).2.2.1 (hf i hi).2.2.2.2).1 hw⟩
  obtain ⟨k, hk, hwin, hlow⟩ := exists_least_below _ _ hex
  have hid : (w.sprinkler_data.programs.getD k default).id = k + 1 := by
    rcases hagree k hk with h0 | h1
    · exact absurd h0 hwin.1
    · exact h1
  obtain ⟨j, remaining, h⟩ :=
    start_resumes_window_slot w hstop hm k hk hid hwin hlow htot (hcnt k hk)
  exact ⟨k, j, remaining, hk, hid, h⟩

/-- Recovery scenario at 08:45 (program 1: zone 1 for minutes 0-30, zone 2 for minutes
30-70, start 08:00): `sprinkler_controller_start` resumes reference 1 (zone 2) for 25
minutes, 1500 seconds on the timer. -/
theorem start_resumes_enabled_reference_on_schedule_witness :
    (recovery_boot_world.controller_running = false ∧
      recovery_boot_world.mutex_free = true ∧
      (check_program_recovery_operation
        (update_all_programs_next_run_loop MAX_PROGRAMS 0
          { recovery_boot_world with controller_running := true }).sprinkler_data
        recovery_boot_world.now {}).should_resume = true) ∧
    ((sprinkler_controller_start recovery_boot_world).1.exec_state.current_program_id = 1 ∧
      (sprinkler_controller_start recovery_boot_world).1.exec_state.current_zone_index = 1 ∧
      (sprinkler_controller_start recovery_boot_world).1.exec_state.current_zone_id = 2 ∧
      (sprinkler_controller_start recovery_boot_world).1.exec_state.zone_duration_seconds
        = 1500 ∧
      (sprinkler_controller_start recovery_boot_world).1.zone_timer
        = { period_ms := 1500000, active := true }) ∧
    ∃ k j remaining,
      k < MAX_PROGRAMS ∧
      (recovery_boot_world.sprinkler_data.programs.getD k default).id = k + 1 ∧
      j < (recovery_boot_world.sprinkler_data.programs.getD k default).zone_count ∧
      zone_ref_enabled recovery_boot_world.sprinkler_data
        ((recovery_boot_world.sprinkler_data.programs.getD k default).zones.getD j default)
        = true ∧
      1 ≤ remaining ∧
      remaining
        ≤ ((recovery_boot_world.sprinkler_data.programs.getD k default).zones.getD j
            default).duration ∧
      recovery_boot_world.now + 60 * (remaining : Int)
        = program_start_today recovery_boot_world.now
            (recovery_boot_world.sprinkler_data.programs.getD k default)
          + 60 * (enabled_minutes_before recovery_boot_world.sprinkler_data
              (recovery_boot_world.sprinkler_data.programs.getD k default) (j + 1) : Int)
          + (recovery_boot_world.now - program_start_today recovery_boot_world.now
              (recovery_boot_world.sprinkler_data.programs.getD k default)) % 60 ∧
      check_program_recovery_operation
          (update_all_programs_next_run_loop MAX_PROGRAMS 0
            { recovery_boot_world with controller_running := true }).sprinkler_data
          recovery_boot_world.now {}
        = { should_resume := true, program_id := k + 1, zone_index := j,
            remaining_minutes := remaining } ∧
      (executor_get_program_zone_operation
          (update_all_programs_next_run_loop MAX_PROGRAMS 0
            { recovery_boot_world with controller_running := true }).sprinkler_data
          { program_id := k + 1, zone_index := j }).program_found = true ∧
      (executor_get_program_zone_operation
          (update_all_programs_next_run_loop MAX_PROGRAMS 0
            { recovery_boot_world with controller_running := true }).sprinkler_data
          { program_id := k + 1, zone_index := j }).zone_enabled = true ∧
      (executor_get_program_zone_operation
          (update_all_programs_next_run_loop MAX_PROGRAMS 0
            { recovery_boot_world with controller_running := true }).sprinkler_data
          { program_id := k + 1, zone_index := j }).zone_index = j ∧
      (executor_get_program_zone_operation
          (update_all_programs_next_run_loop MAX_PROGRAMS 0
            { recovery_boot_world with controller_running := true }).sprinkler_data
          { program_id := k + 1, zone_index := j }).zone_id
        = ((recovery_boot_world.sprinkler_data.programs.getD k default).zones.getD j
            default).zone_id ∧
      (sprinkler_controller_start recovery_boot_world).1.exec_state.current_program_id
        = k + 1 ∧
      (sprinkler_controller_start recovery_boot_world).1.exec_state.current_zone_index = j ∧
      (sprinkler_controller_start recovery_boot_world).1.exec_state.current_zone_id
        = ((recovery_boot_world.sprinkler_data.programs.getD k default).zones.getD j
            default).zone_id ∧
      (sprinkler_controller_start recovery_boot_world).1.exec_state.zone_duration_seconds
        = remaining * 60 ∧
      (sprinkler_controller_start recovery_boot_world).1.zone_timer
        = { period_ms := remaining * 60 * 1000, active := true } :=
  ⟨⟨by decide, by decide, by decide⟩, by decide,
    start_resumes_enabled_reference_on_schedule recovery_boot_world (by decide) (by decide)
      (by decide) (by decide) (by decide) (by decide)⟩

theorem getD_append_length {α : Type} (A : List α) (x d : α) (T : List α) :
    (A ++ x :: T).getD A.length d = x := by
  induction A with
  | nil => rfl
  | cons a A ih => simpa using ih

theorem set_append_length {α : Type} (A : List α) (x v : α) (T : List α) :
    (A ++ x :: T).set A.length v = A ++ v :: T := by
  induction A with
  | nil => rfl
  | cons a A _ => simp

theorem shift_zones_left_append :
    ∀ (B A : List program_zone_t) (x : program_zone_t) (C : List program_zone_t),
      ∃ y, shift_zones_left B.length A.length (A ++ x :: (B ++ C))
        = A ++ (B.map decrement_order ++ y :: C) := by
  intro B
  induction B with
  | nil =>
    intro A x C
    exact ⟨x, rfl⟩
  | cons b B ih =>
    intro A x C
    obtain ⟨y, hy⟩ := ih (A ++ [decrement_order b]) b C
    refine ⟨y, ?_⟩
    have h1 : (A ++ x :: (b :: B ++ C)).getD (A.length + 1) default = b := by
      have := getD_append_length (A ++ [x]) b default (B ++ C)
      simpa using this
    have h2 : (A ++ x :: (b :: B ++ C)).set A.length (decrement_order b)
        = (A ++ [decrement_order b]) ++ b :: (B ++ C) := by
      rw [set_append_length]
      simp
    have h3 : (A ++ [decrement_order b]).length = A.length + 1 := by simp
    show shift_zones_left B.length (A.length + 1)
        ((A ++ x :: (b :: B ++ C)).set A.length
          (decrement_order ((A ++ x :: (b :: B ++ C)).getD (A.length + 1) default))) = _
    rw [h1, h2, ← h3, hy]
    simp

theorem references_after_removal_map (z : Nat) :
    ∀ (R : List program_zone_t) (k : Nat),
      references_after_removal z k (R.map decrement_order)
        = references_after_removal z (k + 1) R := by
  intro R
  induction R with
  | nil => intro k; rfl
  | cons r R ih =>
    intro k
    by_cases h : r.zone_id = z
    · have h2 : (decrement_order r).zone_id = z := h
      simp only [List.map_cons, references_after_removal, h, h2, if_true, ih]
    · have h2 : ¬ (decrement_order r).zone_id = z := h
      simp only [List.map_cons, references_after_removal, h, h2, if_false, ih]
      rfl

theorem references_after_removal_length_le (z : Nat) :
    ∀ (R : List program_zone_t) (k : Nat), (references_after_removal z k R).length ≤ R.length := by
  intro R
  induction R with
  | nil => intro k; exact Nat.le_refl _
  | cons r R ih =>
    intro k
    by_cases h : r.zone_id = z
    · simp only [references_after_removal, h, if_true, List.length_cons]
      exact Nat.le_succ_of_le (ih _)
    · simp only [references_after_removal, h, if_false, List.length_cons]
      exact Nat.succ_le_succ (ih _)

theorem remove_zone_loop_spec (z : Nat) :
    ∀ (n : Nat) (R A C : List program_zone_t) (m : Bool), R.length = n →
      ∃ C2 m2, (references_after_removal z 0 R).length + C2.length = R.length + C.length ∧
        ∀ fuel, n ≤ fuel →
          remove_zone_loop z fuel
              { zones := A ++ (R ++ C), zone_count := A.length + R.length, j := A.length,
                program_modified := m }
            = { zones := A ++ (references_after_removal z 0 R ++ C2)
                zone_count := A.length + (references_after_removal z 0 R).length
                j := A.length + (references_after_removal z 0 R).length
                program_modified := m2 } := by
  intro n
  induction n with
  | zero =>
    intro R A C m hR
    have hR : R = [] := List.length_eq_zero.mp hR
    subst hR
    refine ⟨C, m, rfl, ?_⟩
    intro fuel _
    cases fuel with
    | zero => rfl
    | succ f => simp [remove_zone_loop, references_after_removal]
  | succ n ih =>
    intro R A C m hR
    cases R with
    | nil => simp at hR
    | cons x R =>
      have hlen : R.length = n := by simpa using hR
      have hj : A.length < A.length + (x :: R).length := by simp
      have hg : (A ++ (x :: R ++ C)).getD A.length default = x :=
        getD_append_length A x default (R ++ C)
      by_cases hx : x.zone_id = z
      · obtain ⟨y, hy⟩ := shift_zones_left_append R A x C
        obtain ⟨C2, m2, hC, hloop⟩ :=
          ih (R.map decrement_order) A (y :: C) true (by simpa using hlen)
        rw [references_after_removal_map] at hC hloop
        refine ⟨C2, m2, ?_, ?_⟩
        · simp only [references_after_removal, hx, if_true, List.length_cons,
            List.length_map] at hC ⊢
          omega
        · intro fuel hfuel
          obtain ⟨f, rfl⟩ : ∃ f, fuel = f + 1 := ⟨fuel - 1, by omega⟩
          have e1 : A.length + (x :: R).length - 1 - A.length = R.length := by
            simp only [List.length_cons]; omega
          have e2 : A.length + (x :: R).length - 1
              = A.length + (R.map decrement_order).length := by
            simp only [List.length_cons, List.length_map]; omega
          have hstep : remove_zone_loop z (f + 1)
              { zones := A ++ (x :: R ++ C), zone_count := A.length + (x :: R).length,
                j := A.length, program_modified := m }
              = remove_zone_loop z f
                  { zones := A ++ (R.map decrement_order ++ y :: C)
                    zone_count := A.length + (R.map decrement_order).length
                    j := A.length, program_modified := true } := by
            have e3 : A.length + (R.map decrement_order).length - A.length = R.length := by
              simp only [List.length_map]; omega
            simp only [remove_zone_loop, hj, if_true, hg, hx, e1, e2, e3]
            rw [← hy]
            rfl
          rw [hstep, hloop f (by omega)]
          simp only [references_after_removal, hx, if_true]
      · obtain ⟨C2, m2, hC, hloop⟩ := ih R (A ++ [x]) C m hlen
        refine ⟨C2, m2, ?_, ?_⟩
        · simp only [references_after_removal, hx, if_false, List.length_cons] at hC ⊢
          omega
        · intro fuel hfuel
          obtain ⟨f, rfl⟩ : ∃ f, fuel = f + 1 := ⟨fuel - 1, by omega⟩
          have hstep : remove_zone_loop z (f + 1)
              { zones := A ++ (x :: R ++ C), zone_count := A.length + (x :: R).length,
                j := A.length, program_modified := m }
              = remove_zone_loop z f
                  { zones := (A ++ [x]) ++ (R ++ C)
                    zone_count := (A ++ [x]).length + R.length
                    j := (A ++ [x]).length, program_modified := m } := by
            simp only [remove_zone_loop, hj, if_true, hg, hx, if_false]
            congr 1
            simp only [remove_loop_t.mk.injEq, List.length_append, List.length_cons,
              List.length_nil, List.append_assoc, List.singleton_append, List.cons_append,
              true_and, and_true]
            exact ⟨rfl, by omega⟩
          rw [hstep, hloop f (by omega)]
          simp only [references_after_removal, hx, if_false, order_decremented,
            remove_loop_t.mk.injEq, List.length_append, List.length_cons, List.length_nil,
            List.append_assoc, List.singleton_append, List.cons_append, true_and, and_true]
          exact ⟨rfl, by omega, by omega⟩

theorem remove_zone_loop_no_reference (z : Nat) (zones : List program_zone_t) (c : Nat)
    (m : Bool) :
    ∀ fuel j, (∀ i, j ≤ i → i < c → (zones.getD i default).zone_id ≠ z) → c - j ≤ fuel →
      j ≤ c →
      remove_zone_loop z fuel { zones := zones, zone_count := c, j := j, program_modified := m }
        = { zones := zones, zone_count := c, j := c, program_modified := m } := by
  intro fuel
  induction fuel with
  | zero =>
    intro j _ hf hj
    have : j = c := by omega
    subst this
    rfl
  | succ f ih =>
    intro j hno hf hj
    by_cases hlt : j < c
    · have hz := hno j (Nat.le_refl _) hlt
      simp only [remove_zone_loop, hlt, if_true, hz, if_false]
      exact ih (j + 1) (fun i hi hic => hno i (by omega) hic) (by omega) (by omega)
    · have : j = c := by omega
      subst this
      simp only [remove_zone_loop, Nat.lt_irrefl, if_false]

theorem order_decremented_eq :
    ∀ n o, n ≤ o → o < 256 → order_decremented n o = o - n := by
  intro n
  induction n with
  | zero => intro o _ _; rfl
  | succ n ih =>
    intro o h1 h2
    have e : (o + 255) % 256 = o - 1 := by omega
    simp only [order_decremented, e]
    rw [ih (o - 1) (by omega) (by omega)]
    omega

theorem references_after_removal_eq_spec (z : Nat) :
    ∀ (R : List program_zone_t) (k : Nat), (∀ r, r ∈ R → r.order < 256) →
      orders_cover_removals z k R = true →
      (references_after_removal z k R).map reference_values
        = references_without_zone z k R := by
  intro R
  induction R with
  | nil => intro k _ _; rfl
  | cons r R ih =>
    intro k hord hcov
    have hR : ∀ r2, r2 ∈ R → r2.order < 256 := fun r2 h => hord r2 (List.mem_cons_of_mem _ h)
    by_cases h : r.zone_id = z
    · simp only [orders_cover_removals, h, if_true] at hcov
      simp only [references_after_removal, references_without_zone, h, if_true]
      exact ih (k + 1) hR hcov
    · simp only [orders_cover_removals, h, if_false, Bool.and_eq_true, decide_eq_true_eq] at hcov
      simp only [references_after_removal, references_without_zone, h, if_false, List.map_cons]
      rw [ih k hR hcov.2, order_decremented_eq k r.order hcov.1 (hord r (List.mem_cons_self _ _))]
      simp only [reference_values, Nat.cast_sub hcov.1]

theorem contiguous_orders_cover (z : Nat) :
    ∀ (R : List program_zone_t) (k b : Nat), k ≤ b → contiguous_orders b R = true →
      orders_cover_removals z k R = true := by
  intro R
  induction R with
  | nil => intro k b _ _; rfl
  | cons r R ih =>
    intro k b hkb hc
    simp only [contiguous_orders, Bool.and_eq_true, decide_eq_true_eq] at hc
    by_cases h : r.zone_id = z
    · simp only [orders_cover_removals, h, if_true]
      exact ih (k + 1) (b + 1) (by omega) hc.2
    · simp only [orders_cover_removals, h, if_false, Bool.and_eq_true, decide_eq_true_eq]
      exact ⟨by omega, ih k (b + 1) (by omega) hc.2⟩

theorem contiguous_orders_lt :
    ∀ (R : List program_zone_t) (b : Nat), contiguous_orders b R = true →
      ∀ r, r ∈ R → r.order < b + R.length := by
  intro R
  induction R with
  | nil => intro b _ r hr; cases hr
  | cons a R ih =>
    intro b hc r hr
    simp only [contiguous_orders, Bool.and_eq_true, decide_eq_true_eq] at hc
    simp only [List.length_cons]
    rcases List.mem_cons.mp hr with h | h
    · rw [h]; omega
    · have := ih (b + 1) hc.2 r h
      omega

theorem contiguous_orders_after_removal (z : Nat) :
    ∀ (R : List program_zone_t) (k b : Nat), k ≤ b → b + R.length ≤ 256 →
      contiguous_orders b R = true →
      contiguous_orders (b - k) (references_after_removal z k R) = true := by
  intro R
  induction R with
  | nil => intro k b _ _ _; rfl
  | cons r R ih =>
    intro k b hkb hlen hc
    simp only [contiguous_orders, Bool.and_eq_true, decide_eq_true_eq] at hc
    simp only [List.length_cons] at hlen
    by_cases h : r.zone_id = z
    · simp only [references_after_removal, h, if_true]
      have := ih (k + 1) (b + 1) (by omega) (by omega) hc.2
      have e : b + 1 - (k + 1) = b - k := by omega
      rw [e] at this
      exact this
    · simp only [references_after_removal, h, if_false, contiguous_orders, Bool.and_eq_true,
        decide_eq_true_eq]
      refine ⟨?_, ?_⟩
      · rw [order_decremented_eq k r.order (by omega) (by omega)]
        omega
      · have := ih k (b + 1) (by omega) (by omega) hc.2
        have e : b + 1 - k = b - k + 1 := by omega
        rw [e] at this
        exact this

/-- C40, amended. For a program in a slot `1..MAX_PROGRAMS` that the helper accepts,
with `zone_count <= MAX_ZONES_PER_PROGRAM`, the loop of
`sprinkler_remove_zone_from_program` ends within `zone_count` iterations (more fuel gives
the same state, and the final state has `j = zone_count`), and the program's references
afterwards are `references_after_removal`: the references whose `zone_id` differs from
the removed id, in their original order, `zone_id` and `duration` unchanged, `order`
decremented once per removed predecessor in `uint8_t` arithmetic; `zone_count` is the
length of that list and the other fields of the program are unchanged. When every kept
order is at least the number of removed predecessors, the values of these references are
the list `references_without_zone`: each order is the original order minus the number
of removed references before it. This is the case when the orders are the contiguous
sequence 0, 1, ..., and the orders are then contiguous again afterwards. A program
holding no reference to the zone leaves the world unchanged: nothing is persisted and
the result is `ESP_OK`. -/
theorem remove_zone_from_program_refines_spec (w : World) (program_id z : Nat)
    (h1 : 1 ≤ program_id) (h2 : program_id ≤ w.sprinkler_data.program_count)
    (h3 : program_id ≤ MAX_PROGRAMS)
    (hlenp : w.sprinkler_data.programs.length = MAX_PROGRAMS)
    (hlen : (w.sprinkler_data.programs.getD (program_id - 1) default).zones.length
      = MAX_ZONES_PER_PROGRAM)
    (hcnt : (w.sprinkler_data.programs.getD (program_id - 1) default).zone_count
      ≤ MAX_ZONES_PER_PROGRAM) :
    (∀ fuel, (w.sprinkler_data.programs.getD (program_id - 1) default).zone_count ≤ fuel →
      remove_zone_loop z fuel
          { zones := (w.sprinkler_data.programs.getD (program_id - 1) default).zones
            zone_count := (w.sprinkler_data.programs.getD (program_id - 1) default).zone_count
            j := 0, program_modified := false }
        = remove_zone_loop z
            (w.sprinkler_data.programs.getD (program_id - 1) default).zone_count
            { zones := (w.sprinkler_data.programs.getD (program_id - 1) default).zones
              zone_count := (w.sprinkler_data.programs.getD (program_id - 1) default).zone_count
              j := 0, program_modified := false }) ∧
    (remove_zone_loop z (w.sprinkler_data.programs.getD (program_id - 1) default).zone_count
        { zones := (w.sprinkler_data.programs.getD (program_id - 1) default).zones
          zone_count := (w.sprinkler_data.programs.getD (program_id - 1) default).zone_count
          j := 0, program_modified := false }).j
      = (remove_zone_loop z (w.sprinkler_data.programs.getD (program_id - 1) default).zone_count
        { zones := (w.sprinkler_data.programs.getD (program_id - 1) default).zones
          zone_count := (w.sprinkler_data.programs.getD (program_id - 1) default).zone_count
          j := 0, program_modified := false }).zone_count ∧
    program_references
        ((sprinkler_remove_zone_from_program w program_id z).1.sprinkler_data.programs.getD
          (program_id - 1) default)
      = references_after_removal z 0
          (program_references (w.sprinkler_data.programs.getD (program_id - 1) default)) ∧
    ((sprinkler_remove_zone_from_program w program_id z).1.sprinkler_data.programs.getD
        (program_id - 1) default).zone_count
      = (references_after_removal z 0
          (program_references
            (w.sprinkler_data.programs.getD (program_id - 1) default))).length ∧
    ((sprinkler_remove_zone_from_program w program_id z).1.sprinkler_data.programs.getD
        (program_id - 1) default).zones.length = MAX_ZONES_PER_PROGRAM ∧
    { (sprinkler_remove_zone_from_program w program_id z).1.sprinkler_data.programs.getD
        (program_id - 1) default with
      zones := (w.sprinkler_data.programs.getD (program_id - 1) default).zones
      zone_count := (w.sprinkler_data.programs.getD (program_id - 1) default).zone_count }
      = w.sprinkler_data.programs.getD (program_id - 1) default ∧
    ((∀ r, r ∈ program_references (w.sprinkler_data.programs.getD (program_id - 1) default) →
        r.order < 256) →
      orders_cover_removals z 0
        (program_references (w.sprinkler_data.programs.getD (program_id - 1) default)) = true →
      (program_references
          ((sprinkler_remove_zone_from_program w program_id z).1.sprinkler_data.programs.getD
            (program_id - 1) default)).map reference_values
        = references_without_zone z 0
            (program_references (w.sprinkler_data.programs.getD (program_id - 1) default))) ∧
    (contiguous_orders 0
        (program_references (w.sprinkler_data.programs.getD (program_id - 1) default)) = true →
      (program_references
          ((sprinkler_remove_zone_from_program w program_id z).1.sprinkler_data.programs.getD
            (program_id - 1) default)).map reference_values
        = references_without_zone z 0
            (program_references (w.sprinkler_data.programs.getD (program_id - 1) default)) ∧
      contiguous_orders 0
        (program_references
          ((sprinkler_remove_zone_from_program w program_id z).1.sprinkler_data.programs.getD
            (program_id - 1) default)) = true) ∧
    ((∀ i, i < (w.sprinkler_data.programs.getD (program_id - 1) default).zone_count →
        ((w.sprinkler_data.programs.getD (program_id - 1) default).zones.getD i default).zone_id
          ≠ z) →
      sprinkler_remove_zone_from_program w program_id z = (w, ESP_OK)) := by
  have hacc : ¬ (program_id > w.sprinkler_data.program_count ∨ program_id = 0) := by omega
  have hacc2 := program_slot_access_in_range w program_id h1 h3
  generalize hP : w.sprinkler_data.programs.getD (program_id - 1) default = P at hlen hcnt ⊢
  have hsplit : P.zones = [] ++ (P.zones.take P.zone_count ++ P.zones.drop P.zone_count) := by
    simp only [List.nil_append, List.take_append_drop]
  have hRlen : (P.zones.take P.zone_count).length = P.zone_count := by
    rw [List.length_take]
    omega
  obtain ⟨C2, m2, hC, hloop⟩ := remove_zone_loop_spec z P.zone_count
    (P.zones.take P.zone_count) [] (P.zones.drop P.zone_count) false hRlen
  have hloop2 : ∀ fuel, P.zone_count ≤ fuel →
      remove_zone_loop z fuel
          { zones := P.zones, zone_count := P.zone_count, j := 0, program_modified := false }
        = { zones := references_after_removal z 0 (P.zones.take P.zone_count) ++ C2
            zone_count := (references_after_removal z 0 (P.zones.take P.zone_count)).length
            j := (references_after_removal z 0 (P.zones.take P.zone_count)).length
            program_modified := m2 } := by
    intro fuel hf
    have := hloop fuel hf
    simp only [List.nil_append, List.take_append_drop, List.length_nil, Nat.zero_add,
      hRlen] at this
    exact this
  have hres : (sprinkler_remove_zone_from_program w program_id z).1.sprinkler_data.programs
      = w.sprinkler_data.programs.set (program_id - 1)
          { P with
            zones := references_after_removal z 0 (P.zones.take P.zone_count) ++ C2
            zone_count := (references_after_removal z 0 (P.zones.take P.zone_count)).length } := by
    simp only [sprinkler_remove_zone_from_program, hacc, if_false, hacc2, hP,
      hloop2 P.zone_count (Nat.le_refl _)]
    split
    · rw [sprinkler_save_program_data]
      rfl
    · rfl
  have hget : (sprinkler_remove_zone_from_program w program_id z).1.sprinkler_data.programs.getD
      (program_id - 1) default
      = { P with
          zones := references_after_removal z 0 (P.zones.take P.zone_count) ++ C2
          zone_count := (references_after_removal z 0 (P.zones.take P.zone_count)).length } := by
    rw [hres]
    exact getD_set_self _ _ _ _ (by omega)
  have hrefs : program_references
      ((sprinkler_remove_zone_from_program w program_id z).1.sprinkler_data.programs.getD
        (program_id - 1) default)
      = references_after_removal z 0 (program_references P) := by
    rw [hget]
    simp only [program_references, List.take_left']
  have hdrop : (P.zones.drop P.zone_count).length = P.zones.length - P.zone_count :=
    List.length_drop _ _
  refine ⟨fun fuel hf => by rw [hloop2 fuel hf, hloop2 P.zone_count (Nat.le_refl _)],
    by rw [hloop2 P.zone_count (Nat.le_refl _)], hrefs, by rw [hget]; rfl, ?_,
    by rw [hget], ?_, ?_, ?_⟩
  · rw [hget]
    simp only [List.length_append]
    omega
  · intro hord hcov
    rw [hrefs]
    exact references_after_removal_eq_spec z _ 0 hord hcov
  · intro hcon
    have hRl : (program_references P).length = P.zone_count := hRlen
    have hord : ∀ r, r ∈ program_references P → r.order < 256 := by
      intro r hr
      have := contiguous_orders_lt _ 0 hcon r hr
      simp only [MAX_ZONES_PER_PROGRAM] at hcnt
      omega
    rw [hrefs]
    refine ⟨references_after_removal_eq_spec z _ 0 hord
      (contiguous_orders_cover z _ 0 0 (Nat.le_refl _) hcon), ?_⟩
    have := contiguous_orders_after_removal z (program_references P) 0 0 (Nat.le_refl _)
      (by simp only [MAX_ZONES_PER_PROGRAM] at hcnt; omega) hcon
    exact this
  · intro hno
    have hl := remove_zone_loop_no_reference z P.zones P.zone_count false P.zone_count 0
      (fun i _ hi => hno i hi) (by omega) (Nat.zero_le _)
    simp only [sprinkler_remove_zone_from_program, hacc, if_false, hacc2, hP, hl,
      Bool.false_eq_true]
    have hset : set_program w (program_id - 1) P = w := by
      simp only [set_program, ← hP, set_getD_self]
    exact congrArg (fun x => (x, ESP_OK)) hset

/-- Instance of C40 (amended): program 1 references zones 1, 2, 1, 3 with orders 0, 1, 2,
3; removing zone 1 leaves zone 2 with order 0 and zone 3 with order 1. -/
theorem remove_zone_from_program_refines_spec_witness :
    (1 ≤ 1 ∧ 1 ≤ ordered_refs_world.sprinkler_data.program_count ∧ 1 ≤ MAX_PROGRAMS ∧
      ordered_refs_world.sprinkler_data.programs.length = MAX_PROGRAMS ∧
      (ordered_refs_world.sprinkler_data.programs.getD (1 - 1) default).zones.length
        = MAX_ZONES_PER_PROGRAM ∧
      (ordered_refs_world.sprinkler_data.programs.getD (1 - 1) default).zone_count
        ≤ MAX_ZONES_PER_PROGRAM ∧
      contiguous_orders 0
        (program_references (ordered_refs_world.sprinkler_data.programs.getD (1 - 1) default))
        = true) ∧
    program_references (ordered_refs_world.sprinkler_data.programs.getD 0 default)
      = [ { zone_id := 1, duration := 10, order := 0 }, { zone_id := 2, duration := 5, order := 1 },
          { zone_id := 1, duration := 7, order := 2 }, { zone_id := 3, duration := 9, order := 3 } ] ∧
    references_without_zone 1 0
        (program_references (ordered_refs_world.sprinkler_data.programs.getD (1 - 1) default))
      = [ { zone_id := 2, duration := 5, order := 0 }, { zone_id := 3, duration := 9, order := 1 } ] ∧
    ((program_references
        ((sprinkler_remove_zone_from_program ordered_refs_world 1 1).1.sprinkler_data.programs.getD
          (1 - 1) default)).map reference_values
      = references_without_zone 1 0
          (program_references (ordered_refs_world.sprinkler_data.programs.getD (1 - 1) default)) ∧
      contiguous_orders 0
        (program_references
          ((sprinkler_remove_zone_from_program ordered_refs_world 1
            1).1.sprinkler_data.programs.getD (1 - 1) default)) = true) ∧
    ((sprinkler_remove_zone_from_program ordered_refs_world 1 1).1.sprinkler_data.programs.getD
      (1 - 1) default).zone_count = 2 ∧
    sprinkler_remove_zone_from_program ordered_refs_world 1 4 = (ordered_refs_world, ESP_OK) :=
  ⟨⟨by decide, by decide, by decide, by decide, by decide, by decide, by decide⟩,
    by decide, by decide,
    (remove_zone_from_program_refines_spec ordered_refs_world 1 1 (by decide) (by decide)
      (by decide) (by decide) (by decide) (by decide)).2.2.2.2.2.2.2.1 (by decide),
    by decide,
    (remove_zone_from_program_refines_spec ordered_refs_world 1 4 (by decide) (by decide)
      (by decide) (by decide) (by decide) (by decide)).2.2.2.2.2.2.2.2 (by decide)⟩

/-- C40, counterexample. Program 1 holds the references (zone 1, 10 min, order 0) and
(zone 2, 5 min, order 0), stored through `sprinkler_add_zone_to_program`, which keeps the
order values of the caller; the helper accepts the program and `zone_count` is 2.
`sprinkler_remove_zone_from_program(1, 1)` (also reached through
`sprinkler_remove_zone(1)`) leaves the single reference (zone 2, 5 min) with order 255,
whereas the original order 0 decreased by the one removed reference before it is -1:
the `uint8_t` field cannot hold that value and `order -= 1` wraps. -/
theorem remove_zone_wraps_order_of_kept_reference :
    equal_orders_world.sprinkler_data.program_count = 1 ∧
    (equal_orders_world.sprinkler_data.programs.getD 0 default).zone_count = 2 ∧
    program_references (equal_orders_world.sprinkler_data.programs.getD 0 default)
      = [ { zone_id := 1, duration := 10, order := 0 },
          { zone_id := 2, duration := 5, order := 0 } ] ∧
    (sprinkler_remove_zone_from_program equal_orders_world 1 1).2 = ESP_OK ∧
    (program_references
        ((sprinkler_remove_zone_from_program equal_orders_world 1 1).1.sprinkler_data.programs.getD
          0 default)).map reference_values
      = [ { zone_id := 2, duration := 5, order := 255 } ] ∧
    (sprinkler_remove_zone equal_orders_world 1).2 = ESP_OK ∧
    (program_references
        ((sprinkler_remove_zone equal_orders_world 1).1.sprinkler_data.programs.getD 0
          default)).map reference_values
      = [ { zone_id := 2, duration := 5, order := 255 } ] ∧
    references_without_zone 1 0
        (program_references (equal_orders_world.sprinkler_data.programs.getD 0 default))
      = [ { zone_id := 2, duration := 5, order := -1 } ] ∧
    (program_references
        ((sprinkler_remove_zone_from_program equal_orders_world 1 1).1.sprinkler_data.programs.getD
          0 default)).map reference_values
      ≠ references_without_zone 1 0
          (program_references (equal_orders_world.sprinkler_data.programs.getD 0 default)) := by
  decide

end RainMaker
